import Mathlib

/-!
Verification development for the babyflow repository: a shallow embedding of
the push-based dataflow runtime (`src/babyflow.rs`), the Datalog compiler
(`src/main.rs`), the combinator operators (`src/query.rs`) and the scheduler
(`src/babyflow/mod.rs`), together with theorems about their behaviour.

Rust `HashMap`/`HashSet`/`BTreeMap` values are embedded as association lists
resp. membership lists (only `get`/`insert`/`contains` are used by the code,
except `BTreeMap::iter` which iterates in ascending key order, maintained here
as a sorted association list).  `VecDeque` is a `List` whose head is the front.
Machine integers (`i64`, `usize`) are embedded as `Int`/`Nat`; the only place a
bound matters is the `usize::MAX` sentinel for the outbox, kept as a literal.
Panics (`unwrap`, out-of-range indexing, the join's `unhandled` port arm) are
embedded as `Option`/`Except` failures.
-/

namespace Babyflow

/-- `Datum` from `src/main.rs`. -/
inductive Datum where
  | int : Int → Datum
deriving DecidableEq, Repr

/-- Rows flowing through the compiled dataflow are `Vec<Datum>`. -/
abbrev Row := List Datum

/-- `ColExpr` from `src/main.rs`. -/
inductive ColExpr where
  | datum : Datum → ColExpr
  | var : Nat → ColExpr
deriving DecidableEq, Repr

/-- `PredExpr` from `src/main.rs`. -/
inductive PredExpr where
  | eqConstant : Nat → Datum → PredExpr
  | eqCol : Nat → Nat → PredExpr
deriving DecidableEq, Repr

/-- The ways the Rust code can panic while running a compiled dataflow:
`badPort` is the `_ => panic!("unhandled")` arm of the join's port dispatch,
`badIdx` is any out-of-bounds `Vec` index. -/
inductive Err where
  | badPort
  | badIdx
deriving DecidableEq, Repr

/-- `v[i]` on a `Vec<Datum>`: panics (here: errors) when out of range. -/
def rowGet (v : Row) (i : Nat) : Except Err Datum :=
  match v[i]? with
  | some d => .ok d
  | none => .error .badIdx

/-- `PredExpr::eval` from `src/main.rs`. -/
def PredExpr.eval : PredExpr → Row → Except Err Bool
  | .eqConstant i d, v => do pure (decide ((← rowGet v i) = d))
  | .eqCol i j, v => do pure (decide ((← rowGet v i) = (← rowGet v j)))

/-- `preds.iter().all(|p| p.eval(&v))` in the `Select` arm. -/
def evalAll (ps : List PredExpr) (v : Row) : Except Err Bool :=
  match ps with
  | [] => .ok true
  | p :: rest => do
      let b ← p.eval v
      if b then evalAll rest v else pure false

/-- One column of the `Project` arm's output row. -/
def projCol (v : Row) : ColExpr → Except Err Datum
  | .datum d => .ok d
  | .var i => rowGet v i

/-- The `Project` arm's output row for input row `v`, columns left to
right. -/
def projRow (cols : List ColExpr) (v : Row) : Except Err Row :=
  match cols with
  | [] => .ok []
  | c :: rest => do
      let d ← projCol v c
      let tl ← projRow rest v
      pure (d :: tl)

/-- `key.iter().map(|i| row[*i].clone()).collect()`: the join key of a row. -/
def keyRow (ks : List Nat) (v : Row) : Except Err Row :=
  match ks with
  | [] => .ok []
  | i :: rest => do
      let d ← rowGet v i
      let tl ← keyRow rest v
      pure (d :: tl)

/-- `HashMap<Vec<Datum>, Vec<Vec<Datum>>>::get` on an association list. -/
def tget (t : List (Row × List Row)) (k : Row) : Option (List Row) :=
  match t with
  | [] => none
  | (k', vs) :: rest => if k = k' then some vs else tget rest k

/-- `table.entry(key).or_insert_with(Vec::new).push(row)`:
append `v` to the entry at `k`, creating the entry when absent. -/
def tpush (t : List (Row × List Row)) (k : Row) (v : Row) : List (Row × List Row) :=
  match t with
  | [] => [(k, [v])]
  | (k', vs) :: rest =>
      if k = k' then (k', vs ++ [v]) :: rest else (k', vs) :: tpush rest k v

/-- `DataOp` from `src/main.rs`.  The `Distinct` `HashSet` is a membership
list, the `Join` hash indices are association lists. -/
inductive DataOp where
  | source : List Row → DataOp
  | project : List ColExpr → DataOp
  | distinct : List Row → DataOp
  | select : List PredExpr → DataOp
  | join : List Nat → List (Row × List Row) → List Nat → List (Row × List Row) → DataOp
deriving DecidableEq, Repr

/-- `Ctx::recv` from `src/babyflow.rs`: `to_recv.pop_back()`.  The inbox list
is kept in arrival order (front first), so `recv` removes the last element. -/
def ctxRecv {α : Type} : List α → Option (α × List α)
  | [] => none
  | x :: xs =>
      match ctxRecv xs with
      | none => some (x, [])
      | some (y, rest) => some (y, x :: rest)

/-- Repeatedly `recv` until `recv` returns `None` (`n` bounds the number of
calls; a full drain passes the queue's length). -/
def drainFuel {α : Type} : Nat → List α → List α
  | 0, _ => []
  | n + 1, l =>
      match ctxRecv l with
      | none => []
      | some (y, rest) => y :: drainFuel n rest

/-- The sequence of messages a fully draining operator body receives from its
inbox, via repeated `Ctx::recv`. -/
def drainAll {α : Type} (l : List α) : List α :=
  drainFuel l.length l

/-- The `Select` arm of `DataOp::run`, on the messages in received order:
emit each row on which every predicate evaluates to true. -/
def runSelect (ps : List PredExpr) : List (Row × Nat) → Except Err (List Row)
  | [] => .ok []
  | (v, _) :: rest => do
      let b ← evalAll ps v
      let tl ← runSelect ps rest
      pure (if b then v :: tl else tl)

/-- The `Project` arm of `DataOp::run`, on the messages in received order. -/
def runProject (cols : List ColExpr) : List (Row × Nat) → Except Err (List Row)
  | [] => .ok []
  | (v, _) :: rest => do
      let r ← projRow cols v
      let tl ← runProject cols rest
      pure (r :: tl)

/-- The `Distinct` arm of `DataOp::run`, on the messages in received order:
returns the updated seen-set and the emitted rows. -/
def runDistinct (seen : List Row) : List (Row × Nat) → List Row × List Row
  | [] => (seen, [])
  | (v, _) :: rest =>
      if v ∈ seen then runDistinct seen rest
      else
        let (s', em) := runDistinct (v :: seen) rest
        (s', v :: em)

/-- The `Join` arm of `DataOp::run`, on the messages in received order.
Port 0: key the row by `left_key`, probe the right index, emit `row ++ m`
for every match, then push the row into the left index; port 1 symmetric
with emission `m ++ row`; any other port is the `panic!("unhandled")` arm. -/
def runJoin (lk rk : List Nat) :
    List (Row × List Row) → List (Row × List Row) → List (Row × Nat) →
    Except Err (List (Row × List Row) × List (Row × List Row) × List Row)
  | lt, rt, [] => .ok (lt, rt, [])
  | lt, rt, (row, port) :: rest =>
      if port = 0 then do
        let k ← keyRow lk row
        let ems := match tget rt k with
          | some ms => ms.map (fun m => row ++ m)
          | none => []
        let (ltf, rtf, em') ← runJoin lk rk (tpush lt k row) rt rest
        pure (ltf, rtf, ems ++ em')
      else if port = 1 then do
        let k ← keyRow rk row
        let ems := match tget lt k with
          | some ms => ms.map (fun m => m ++ row)
          | none => []
        let (ltf, rtf, em') ← runJoin lk rk lt (tpush rt k row) rest
        pure (ltf, rtf, ems ++ em')
      else .error .badPort

/-- `DataOp::run` from `src/main.rs` under the `Dataflow::run` calling
convention of `src/babyflow.rs`: the operator receives the swapped-out inbox,
drains it via `Ctx::recv` (back first), and the leftover queue is swapped
back.  Result: updated operator, leftover inbox, rows sent.  `Source` drains
its own vector and never calls `recv`, so its inbox is left intact; every
other arm drains the inbox to empty. -/
def DataOp.runModel : DataOp → List (Row × Nat) →
    Except Err (DataOp × List (Row × Nat) × List Row)
  | .source v, inbox => .ok (.source [], inbox, v)
  | .project cols, inbox => do
      let em ← runProject cols (drainAll inbox)
      pure (.project cols, [], em)
  | .select ps, inbox => do
      let em ← runSelect ps (drainAll inbox)
      pure (.select ps, [], em)
  | .distinct seen, inbox =>
      let (s', em) := runDistinct seen (drainAll inbox)
      .ok (.distinct s', [], em)
  | .join lk lt rk rt, inbox => do
      let (lt', rt', em) ← runJoin lk rk lt rt (drainAll inbox)
      pure (.join lk lt' rk rt', [], em)

/-- `Schedule` (identical in `src/babyflow.rs` and `src/babyflow/mod.rs`):
a `VecDeque` of pending ids plus a `HashSet` membership list. -/
structure Sched where
  order : List Nat
  members : List Nat
deriving DecidableEq, Repr

/-- `Schedule::insert`: enqueue at the back iff not already a member. -/
def Sched.insert (s : Sched) (t : Nat) : Sched :=
  if t ∈ s.members then s else ⟨s.order ++ [t], t :: s.members⟩

/-- `Schedule::pop`: dequeue the front id and remove it from the members. -/
def Sched.pop (s : Sched) : Option (Nat × Sched) :=
  match s.order with
  | [] => none
  | t :: rest => some (t, ⟨rest, s.members.erase t⟩)

/-- `Dataflow` from `src/babyflow.rs`, specialised to `DataOp` messages
`Vec<Datum>` as in `src/main.rs`. -/
structure DF where
  operators : List DataOp
  outputs : List (List (Nat × Nat))
  inboxes : List (List (Row × Nat))
  schedule : Sched
  outbox : List Row
deriving DecidableEq, Repr

/-- The `usize::MAX` outbox sentinel returned by `Dataflow::new`. -/
def uMAX : Nat := 18446744073709551615

/-- `Dataflow::new()`: empty graph plus the `usize::MAX` outbox handle. -/
def DF.new : DF × Nat :=
  (⟨[], [], [], ⟨[], []⟩, []⟩, uMAX)

/-- `Dataflow::add_op`: append the operator with a fresh inbox and fan-out
list and schedule it; returns its dense id. -/
def DF.addOp (df : DF) (o : DataOp) : DF × Nat :=
  (⟨df.operators ++ [o], df.outputs ++ [[]], df.inboxes ++ [[]],
    df.schedule.insert df.operators.length, df.outbox⟩,
   df.operators.length)

/-- `Dataflow::add_edge`: `outputs[from].push((to, in_port))`; indexing
`outputs[from]` panics when `from` is out of range. -/
def DF.addEdge (df : DF) (src dst port : Nat) : Option DF :=
  match df.outputs[src]? with
  | none => none
  | some l => some { df with outputs := df.outputs.set src (l ++ [(dst, port)]) }

/-- `Dataflow::send`: the `usize::MAX` receiver is the outbox; otherwise push
the message at the back of the receiver's inbox and schedule the receiver. -/
def DF.send (df : DF) (m : Row) (recvId port : Nat) : Except Err DF :=
  if recvId = uMAX then .ok { df with outbox := df.outbox ++ [m] }
  else
    match df.inboxes[recvId]? with
    | none => .error .badIdx
    | some ib =>
        .ok { df with inboxes := df.inboxes.set recvId (ib ++ [(m, port)]),
                      schedule := df.schedule.insert recvId }

/-- `Dataflow::send_from`: fan one sent message out to every subscriber of
the sending operator (the Rust code peels off the last subscriber to avoid a
clone; the sequence of `send` calls is the same). -/
def DF.sendFrom (df : DF) (idx : Nat) (m : Row) : Except Err DF :=
  match df.outputs[idx]? with
  | none => .error .badIdx
  | some targets =>
      targets.foldlM (fun d (tp : Nat × Nat) => d.send m tp.1 tp.2) df

/-- The dispatch loop after one operator invocation:
`for msg in ctx.sent.drain(..) { self.send_from(op, msg); }`. -/
def DF.dispatch (df : DF) (idx : Nat) (sent : List Row) : Except Err DF :=
  sent.foldlM (fun d m => d.sendFrom idx m) df

/-- One iteration of `Dataflow::run`: pop an operator id (`.ok none` =
schedule empty = quiescent), swap its inbox into a fresh context, run the
operator, swap the leftover back, then dispatch everything it sent. -/
def DF.step (df : DF) : Except Err (Option DF) :=
  match df.schedule.pop with
  | none => .ok none
  | some (op, sch') =>
      match df.operators[op]?, df.inboxes[op]? with
      | some o, some inbox => do
          let (o', leftover, sent) ← o.runModel inbox
          let df' : DF := { df with
            operators := df.operators.set op o',
            inboxes := df.inboxes.set op leftover,
            schedule := sch' }
          let df'' ← df'.dispatch op sent
          pure (some df'')
      | _, _ => .error .badIdx

/-- Result of running the loop with bounded fuel: `.ok` = quiescent with the
final outbox, `.out` = fuel exhausted, `.err` = a panic. -/
inductive RunRes where
  | ok (outbox : List Row)
  | out (df : DF)
  | err (e : Err)
deriving DecidableEq, Repr

/-- `Dataflow::run` with fuel: iterate `step` until quiescent. -/
def runFuel : Nat → DF → RunRes
  | 0, df => .out df
  | n + 1, df =>
      match df.step with
      | .error e => .err e
      | .ok none => .ok df.outbox
      | .ok (some df') => runFuel n df'

/-- `Expr` from `src/main.rs`. -/
inductive Expr where
  | datum : Datum → Expr
  | var : String → Expr
deriving DecidableEq, Repr

/-- `Predicate` from `src/main.rs` (names and variables already interned);
the Rust field `variables` is renamed `vars` (`variable` is a Lean keyword). -/
structure Pred where
  name : Nat
  constants : List (Nat × Datum)
  vars : List (Nat × Nat)
deriving DecidableEq, Repr

/-- `Relation` from `src/main.rs`. -/
structure Relation where
  clauses : List (Pred × List Pred)
deriving DecidableEq, Repr

/-- `Program` from `src/main.rs`: the interning `HashMap<String, Ident>` is an
association list (fresh id = current size), the `BTreeMap<Ident, Relation>`
is an association list kept sorted ascending by key, matching the map's
iteration order. -/
structure Program where
  idents : List (String × Nat)
  relations : List (Nat × Relation)
deriving DecidableEq, Repr

/-- Association-list lookup, generic in the key/value types. -/
def alookup {κ α : Type} [DecidableEq κ] : List (κ × α) → κ → Option α
  | [], _ => none
  | (k', v) :: rest, k => if k = k' then some v else alookup rest k

/-- `Program::new()`. -/
def Program.new : Program := ⟨[], []⟩

/-- `Program::intern`. -/
def Program.intern (p : Program) (name : String) : Program × Nat :=
  match alookup p.idents name with
  | some id => (p, id)
  | none => ({ p with idents := p.idents ++ [(name, p.idents.length)] }, p.idents.length)

/-- The argument loop of `Program::intern_predicate`, splitting the arguments
into positioned constants and interned positioned variables. -/
def internArgs (p : Program) (i : Nat) :
    List Expr → Program × List (Nat × Datum) × List (Nat × Nat)
  | [] => (p, [], [])
  | .datum d :: rest =>
      let (p', cs, vs) := internArgs p (i + 1) rest
      (p', (i, d) :: cs, vs)
  | .var s :: rest =>
      let (p', id) := p.intern s
      let (p'', cs, vs) := internArgs p' (i + 1) rest
      (p'', cs, (i, id) :: vs)

/-- `Program::intern_predicate`. -/
def Program.internPredicate (p : Program) (name : String) (args : List Expr) :
    Program × Pred :=
  let (p', nm) := p.intern name
  let (p'', cs, vs) := internArgs p' 0 args
  (p'', ⟨nm, cs, vs⟩)

/-- Interning of a clause body, left to right. -/
def internBody (p : Program) : List (String × List Expr) → Program × List Pred
  | [] => (p, [])
  | (nm, args) :: rest =>
      let (p', pr) := p.internPredicate nm args
      let (p'', prs) := internBody p' rest
      (p'', pr :: prs)

/-- `BTreeMap::get_mut` + clause push, or sorted insertion of a fresh
relation (`BTreeMap` iterates in ascending key order). -/
def relInsert (cl : Pred × List Pred) :
    List (Nat × Relation) → Nat → List (Nat × Relation)
  | [], k => [(k, ⟨[cl]⟩)]
  | (k', r) :: rest, k =>
      if k = k' then (k', ⟨r.clauses ++ [cl]⟩) :: rest
      else if k < k' then (k, ⟨[cl]⟩) :: (k', r) :: rest
      else (k', r) :: relInsert cl rest k

/-- `Program::clause`. -/
def Program.clause (p : Program) (head : String × List Expr)
    (body : List (String × List Expr)) : Program :=
  let (p', h) := p.internPredicate head.1 head.2
  let (p'', preds) := internBody p' body
  { p'' with relations := relInsert (h, preds) p''.relations h.name }

/-- The first loop of `Program::render`: one `Distinct` node per relation, in
`BTreeMap` iteration order, remembering `ops : name -> op_id`. -/
def addDistincts (df : DF) : List (Nat × Relation) → DF × List (Nat × Nat)
  | [] => (df, [])
  | (nm, _) :: rest =>
      let (df1, opId) := df.addOp (.distinct [])
      let (df2, ops) := addDistincts df1 rest
      (df2, (nm, opId) :: ops)

/-- The `inputs` loop of `Program::render`: a constant-filtering `Select`
node per body predicate, fed from the predicate's relation node
(`ops.get(&pred.name).unwrap()` panics - here fails - when absent). -/
def buildInputs (df : DF) (ops : List (Nat × Nat)) :
    List Pred → Option (DF × List Nat)
  | [] => some (df, [])
  | pred :: rest => do
      let op ← alookup ops pred.name
      let predExprs := pred.constants.map (fun cd => PredExpr.eqConstant cd.1 cd.2)
      let (df1, filtered) := df.addOp (.select predExprs)
      let df2 ← df1.addEdge op filtered 0
      let (df3, ins) ← buildInputs df2 ops rest
      pure (df3, filtered :: ins)

/-- The variable loop inside the join chain: first occurrence of a variable
records its absolute column in `processed_vars`, later occurrences push a
`(previously bound column, this predicate's column)` join-key pair. -/
def keysLoop (pv : List (Nat × Nat)) (len : Nat) :
    List (Nat × Nat) → List Nat × List Nat × List (Nat × Nat)
  | [] => ([], [], pv)
  | (idx, nm) :: rest =>
      match alookup pv nm with
      | some j =>
          let (lk, rk, pv') := keysLoop pv len rest
          (j :: lk, idx :: rk, pv')
      | none => keysLoop (pv ++ [(nm, len + idx)]) len rest

/-- The join chain of `Program::render`: one `Join` per body predicate,
its port 0 fed by the accumulated chain and its port 1 by `inputs[i]`. -/
def joinChain (inputs : List Nat) :
    DF → List Pred → Nat → List (Nat × Nat) → Nat → Nat →
    Option (DF × Nat × List (Nat × Nat))
  | df, [], _, pv, _, lhs => some (df, lhs, pv)
  | df, pred :: rest, i, pv, len, lhs => do
      let (lk, rk, pv') := keysLoop pv len pred.vars
      let (df1, j) := df.addOp (.join lk [] rk [])
      let df2 ← df1.addEdge lhs j 0
      let inp ← inputs[i]?
      let df3 ← df2.addEdge inp j 1
      joinChain inputs df3 rest (i + 1) pv'
        (len + pred.constants.length + pred.vars.length) j

/-- `projection[idx] = ...`: in-range assignment, out of range panics. -/
def setChecked {α : Type} (l : List α) (i : Nat) (x : α) : Option (List α) :=
  if i < l.length then some (l.set i x) else none

/-- The head-variable projection pass (`processed_vars.get(v).unwrap()`
panics - here fails - for a head variable unbound in the body). -/
def projVarsPass (pv : List (Nat × Nat)) :
    List (Nat × Nat) → List (Option ColExpr) → Option (List (Option ColExpr))
  | [], l => some l
  | (idx, v) :: rest, l => do
      let j ← alookup pv v
      let l' ← setChecked l idx (some (.var j))
      projVarsPass pv rest l'

/-- The head-constant projection pass. -/
def projConstsPass :
    List (Nat × Datum) → List (Option ColExpr) → Option (List (Option ColExpr))
  | [], l => some l
  | (idx, d) :: rest, l => do
      let l' ← setChecked l idx (some (.datum d))
      projConstsPass rest l'

/-- Compilation of one clause `(head, body)` of relation `relName`:
filters, the source-seeded join chain, the head projection, and the wiring
of the projected stream back into the relation's `Distinct` node. -/
def compileClause (df : DF) (ops : List (Nat × Nat)) (relName : Nat)
    (head : Pred) (body : List Pred) : Option DF := do
  let (df1, inputs) ← buildInputs df ops body
  let (df2, src) := df1.addOp (.source [[]])
  let (df3, joinId, pv) ← joinChain inputs df2 body 0 [] 0 src
  let arity := head.constants.length + head.vars.length
  let l1 ← projVarsPass pv head.vars (List.replicate arity none)
  let l2 ← projConstsPass head.constants l1
  let cols ← l2.mapM id
  let (df4, proj) := df3.addOp (.project cols)
  let df5 ← df4.addEdge joinId proj 0
  let target ← alookup ops relName
  df5.addEdge proj target 0

/-- All clauses of one relation, in order. -/
def compileClauses (ops : List (Nat × Nat)) (relName : Nat) :
    DF → List (Pred × List Pred) → Option DF
  | df, [] => some df
  | df, (head, body) :: rest => do
      let df' ← compileClause df ops relName head body
      compileClauses ops relName df' rest

/-- The second loop of `Program::render`, over relations in `BTreeMap`
iteration order. -/
def compileRels (ops : List (Nat × Nat)) :
    DF → List (Nat × Relation) → Option DF
  | df, [] => some df
  | df, (nm, rel) :: rest => do
      let df' ← compileClauses ops nm df rel.clauses
      compileRels ops df' rest

/-- `Program::render`: intern the output relation name, build the graph, and
wire the operator whose id equals the output relation's ident to the outbox. -/
def render (p : Program) (outRel : String) : Option DF := do
  let (p1, out) := p.intern outRel
  let (df0, outboxId) := DF.new
  let (df1, ops) := addDistincts df0 p1.relations
  let df2 ← compileRels ops df1 p1.relations
  df2.addEdge out outboxId 0

/-- The edge facts fed to the program in `main`, in source order (contains
the duplicate `(1,2)`). -/
def mainEdges : List (Int × Int) :=
  [(1, 2), (2, 3), (1, 3), (1, 4), (1, 2), (2, 4), (4, 5), (6, 7)]

/-- The `Program` built in `main` for a given edge-fact list: one
ground `edge` clause per fact, the seed fact `reachable(1)`, and the rule
`reachable(A) :- reachable(B), edge(B, A)`. -/
def mainProgram (fs : List (Int × Int)) : Program :=
  let p := fs.foldl
    (fun p ab => p.clause ("edge", [.datum (.int ab.1), .datum (.int ab.2)]) [])
    Program.new
  let p := p.clause ("reachable", [.datum (.int 1)]) []
  p.clause ("reachable", [.var "A"])
    [("reachable", [.var "B"]), ("edge", [.var "B", .var "A"])]

/-! Models of the combinator operator bodies from `src/query.rs`.  These run
on the `src/babyflow/mod.rs` runtime, whose `RecvCtx::pull` is
`pop_front()`: within one invocation a body sees its queue front first, and
an invocation is given the currently queued values of each input port. -/

/-- The `distinct` body from `src/query.rs` for one invocation: pull each
value; if unseen, add it to the persistent set and emit it.  Returns the
updated set (a membership list) and the emitted values in order. -/
def qDistinct {T : Type} [DecidableEq T] (tab : List T) :
    List T → List T × List T
  | [] => (tab, [])
  | v :: rest =>
      if v ∈ tab then qDistinct tab rest
      else
        let (t', em) := qDistinct (v :: tab) rest
        (t', v :: em)

/-- A sequence of `distinct` invocations with the set persisting across
them; returns the final set and all emissions concatenated in order. -/
def qDistinctSteps {T : Type} [DecidableEq T] (tab : List T) :
    List (List T) → List T × List T
  | [] => (tab, [])
  | inbox :: rest =>
      let (t1, e1) := qDistinct tab inbox
      let (t2, e2) := qDistinctSteps t1 rest
      (t2, e1 ++ e2)

/-- The `union` body from `src/query.rs` for a sequence of invocations, each
given the queued left values and queued right values: drain the left queue
fully, re-emitting every value, then the right queue fully. -/
def qUnionSteps {T : Type} : List (List T × List T) → List T
  | [] => []
  | (l, r) :: rest => (l ++ r) ++ qUnionSteps rest

/-- Generic association-list variant of
`table.entry(k).or_insert_with(Vec::new).push(v)`. -/
def alpush {κ α : Type} [DecidableEq κ] :
    List (κ × List α) → κ → α → List (κ × List α)
  | [], k, v => [(k, [v])]
  | (k', vs) :: rest, k, v =>
      if k = k' then (k', vs ++ [v]) :: rest else (k', vs) :: alpush rest k v

/-- The left-queue loop of the `join` body from `src/query.rs`: for each
pulled `(k, v)`, push `v` into `left_tab[k]`, and emit `(k, v, v2)` for every
`v2` in `right_tab[k]`.  Returns the updated left table and the emissions. -/
def qJoinLeft {K V V2 : Type} [DecidableEq K]
    (lt : List (K × List V)) (rt : List (K × List V2)) :
    List (K × V) → List (K × List V) × List (K × V × V2)
  | [] => (lt, [])
  | (k, v) :: rest =>
      let ems := match alookup rt k with
        | some ms => ms.map (fun v2 => (k, v, v2))
        | none => []
      let (ltf, em') := qJoinLeft (alpush lt k v) rt rest
      (ltf, ems ++ em')

/-- The right-queue loop of the `join` body from `src/query.rs`: for each
pulled `(k, v)`, push `v` into `right_tab[k]`, and emit `(k, v2, v)` for
every `v2` in `left_tab[k]`. -/
def qJoinRight {K V V2 : Type} [DecidableEq K]
    (lt : List (K × List V)) (rt : List (K × List V2)) :
    List (K × V2) → List (K × List V2) × List (K × V × V2)
  | [] => (rt, [])
  | (k, v) :: rest =>
      let ems := match alookup lt k with
        | some ms => ms.map (fun v2 => (k, v2, v))
        | none => []
      let (rtf, em') := qJoinRight lt (alpush rt k v) rest
      (rtf, ems ++ em')

/-- One invocation of the `join` body: drain the left queue fully, then the
right queue fully (the left table already holds this invocation's left
values when the right queue is probed). -/
def qJoinInv {K V V2 : Type} [DecidableEq K]
    (lt : List (K × List V)) (rt : List (K × List V2))
    (linbox : List (K × V)) (rinbox : List (K × V2)) :
    List (K × List V) × List (K × List V2) × List (K × V × V2) :=
  let (lt1, eml) := qJoinLeft lt rt linbox
  let (rt1, emr) := qJoinRight lt1 rt rinbox
  (lt1, rt1, eml ++ emr)

/-- A sequence of `join` invocations with both hash indices persisting;
returns the final tables and all emissions concatenated. -/
def qJoinSteps {K V V2 : Type} [DecidableEq K]
    (lt : List (K × List V)) (rt : List (K × List V2)) :
    List (List (K × V) × List (K × V2)) →
    List (K × List V) × List (K × List V2) × List (K × V × V2)
  | [] => (lt, rt, [])
  | (li, ri) :: rest =>
      let (lt1, rt1, e1) := qJoinInv lt rt li ri
      let (lt2, rt2, e2) := qJoinSteps lt1 rt1 rest
      (lt2, rt2, e1 ++ e2)

/-! A message-generic view of the `Dataflow::run` dispatch step of
`src/babyflow.rs`, for properties that hold for every `Operator`
implementation.  An invocation of an arbitrary operator body can only call
`Ctx::recv` (which pops the swapped-out inbox from the back, so what is left
is a front prefix of it) and `Ctx::send`; the dispatch step swaps the
leftover queue back and fans out the sent messages. -/

/-- `Dataflow` state with the operator behaviours abstracted away. -/
structure GDF (M : Type) where
  outputs : List (List (Nat × Nat))
  inboxes : List (List (M × Nat))
  schedule : Sched
  outbox : List M

/-- `Dataflow::send`, message-generic. -/
def GDF.send {M : Type} (df : GDF M) (m : M) (recvId port : Nat) :
    Option (GDF M) :=
  if recvId = uMAX then some { df with outbox := df.outbox ++ [m] }
  else
    match df.inboxes[recvId]? with
    | none => none
    | some ib =>
        some { df with inboxes := df.inboxes.set recvId (ib ++ [(m, port)]),
                       schedule := df.schedule.insert recvId }

/-- `Dataflow::send_from`, message-generic. -/
def GDF.sendFrom {M : Type} (df : GDF M) (idx : Nat) (m : M) : Option (GDF M) :=
  match df.outputs[idx]? with
  | none => none
  | some targets =>
      targets.foldlM (fun d (tp : Nat × Nat) => d.send m tp.1 tp.2) df

/-- The tail of one `Dataflow::run` iteration, after the schedule pop
returned `(op, sch')` and the operator body's invocation left `leftover` in
the receive context and sent `sent`: swap the leftover back into the inbox,
then `send_from` every sent message. -/
def GDF.dispatchStep {M : Type} (df : GDF M) (op : Nat) (sch' : Sched)
    (leftover : List (M × Nat)) (sent : List M) : Option (GDF M) :=
  let df' : GDF M := { df with inboxes := df.inboxes.set op leftover,
                               schedule := sch' }
  sent.foldlM (fun d m => d.sendFrom op m) df'

/-! Auxiliary definitions for the scheduler claims. -/

/-- A call against the `Schedule` API. -/
inductive SOp where
  | ins : Nat → SOp
  | pop : SOp
deriving DecidableEq, Repr

/-- Apply one API call (a `pop` on an empty schedule leaves it unchanged). -/
def schedApply (s : Sched) : SOp → Sched
  | .ins t => s.insert t
  | .pop =>
      match s.pop with
      | none => s
      | some (_, s') => s'

/-- The schedule reached from `Schedule::new()` by a sequence of calls,
applied left to right. -/
def schedRun (calls : List SOp) : Sched :=
  calls.foldl schedApply ⟨[], []⟩

/-- Ids returned by popping until empty, with bounded fuel. -/
def popAllFuel : Nat → Sched → List Nat
  | 0, _ => []
  | n + 1, s =>
      match s.pop with
      | none => []
      | some (t, s') => t :: popAllFuel n s'

/-- Ids returned by repeatedly calling `Schedule::pop` until it signals
empty. -/
def popAll (s : Sched) : List Nat :=
  popAllFuel s.order.length s

/-- Structural well-formedness of a schedule state: the membership `HashSet`
holds no duplicates and the two components track each other.  Every state
reachable from `Schedule::new()` satisfies it. -/
def SchedInv (s : Sched) : Prop :=
  s.order.Nodup ∧ s.members.Nodup ∧
    (∀ x ∈ s.members, x ∈ s.order) ∧ (∀ x ∈ s.order, x ∈ s.members)

instance (s : Sched) : Decidable (SchedInv s) := by
  unfold SchedInv; infer_instance

/-- Multiplicity of `v` in a join index entry: how many times `v` occurs in
`table[k]` (0 when the key is absent). -/
def tcount {K α : Type} [DecidableEq K] [DecidableEq α]
    (t : List (K × List α)) (k : K) (v : α) : Nat :=
  ((alookup t k).getD []).count v

/-- Every wired edge carries an `in_port` tag of 0 or 1 (the closed two-port
contract of the binary operators). -/
def PortsOK (df : DF) : Prop :=
  ∀ l ∈ df.outputs, ∀ tp ∈ l, (tp : Nat × Nat).2 ≤ 1

/-- Every pending message carries a port tag of 0 or 1. -/
def InboxOK (df : DF) : Prop :=
  ∀ ib ∈ df.inboxes, ∀ mp ∈ ib, (mp : Row × Nat).2 ≤ 1

/-- Combined structural invariant threaded through graph construction and
execution. -/
def WFDF (df : DF) : Prop := PortsOK df ∧ InboxOK df

/-- The shape shared by every state the dataflow rendered from `main`'s
program passes through after its first scheduling round: the 26 operators of
`render (mainProgram [(a1,b1),...,(a8,b8)]) "reachable"` with the mutable
slots (the two distinct sets, the two join indices that still change, the
live inboxes, the schedule and the outbox) as parameters.  Ports 0 and 1 of
the rendered graph's two joins, the fan-out table, and the dead inboxes are
fixed by construction. -/
def C1State (a1 b1 a2 b2 a3 b3 a4 b4 a5 b5 a6 b6 a7 b7 a8 b8 : Int)
    (s0 s1 : List Row) (rt23 lt24 rt24 : List (Row × List Row))
    (ib0 ib1 ib20 ib21 ib23 ib24 ib25 : List (Row × Nat))
    (sch : Sched) (ob : List Row) : DF :=
  ⟨[.distinct s0, .distinct s1,
    .source [], .project [.datum (.int a1), .datum (.int b1)],
    .source [], .project [.datum (.int a2), .datum (.int b2)],
    .source [], .project [.datum (.int a3), .datum (.int b3)],
    .source [], .project [.datum (.int a4), .datum (.int b4)],
    .source [], .project [.datum (.int a5), .datum (.int b5)],
    .source [], .project [.datum (.int a6), .datum (.int b6)],
    .source [], .project [.datum (.int a7), .datum (.int b7)],
    .source [], .project [.datum (.int a8), .datum (.int b8)],
    .source [], .project [.datum (.int 1)],
    .select [], .select [],
    .source [], .join [] [([], [[]])] [] rt23,
    .join [0] lt24 [0] rt24,
    .project [.var 2]],
   [[(21, 0)], [(20, 0), (uMAX, 0)],
    [(3, 0)], [(0, 0)], [(5, 0)], [(0, 0)], [(7, 0)], [(0, 0)],
    [(9, 0)], [(0, 0)], [(11, 0)], [(0, 0)], [(13, 0)], [(0, 0)],
    [(15, 0)], [(0, 0)], [(17, 0)], [(0, 0)],
    [(19, 0)], [(1, 0)],
    [(23, 1)], [(24, 1)], [(23, 0)], [(24, 0)], [(25, 0)], [(1, 0)]],
   [ib0, ib1, [], [], [], [], [], [], [], [], [], [], [], [], [], [], [], [],
    [], [], ib20, ib21, [], ib23, ib24, ib25],
   sch, ob⟩

/-! Theorems.  First the `Ctx::recv` drain order, then the scheduler. -/

theorem ctxRecv_append {α : Type} (l : List α) (x : α) :
    ctxRecv (l ++ [x]) = some (x, l) := by
  induction l with
  | nil => rfl
  | cons a t ih => simp [ctxRecv, ih]

theorem drainFuel_reverse {α : Type} (n : Nat) :
    ∀ l : List α, l.length ≤ n → drainFuel n l = l.reverse := by
  induction n with
  | zero =>
      intro l h
      have : l = [] := List.length_eq_zero.mp (Nat.le_zero.mp h)
      simp [this, drainFuel]
  | succ n ih =>
      intro l h
      rcases hrev : l.reverse with _ | ⟨x, r⟩
      · have hl : l = [] := by simpa using congrArg List.reverse hrev
        simp [hl, drainFuel, ctxRecv]
      · have hl : l = r.reverse ++ [x] := by
          have := congrArg List.reverse hrev
          simpa using this
        subst hl
        have hlen : r.reverse.length ≤ n := by
          simp only [List.length_append, List.length_reverse, List.length_cons] at h ⊢
          omega
        simp [drainFuel, ctxRecv_append, ih _ hlen]

theorem drainAll_reverse {α : Type} (l : List α) : drainAll l = l.reverse :=
  drainFuel_reverse _ l le_rfl

/-- Claim C10: in the engine of `src/babyflow.rs`, `Dataflow::send` appends
messages at the back of the receiver's inbox and `Ctx::recv` pops from the
back, so an operator invocation that drains its inbox receives the pending
messages in reverse order of arrival (LIFO), not FIFO.  `drainAll` is the
receive sequence of a draining body (repeated `Ctx::recv`), and its input is
the inbox in arrival order. -/
theorem babyflow_recv_is_lifo {α : Type} (inbox : List α) :
    drainAll inbox = inbox.reverse :=
  drainAll_reverse inbox

theorem schedInv_insert {s : Sched} (h : SchedInv s) (t : Nat) :
    SchedInv (s.insert t) := by
  obtain ⟨h1, h2, h3, h4⟩ := h
  unfold Sched.insert
  split
  · exact ⟨h1, h2, h3, h4⟩
  · rename_i ht
    have hto : t ∉ s.order := fun hmem => ht (h4 t hmem)
    refine ⟨?_, ?_, ?_, ?_⟩
    · simpa [List.nodup_append] using ⟨h1, hto⟩
    · exact List.nodup_cons.mpr ⟨ht, h2⟩
    · intro x hx
      rcases List.mem_cons.mp hx with hx | hx
      · simp [hx]
      · simpa using Or.inl (h3 x hx)
    · intro x hx
      rcases List.mem_append.mp hx with hx | hx
      · exact List.mem_cons_of_mem _ (h4 x hx)
      · simp at hx
        simp [hx]

theorem schedInv_pop {s : Sched} (h : SchedInv s) {t : Nat} {s' : Sched}
    (hp : s.pop = some (t, s')) : SchedInv s' := by
  obtain ⟨h1, h2, h3, h4⟩ := h
  unfold Sched.pop at hp
  rcases horder : s.order with _ | ⟨a, rest⟩
  · rw [horder] at hp; exact absurd hp (by simp)
  · rw [horder] at hp
    simp only [Option.some.injEq, Prod.mk.injEq] at hp
    obtain ⟨hpt, hps⟩ := hp
    rw [horder] at h1 h3 h4
    rw [← hps]
    have hnr : rest.Nodup := (List.nodup_cons.mp h1).2
    have hmr : a ∉ rest := (List.nodup_cons.mp h1).1
    refine ⟨hnr, List.Nodup.erase a h2, ?_, ?_⟩
    · intro x hx
      have hxm : x ≠ a ∧ x ∈ s.members := (List.Nodup.mem_erase_iff h2).mp hx
      rcases List.mem_cons.mp (h3 x hxm.2) with hx' | hx'
      · exact absurd hx' hxm.1
      · exact hx'
    · intro x hx
      have hxm : x ∈ s.members := h4 x (List.mem_cons_of_mem _ hx)
      have hxt : x ≠ a := fun he => hmr (he ▸ hx)
      exact (List.Nodup.mem_erase_iff h2).mpr ⟨hxt, hxm⟩

theorem schedInv_apply {s : Sched} (h : SchedInv s) (c : SOp) :
    SchedInv (schedApply s c) := by
  cases c with
  | ins t => exact schedInv_insert h t
  | pop =>
      unfold schedApply
      rcases hp : s.pop with _ | ⟨t, s'⟩
      · exact h
      · exact schedInv_pop h hp

theorem schedInv_run (calls : List SOp) : SchedInv (schedRun calls) := by
  suffices hgen : ∀ s, SchedInv s → SchedInv (calls.foldl schedApply s) by
    exact hgen ⟨[], []⟩ (by decide)
  induction calls with
  | nil => intro s hs; exact hs
  | cons c rest ih => intro s hs; exact ih _ (schedInv_apply hs c)

/-- Claim C5: for every sequence of `Schedule::insert`/`Schedule::pop`
calls, the pending `order` sequence never contains the same id twice, and
`insert(x)` while `x` is pending leaves the schedule unchanged. -/
theorem schedule_dedup (calls : List SOp) (x : Nat) :
    (schedRun calls).order.Nodup ∧
      (x ∈ (schedRun calls).order →
        (schedRun calls).insert x = schedRun calls) := by
  have h := schedInv_run calls
  refine ⟨h.1, fun hx => ?_⟩
  unfold Sched.insert
  rw [if_pos (h.2.2.2 x hx)]

theorem schedule_dedup_witness :
    (schedRun [.ins 3, .ins 7]).order.Nodup ∧
      (schedRun [.ins 3, .ins 7]).insert 3 = schedRun [.ins 3, .ins 7] :=
  ⟨(schedule_dedup [.ins 3, .ins 7] 3).1,
   (schedule_dedup [.ins 3, .ins 7] 3).2 (by decide)⟩

theorem popAllFuel_eq (n : Nat) :
    ∀ s : Sched, s.order.length ≤ n → popAllFuel n s = s.order := by
  induction n with
  | zero =>
      intro s h
      have h0 : s.order = [] := List.length_eq_zero.mp (Nat.le_zero.mp h)
      simp [popAllFuel, h0]
  | succ n ih =>
      intro s h
      rcases horder : s.order with _ | ⟨t, rest⟩
      · simp [popAllFuel, Sched.pop, horder]
      · have hpop : s.pop = some (t, ⟨rest, s.members.erase t⟩) := by
          simp [Sched.pop, horder]
        have hlen : rest.length ≤ n := by
          rw [horder] at h
          simpa using Nat.le_of_succ_le_succ h
        simp [popAllFuel, hpop, horder, ih ⟨rest, s.members.erase t⟩ hlen]

theorem popAll_eq (s : Sched) : popAll s = s.order :=
  popAllFuel_eq _ s le_rfl

theorem indexOf_append_absent {a : Nat} {l1 l2 : List Nat} (h : a ∉ l1) :
    (l1 ++ l2).indexOf a = l1.length + l2.indexOf a := by
  induction l1 with
  | nil => simp
  | cons x t ih =>
      have hxa : x ≠ a := by rintro rfl; exact h (by simp)
      have hat : a ∉ t := fun hm => h (List.mem_cons_of_mem _ hm)
      rw [List.cons_append, List.indexOf_cons_ne _ hxa, ih hat]
      simp [Nat.succ_add]

/-- Claim C6: from a state where neither `a` nor `b` is pending, after
`insert(a)` then `insert(b)` popping yields `a` strictly before `b`; and in
general `pop` removes and returns the oldest pending id, removes it from the
membership set, and the popped id can be inserted again afterwards. -/
theorem schedule_fifo (s : Sched) (a b : Nat) (hinv : SchedInv s)
    (ha : a ∉ s.members) (hb : b ∉ s.members) (hab : a ≠ b) :
    ((popAll ((s.insert a).insert b)).indexOf a <
        (popAll ((s.insert a).insert b)).indexOf b) ∧
      (∀ t s', s.pop = some (t, s') →
        s.order = t :: s'.order ∧ t ∉ s'.members ∧
          (s'.insert t).order = s'.order ++ [t]) := by
  constructor
  · have h1 : s.insert a = ⟨s.order ++ [a], a :: s.members⟩ := by
      unfold Sched.insert; rw [if_neg ha]
    have hbm : b ∉ (⟨s.order ++ [a], a :: s.members⟩ : Sched).members := by
      intro hmem
      rcases List.mem_cons.mp hmem with hba | hbm'
      · exact hab hba.symm
      · exact hb hbm'
    have h2 : ((s.insert a).insert b).order = (s.order ++ [a]) ++ [b] := by
      rw [h1]
      unfold Sched.insert
      rw [if_neg hbm]
    rw [popAll_eq, h2, List.append_assoc]
    have hao : a ∉ s.order := fun hm => ha (hinv.2.2.2 a hm)
    have hbo : b ∉ s.order := fun hm => hb (hinv.2.2.2 b hm)
    rw [indexOf_append_absent hao, indexOf_append_absent hbo]
    have hia : ([a] ++ [b] : List Nat).indexOf a = 0 := by
      simp [List.indexOf_cons_self]
    have hib : ([a] ++ [b] : List Nat).indexOf b = 1 := by
      rw [List.singleton_append, List.indexOf_cons_ne _ hab, List.indexOf_cons_self]
    omega
  · intro t s' hp
    unfold Sched.pop at hp
    rcases horder : s.order with _ | ⟨x, rest⟩
    · rw [horder] at hp; exact absurd hp (by simp)
    · rw [horder] at hp
      simp only [Option.some.injEq, Prod.mk.injEq] at hp
      obtain ⟨hpt, hps⟩ := hp
      have hnm : x ∉ s.members.erase x := by
        intro hx
        exact ((List.Nodup.mem_erase_iff hinv.2.1).mp hx).1 rfl
      refine ⟨?_, ?_, ?_⟩
      · rw [← hps, ← hpt]
      · rw [← hps, ← hpt]; exact hnm
      · rw [← hps, ← hpt]
        show (Sched.insert ⟨rest, s.members.erase x⟩ x).order = rest ++ [x]
        unfold Sched.insert
        rw [if_neg hnm]

theorem schedule_fifo_witness :
    ((popAll ((Sched.insert ⟨[9], [9]⟩ 1).insert 2)).indexOf 1 <
        (popAll ((Sched.insert ⟨[9], [9]⟩ 1).insert 2)).indexOf 2) ∧
      ((⟨[9], [9]⟩ : Sched).order = 9 :: (⟨[], [9].erase 9⟩ : Sched).order ∧
        9 ∉ (⟨[], [9].erase 9⟩ : Sched).members ∧
          ((⟨[], [9].erase 9⟩ : Sched).insert 9).order =
            (⟨[], [9].erase 9⟩ : Sched).order ++ [9]) :=
  ⟨(schedule_fifo ⟨[9], [9]⟩ 1 2 (by decide) (by decide) (by decide)
      (by decide)).1,
   (schedule_fifo ⟨[9], [9]⟩ 1 2 (by decide) (by decide) (by decide)
      (by decide)).2 9 ⟨[], [9].erase 9⟩ (by rfl)⟩

/-- Claim C7: `union(a, b)` re-emits, per invocation, all currently queued
left values and then all currently queued right values, and over the whole
run the emitted multiset is the multiset union of everything the two inputs
delivered: no loss, no duplication, no deduplication. -/
theorem union_is_multiset_union {T : Type} (invs : List (List T × List T)) :
    (∀ (l r : List T) (rest : List (List T × List T)),
        qUnionSteps ((l, r) :: rest) = (l ++ r) ++ qUnionSteps rest) ∧
      (qUnionSteps invs : Multiset T) =
        (invs.flatMap Prod.fst : Multiset T) + (invs.flatMap Prod.snd : Multiset T) := by
  refine ⟨fun l r rest => rfl, ?_⟩
  induction invs with
  | nil => simp [qUnionSteps]
  | cons p rest ih =>
      obtain ⟨l, r⟩ := p
      show ((l ++ r) ++ qUnionSteps rest : Multiset T) = _
      rw [← Multiset.coe_add, ← Multiset.coe_add, ih]
      simp only [List.flatMap_cons, ← Multiset.coe_add]
      abel

theorem qDistinct_spec {T : Type} [DecidableEq T] (inbox : List T) :
    ∀ (tab : List T) (v : T),
      ((qDistinct tab inbox).2.count v
          = if v ∈ tab then 0 else if v ∈ inbox then 1 else 0)
        ∧ (v ∈ (qDistinct tab inbox).1 ↔ v ∈ tab ∨ v ∈ inbox) := by
  induction inbox with
  | nil => intro tab v; simp [qDistinct]
  | cons x rest ih =>
      intro tab v
      by_cases hx : x ∈ tab
      · have hrec := ih tab v
        constructor
        · rw [show qDistinct tab (x :: rest) = qDistinct tab rest by
            simp [qDistinct, hx]]
          rw [hrec.1]
          by_cases hvt : v ∈ tab
          · simp [hvt]
          · have hvx : v ≠ x := fun he => hvt (he ▸ hx)
            simp [hvt, hvx]
        · rw [show qDistinct tab (x :: rest) = qDistinct tab rest by
            simp [qDistinct, hx]]
          rw [hrec.2]
          constructor
          · rintro (h | h)
            · exact Or.inl h
            · exact Or.inr (List.mem_cons_of_mem _ h)
          · rintro (h | h)
            · exact Or.inl h
            · rcases List.mem_cons.mp h with h' | h'
              · exact Or.inl (h' ▸ hx)
              · exact Or.inr h'
      · have hrec := ih (x :: tab) v
        have hstep : qDistinct tab (x :: rest) =
            ((qDistinct (x :: tab) rest).1, x :: (qDistinct (x :: tab) rest).2) := by
          simp [qDistinct, hx]
        constructor
        · rw [hstep]
          simp only [List.count_cons]
          rw [hrec.1]
          by_cases hvx : v = x
          · simp [hvx, hx]
          · have hxv : ¬x = v := fun h => hvx h.symm
            have hmx : (v ∈ x :: tab) ↔ v ∈ tab := by
              simp [List.mem_cons, hvx]
            by_cases hvt : v ∈ tab
            · simp [hmx, hvt, hvx, hxv]
            · simp [hmx, hvt, hvx, hxv, List.mem_cons]
        · rw [hstep]
          rw [hrec.2]
          simp [List.mem_cons]
          tauto

theorem qDistinctSteps_spec {T : Type} [DecidableEq T] (invs : List (List T)) :
    ∀ (tab : List T) (v : T),
      ((qDistinctSteps tab invs).2.count v
          = if v ∈ tab then 0 else if v ∈ invs.flatten then 1 else 0)
        ∧ (v ∈ (qDistinctSteps tab invs).1 ↔ v ∈ tab ∨ v ∈ invs.flatten) := by
  induction invs with
  | nil => intro tab v; simp [qDistinctSteps]
  | cons inbox rest ih =>
      intro tab v
      have hstep : qDistinctSteps tab (inbox :: rest) =
          ((qDistinctSteps (qDistinct tab inbox).1 rest).1,
            (qDistinct tab inbox).2 ++ (qDistinctSteps (qDistinct tab inbox).1 rest).2) := by
        simp [qDistinctSteps]
      have h1 := qDistinct_spec inbox tab v
      have h2 := ih (qDistinct tab inbox).1 v
      rw [hstep]
      constructor
      · rw [List.count_append, h1.1, h2.1]
        by_cases hvt : v ∈ tab
        · simp [hvt, h1.2]
        · by_cases hvi : v ∈ inbox
          · have hm : v ∈ (qDistinct tab inbox).1 := h1.2.mpr (Or.inr hvi)
            simp [hvt, hvi, hm]
          · have hm : v ∉ (qDistinct tab inbox).1 := fun hm => by
              rcases h1.2.mp hm with h | h
              · exact hvt h
              · exact hvi h
            simp [hvt, hvi, hm]
      · rw [h2.2, h1.2]
        simp only [List.flatten_cons, List.mem_append]
        tauto

/-- Claim C4: delivering a value `v` to a `distinct` node `n ≥ 1` times, in
any interleaving with other values and across any number of invocations,
makes the node emit `v` exactly once. -/
theorem distinct_emits_once {T : Type} [DecidableEq T]
    (invs : List (List T)) (v : T) (n : Nat)
    (hn : 1 ≤ n) (hcount : invs.flatten.count v = n) :
    (qDistinctSteps ([] : List T) invs).2.count v = 1 := by
  have h := (qDistinctSteps_spec invs [] v).1
  have hv : v ∈ invs.flatten := by
    rw [← List.count_pos_iff, hcount]; omega
  simpa [hv] using h

theorem distinct_emits_once_witness :
    1 ≤ 2 ∧ ([[3], [4, 3]] : List (List Nat)).flatten.count 3 = 2 ∧
      (qDistinctSteps ([] : List Nat) [[3], [4, 3]]).2.count 3 = 1 :=
  ⟨by decide, by decide,
    distinct_emits_once [[3], [4, 3]] 3 2 (by decide) (by decide)⟩

theorem alookup_alpush_self {K V : Type} [DecidableEq K]
    (t : List (K × List V)) (k : K) (v : V) :
    alookup (alpush t k v) k = some ((alookup t k).getD [] ++ [v]) := by
  induction t with
  | nil => simp [alpush, alookup]
  | cons p rest ih =>
      obtain ⟨k', vs⟩ := p
      by_cases hk : k = k'
      · simp [alpush, alookup, hk]
      · simp [alpush, alookup, hk, ih]

theorem qJoinLeft_append {K V V2 : Type} [DecidableEq K]
    (rt : List (K × List V2)) (l1 : List (K × V)) :
    ∀ (lt : List (K × List V)) (l2 : List (K × V)),
      qJoinLeft lt rt (l1 ++ l2) =
        ((qJoinLeft (qJoinLeft lt rt l1).1 rt l2).1,
          (qJoinLeft lt rt l1).2 ++ (qJoinLeft (qJoinLeft lt rt l1).1 rt l2).2) := by
  induction l1 with
  | nil => intro lt l2; simp [qJoinLeft]
  | cons p rest ih =>
      intro lt l2
      obtain ⟨k, v⟩ := p
      simp [qJoinLeft, ih (alpush lt k v) l2]

theorem qJoinRight_append {K V V2 : Type} [DecidableEq K]
    (lt : List (K × List V)) (r1 : List (K × V2)) :
    ∀ (rt : List (K × List V2)) (r2 : List (K × V2)),
      qJoinRight lt rt (r1 ++ r2) =
        ((qJoinRight lt (qJoinRight lt rt r1).1 r2).1,
          (qJoinRight lt rt r1).2 ++ (qJoinRight lt (qJoinRight lt rt r1).1 r2).2) := by
  induction r1 with
  | nil => intro rt r2; simp [qJoinRight]
  | cons p rest ih =>
      intro rt r2
      obtain ⟨k, v⟩ := p
      simp [qJoinRight, ih (alpush rt k v) r2]

/-- Claim C3: in one invocation of the `join` operator, a value `(k, v)`
received from the left queue contributes exactly one emission `(k, v, v2)`
for every `v2` present in `right_tab[k]` when the value is processed (the
probe result is unaffected by the value's own insertion, which targets the
left table), and afterwards `left_tab[k]` is its previous contents with `v`
appended; symmetrically for a value received from the right queue.
(`src/query.rs` writes the append before the probe, but the two touch
different tables, so the emitted matches are exactly those already present
on the other side.) -/
theorem join_probes_then_appends {K V V2 : Type} [DecidableEq K]
    (lt : List (K × List V)) (rt : List (K × List V2))
    (pre post : List (K × V)) (rpre rpost : List (K × V2))
    (k : K) (v : V) (w : V2) :
    (qJoinLeft lt rt (pre ++ (k, v) :: post)
        = ((qJoinLeft (alpush (qJoinLeft lt rt pre).1 k v) rt post).1,
            (qJoinLeft lt rt pre).2
              ++ ((alookup rt k).getD []).map (fun v2 => (k, v, v2))
              ++ (qJoinLeft (alpush (qJoinLeft lt rt pre).1 k v) rt post).2)
      ∧ alookup (alpush (qJoinLeft lt rt pre).1 k v) k
          = some ((alookup (qJoinLeft lt rt pre).1 k).getD [] ++ [v]))
    ∧ (qJoinRight lt rt (rpre ++ (k, w) :: rpost)
        = ((qJoinRight lt (alpush (qJoinRight lt rt rpre).1 k w) rpost).1,
            (qJoinRight lt rt rpre).2
              ++ ((alookup lt k).getD []).map (fun v1 => (k, v1, w))
              ++ (qJoinRight lt (alpush (qJoinRight lt rt rpre).1 k w) rpost).2)
      ∧ alookup (alpush (qJoinRight lt rt rpre).1 k w) k
          = some ((alookup (qJoinRight lt rt rpre).1 k).getD [] ++ [w])) := by
  constructor
  · constructor
    · rw [qJoinLeft_append rt pre lt ((k, v) :: post)]
      have hone : qJoinLeft (qJoinLeft lt rt pre).1 rt ((k, v) :: post)
          = ((qJoinLeft (alpush (qJoinLeft lt rt pre).1 k v) rt post).1,
              ((alookup rt k).getD []).map (fun v2 => (k, v, v2))
                ++ (qJoinLeft (alpush (qJoinLeft lt rt pre).1 k v) rt post).2) := by
        rcases hr : alookup rt k with _ | ms
        · simp [qJoinLeft, hr]
        · simp [qJoinLeft, hr]
      rw [hone, List.append_assoc]
    · exact alookup_alpush_self _ k v
  · constructor
    · rw [qJoinRight_append lt rpre rt ((k, w) :: rpost)]
      have hone : qJoinRight lt (qJoinRight lt rt rpre).1 ((k, w) :: rpost)
          = ((qJoinRight lt (alpush (qJoinRight lt rt rpre).1 k w) rpost).1,
              ((alookup lt k).getD []).map (fun v1 => (k, v1, w))
                ++ (qJoinRight lt (alpush (qJoinRight lt rt rpre).1 k w) rpost).2) := by
        rcases hl : alookup lt k with _ | ms
        · simp [qJoinRight, hl]
        · simp [qJoinRight, hl]
      rw [hone, List.append_assoc]
    · exact alookup_alpush_self _ k w

theorem alookup_alpush_other {K V : Type} [DecidableEq K]
    (t : List (K × List V)) {k k' : K} (v : V) (h : k ≠ k') :
    alookup (alpush t k' v) k = alookup t k := by
  induction t with
  | nil => simp [alpush, alookup, h]
  | cons p rest ih =>
      obtain ⟨k'', vs⟩ := p
      by_cases hk : k' = k''
      · have : k ≠ k'' := hk ▸ h
        simp [alpush, alookup, hk, this]
      · by_cases hk2 : k = k''
        · simp [alpush, alookup, hk, hk2]
        · simp [alpush, alookup, hk, hk2, ih]

theorem tcount_alpush {K V : Type} [DecidableEq K] [DecidableEq V]
    (t : List (K × List V)) (k' k : K) (v' v : V) :
    tcount (alpush t k' v') k v
      = tcount t k v + if k' = k ∧ v' = v then 1 else 0 := by
  by_cases hk : k' = k
  · subst hk
    unfold tcount
    rw [alookup_alpush_self]
    simp only [Option.getD_some, List.count_append]
    by_cases hv : v' = v
    · subst hv
      simp
    · have hvv : ¬(v = v') := fun h => hv h.symm
      simp [hv, hvv, List.count_cons]
  · unfold tcount
    rw [alookup_alpush_other t v' (fun h => hk h.symm)]
    simp [hk]

theorem count_map_triple {K V V2 : Type} [DecidableEq K] [DecidableEq V]
    [DecidableEq V2] (k₁ k : K) (v₁ v : V) (v2 : V2) (ms : List V2) :
    (ms.map (fun w => (k₁, v₁, w))).count (k, v, v2)
      = if k₁ = k ∧ v₁ = v then ms.count v2 else 0 := by
  induction ms with
  | nil => simp
  | cons m rest ih =>
      rw [List.map_cons, List.count_cons, ih, List.count_cons]
      by_cases h : k₁ = k ∧ v₁ = v
      · obtain ⟨h1, h2⟩ := h
        subst h1; subst h2
        by_cases hm : v2 = m
        · simp [hm]
        · simp [hm, Prod.ext_iff]
      · have hne : ¬((k, v, v2) = (k₁, v₁, m)) := by
          intro he
          injection he with he1 he2
          injection he2 with he2 he3
          exact h ⟨he1.symm, he2.symm⟩
        simp only [if_neg h, Nat.add_eq_left]
        simp [hne]
        intro h1 h2
        exact absurd ⟨h1, h2⟩ h

theorem pair_eq_iff {K V : Type} (k k₁ : K) (v v₁ : V) :
    ((k, v) = (k₁, v₁)) ↔ (k₁ = k ∧ v₁ = v) := by
  constructor
  · intro he
    injection he with he1 he2
    exact ⟨he1.symm, he2.symm⟩
  · rintro ⟨h1, h2⟩
    rw [h1, h2]

theorem qJoinLeft_count {K V V2 : Type} [DecidableEq K] [DecidableEq V]
    [DecidableEq V2] (rt : List (K × List V2)) (L : List (K × V)) :
    ∀ (lt : List (K × List V)) (k : K) (v : V) (v2 : V2),
      ((qJoinLeft lt rt L).2.count (k, v, v2) = L.count (k, v) * tcount rt k v2)
        ∧ (tcount (qJoinLeft lt rt L).1 k v = tcount lt k v + L.count (k, v)) := by
  induction L with
  | nil => intro lt k v v2; simp [qJoinLeft]
  | cons p rest ih =>
      intro lt k v v2
      obtain ⟨k₁, v₁⟩ := p
      have hstep : qJoinLeft lt rt ((k₁, v₁) :: rest)
          = ((qJoinLeft (alpush lt k₁ v₁) rt rest).1,
              (match alookup rt k₁ with
                | some ms => ms.map (fun w => (k₁, v₁, w))
                | none => [])
                ++ (qJoinLeft (alpush lt k₁ v₁) rt rest).2) := by
        simp [qJoinLeft]
      have hems : (match alookup rt k₁ with
          | some ms => ms.map (fun w => (k₁, v₁, w))
          | none => ([] : List (K × V × V2))).count (k, v, v2)
          = if k₁ = k ∧ v₁ = v then tcount rt k v2 else 0 := by
        rcases hr : alookup rt k₁ with _ | ms
        · by_cases h : k₁ = k ∧ v₁ = v
          · rw [if_pos h]
            rw [← h.1]
            simp [tcount, hr]
          · simp [h]
        · rw [count_map_triple]
          by_cases h : k₁ = k ∧ v₁ = v
          · rw [if_pos h, if_pos h, ← h.1]
            simp [tcount, hr]
          · simp [h]
      have hrec := ih (alpush lt k₁ v₁) k v v2
      constructor
      · rw [hstep]
        simp only [List.count_append, hems, hrec.1, List.count_cons]
        by_cases h : k₁ = k ∧ v₁ = v
        · obtain ⟨h1, h2⟩ := h
          subst h1; subst h2
          simp
          ring
        · have hne : ¬((k, v) = (k₁, v₁)) := fun he => h ((pair_eq_iff _ _ _ _).mp he)
          simp [h, hne]
      · rw [hstep]
        simp only [hrec.2, tcount_alpush, List.count_cons]
        by_cases h : k₁ = k ∧ v₁ = v
        · obtain ⟨h1, h2⟩ := h
          subst h1; subst h2
          simp
          omega
        · have hne : ¬((k, v) = (k₁, v₁)) := fun he => h ((pair_eq_iff _ _ _ _).mp he)
          simp [h, hne]

theorem qJoinRight_count {K V V2 : Type} [DecidableEq K] [DecidableEq V]
    [DecidableEq V2] (lt : List (K × List V)) (R : List (K × V2)) :
    ∀ (rt : List (K × List V2)) (k : K) (v : V) (v2 : V2),
      ((qJoinRight lt rt R).2.count (k, v, v2) = R.count (k, v2) * tcount lt k v)
        ∧ (tcount (qJoinRight lt rt R).1 k v2 = tcount rt k v2 + R.count (k, v2)) := by
  induction R with
  | nil => intro rt k v v2; simp [qJoinRight]
  | cons p rest ih =>
      intro rt k v v2
      obtain ⟨k₁, w₁⟩ := p
      have hstep : qJoinRight lt rt ((k₁, w₁) :: rest)
          = ((qJoinRight lt (alpush rt k₁ w₁) rest).1,
              (match alookup lt k₁ with
                | some ms => ms.map (fun u => (k₁, u, w₁))
                | none => [])
                ++ (qJoinRight lt (alpush rt k₁ w₁) rest).2) := by
        simp [qJoinRight]
      have hmap : ∀ ms : List V,
          (ms.map (fun u => (k₁, u, w₁))).count (k, v, v2)
            = if k₁ = k ∧ w₁ = v2 then ms.count v else 0 := by
        intro ms
        induction ms with
        | nil => simp
        | cons m mrest mih =>
            rw [List.map_cons, List.count_cons, mih, List.count_cons]
            by_cases h : k₁ = k ∧ w₁ = v2
            · obtain ⟨h1, h2⟩ := h
              subst h1; subst h2
              by_cases hm : v = m
              · simp [hm]
              · simp [hm, Prod.ext_iff]
            · have hne : ¬((k, v, v2) = (k₁, m, w₁)) := by
                intro he
                injection he with he1 he2
                injection he2 with he2 he3
                exact h ⟨he1.symm, he3.symm⟩
              simp [h, hne]
              intro h1 _
              exact fun hw => h ⟨h1, hw⟩
      have hems : (match alookup lt k₁ with
          | some ms => ms.map (fun u => (k₁, u, w₁))
          | none => ([] : List (K × V × V2))).count (k, v, v2)
          = if k₁ = k ∧ w₁ = v2 then tcount lt k v else 0 := by
        rcases hr : alookup lt k₁ with _ | ms
        · by_cases h : k₁ = k ∧ w₁ = v2
          · rw [if_pos h, ← h.1]
            simp [tcount, hr]
          · simp [h]
        · rw [hmap]
          by_cases h : k₁ = k ∧ w₁ = v2
          · rw [if_pos h, if_pos h, ← h.1]
            simp [tcount, hr]
          · simp [h]
      have hrec := ih (alpush rt k₁ w₁) k v v2
      constructor
      · rw [hstep]
        simp only [List.count_append, hems, hrec.1, List.count_cons]
        by_cases h : k₁ = k ∧ w₁ = v2
        · obtain ⟨h1, h2⟩ := h
          subst h1; subst h2
          simp
          ring
        · have hne : ¬((k, v2) = (k₁, w₁)) := fun he => h ((pair_eq_iff _ _ _ _).mp he)
          simp [h, hne]
      · rw [hstep]
        simp only [hrec.2, tcount_alpush, List.count_cons]
        by_cases h : k₁ = k ∧ w₁ = v2
        · obtain ⟨h1, h2⟩ := h
          subst h1; subst h2
          simp
          omega
        · have hne : ¬((k, v2) = (k₁, w₁)) := fun he => h ((pair_eq_iff _ _ _ _).mp he)
          simp [h, hne]

theorem count_one_of_nodup_mem {α : Type} [BEq α] [LawfulBEq α] {a : α} :
    ∀ {l : List α}, l.Nodup → a ∈ l → l.count a = 1 := by
  intro l
  induction l with
  | nil => intro _ h; cases h
  | cons x t ih =>
      intro hd hm
      rw [List.count_cons]
      rcases List.mem_cons.mp hm with he | hm'
      · subst he
        have hnx : a ∉ t := (List.nodup_cons.mp hd).1
        rw [List.count_eq_zero.mpr hnx]
        simp
      · have hax : a ≠ x := fun he => (List.nodup_cons.mp hd).1 (he ▸ hm')
        rw [ih (List.nodup_cons.mp hd).2 hm']
        simp [hax]
        exact fun h => hax h.symm

theorem qJoinSteps_count {K V V2 : Type} [DecidableEq K] [DecidableEq V]
    [DecidableEq V2] (invs : List (List (K × V) × List (K × V2))) :
    ∀ (lt : List (K × List V)) (rt : List (K × List V2)) (k : K) (v : V) (v2 : V2),
      ((qJoinSteps lt rt invs).2.2.count (k, v, v2)
          + tcount lt k v * tcount rt k v2
        = tcount (qJoinSteps lt rt invs).1 k v
            * tcount (qJoinSteps lt rt invs).2.1 k v2)
        ∧ (tcount (qJoinSteps lt rt invs).1 k v
            = tcount lt k v + (invs.flatMap Prod.fst).count (k, v))
        ∧ (tcount (qJoinSteps lt rt invs).2.1 k v2
            = tcount rt k v2 + (invs.flatMap Prod.snd).count (k, v2)) := by
  induction invs with
  | nil => intro lt rt k v v2; simp [qJoinSteps]
  | cons p rest ih =>
      intro lt rt k v v2
      obtain ⟨L, R⟩ := p
      have hstep : qJoinSteps lt rt ((L, R) :: rest)
          = ((qJoinSteps (qJoinInv lt rt L R).1 (qJoinInv lt rt L R).2.1 rest).1,
              (qJoinSteps (qJoinInv lt rt L R).1 (qJoinInv lt rt L R).2.1 rest).2.1,
              (qJoinInv lt rt L R).2.2
                ++ (qJoinSteps (qJoinInv lt rt L R).1 (qJoinInv lt rt L R).2.1 rest).2.2) := by
        simp [qJoinSteps]
      have hinv : qJoinInv lt rt L R
          = ((qJoinLeft lt rt L).1, (qJoinRight (qJoinLeft lt rt L).1 rt R).1,
              (qJoinLeft lt rt L).2 ++ (qJoinRight (qJoinLeft lt rt L).1 rt R).2) := by
        simp [qJoinInv]
      have hL := qJoinLeft_count rt L lt k v v2
      have hR := qJoinRight_count (qJoinLeft lt rt L).1 R rt k v v2
      have hrec := ih (qJoinLeft lt rt L).1 (qJoinRight (qJoinLeft lt rt L).1 rt R).1 k v v2
      rw [hstep, hinv]
      refine ⟨?_, ?_, ?_⟩
      · simp only [List.count_append]
        rw [hL.1, hR.1, hL.2, hrec.1.symm]
        have hr2 : tcount (qJoinRight (qJoinLeft lt rt L).1 rt R).1 k v2
            = tcount rt k v2 + R.count (k, v2) := hR.2
        rw [hrec.1.symm] at *
        nlinarith [hrec.1, hR.2, hL.2]
      · rw [hrec.2.1, hL.2]
        simp [List.count_append]
        omega
      · rw [hrec.2.2, hR.2]
        simp [List.count_append]
        omega

/-- Claim C2: for a `join` fed duplicate-free keyed streams on its two
sides, in any arrival interleaving across any number of invocations, the
multiset of emitted triples equals the set of all `(k, v, v2)` with `(k, v)`
arriving on the left and `(k, v2)` arriving on the right, each emitted
exactly once. -/
theorem join_complete_no_duplicates {K V V2 : Type} [DecidableEq K]
    [DecidableEq V] [DecidableEq V2]
    (invs : List (List (K × V) × List (K × V2))) (k : K) (v : V) (v2 : V2)
    (hL : (invs.flatMap Prod.fst).Nodup) (hR : (invs.flatMap Prod.snd).Nodup) :
    (qJoinSteps ([] : List (K × List V)) ([] : List (K × List V2)) invs).2.2.count
        (k, v, v2)
      = if (k, v) ∈ invs.flatMap Prod.fst ∧ (k, v2) ∈ invs.flatMap Prod.snd
        then 1 else 0 := by
  have h := qJoinSteps_count invs [] [] k v v2
  have h0l : tcount ([] : List (K × List V)) k v = 0 := by simp [tcount, alookup]
  have h0r : tcount ([] : List (K × List V2)) k v2 = 0 := by simp [tcount, alookup]
  have hcount : (qJoinSteps ([] : List (K × List V)) [] invs).2.2.count (k, v, v2)
      = (invs.flatMap Prod.fst).count (k, v) * (invs.flatMap Prod.snd).count (k, v2) := by
    have := h.1
    rw [h.2.1, h.2.2, h0l, h0r] at this
    simpa using this
  rw [hcount]
  by_cases hkv : (k, v) ∈ invs.flatMap Prod.fst
  · by_cases hkv2 : (k, v2) ∈ invs.flatMap Prod.snd
    · rw [count_one_of_nodup_mem hL hkv, count_one_of_nodup_mem hR hkv2]
      simp [hkv, hkv2]
    · rw [List.count_eq_zero.mpr hkv2]
      simp [hkv2]
  · rw [List.count_eq_zero.mpr hkv]
    simp [hkv]

theorem join_complete_no_duplicates_witness :
    ((([([(1, 10)], []), ([], [(1, 20)])] :
        List (List (Nat × Nat) × List (Nat × Nat))).flatMap Prod.fst).Nodup) ∧
      ((([([(1, 10)], []), ([], [(1, 20)])] :
        List (List (Nat × Nat) × List (Nat × Nat))).flatMap Prod.snd).Nodup) ∧
      ((qJoinSteps ([] : List (Nat × List Nat)) ([] : List (Nat × List Nat))
          [([(1, 10)], []), ([], [(1, 20)])]).2.2.count (1, 10, 20)
        = if ((1, 10) ∈ ([([(1, 10)], []), ([], [(1, 20)])] :
              List (List (Nat × Nat) × List (Nat × Nat))).flatMap Prod.fst)
            ∧ ((1, 20) ∈ ([([(1, 10)], []), ([], [(1, 20)])] :
              List (List (Nat × Nat) × List (Nat × Nat))).flatMap Prod.snd)
          then 1 else 0) :=
  ⟨by decide, by decide,
    join_complete_no_duplicates [([(1, 10)], []), ([], [(1, 20)])] 1 10 20
      (by decide) (by decide)⟩

theorem gsend_inbox_mem {M : Type} {df df' : GDF M} {m : M} {r p : Nat}
    (h : df.send m r p = some df') (i : Nat) (x : M × Nat)
    (hx : x ∈ df.inboxes.getD i []) : x ∈ df'.inboxes.getD i [] := by
  unfold GDF.send at h
  split at h
  · injection h with h
    rw [← h]
    exact hx
  · rcases hib : df.inboxes[r]? with _ | ib
    · rw [hib] at h; exact absurd h (by simp)
    · rw [hib] at h
      injection h with h
      rw [← h]
      show x ∈ (df.inboxes.set r (ib ++ [(m, p)])).getD i []
      rw [List.getD_eq_getElem?_getD]
      by_cases hir : i = r
      · subst hir
        have hlt : i < df.inboxes.length := by
          by_contra hge
          rw [List.getElem?_eq_none (Nat.le_of_not_lt hge)] at hib
          exact absurd hib (by simp)
        rw [List.getElem?_set_eq_of_lt _ hlt]
        have hgd : df.inboxes.getD i [] = ib := by
          rw [List.getD_eq_getElem?_getD, hib]
          rfl
        rw [hgd] at hx
        simp only [Option.getD_some]
        exact List.mem_append.mpr (Or.inl hx)
      · rw [List.getElem?_set_ne (fun he => hir he.symm)]
        rw [← List.getD_eq_getElem?_getD]
        exact hx

theorem gsendFrom_inbox_mem {M : Type} {df df' : GDF M} {idx : Nat} {m : M}
    (h : df.sendFrom idx m = some df') (i : Nat) (x : M × Nat)
    (hx : x ∈ df.inboxes.getD i []) : x ∈ df'.inboxes.getD i [] := by
  unfold GDF.sendFrom at h
  rcases hout : df.outputs[idx]? with _ | targets
  · rw [hout] at h; exact absurd h (by simp)
  · rw [hout] at h
    clear hout
    induction targets generalizing df with
    | nil =>
        simp only [List.foldlM_nil] at h
        injection h with h
        rw [← h]; exact hx
    | cons t ts ih =>
        simp only [List.foldlM_cons] at h
        rcases h1 : df.send m t.1 t.2 with _ | d1
        · rw [h1] at h; exact absurd h (by simp)
        · rw [h1] at h
          exact ih (gsend_inbox_mem h1 i x hx) h

theorem foldSendFrom_mem {M : Type} (sent : List M) :
    ∀ (df df' : GDF M) (idx : Nat),
      sent.foldlM (fun d m => d.sendFrom idx m) df = some df' →
      ∀ (i : Nat) (x : M × Nat),
        x ∈ df.inboxes.getD i [] → x ∈ df'.inboxes.getD i [] := by
  induction sent with
  | nil =>
      intro df df' idx h i x hx
      simp only [List.foldlM_nil] at h
      injection h with h
      rw [← h]; exact hx
  | cons m rest ih =>
      intro df df' idx h i x hx
      simp only [List.foldlM_cons] at h
      rcases h1 : df.sendFrom idx m with _ | d1
      · rw [h1] at h; exact absurd h (by simp)
      · rw [h1] at h
        exact ih d1 df' idx h i x (gsendFrom_inbox_mem h1 i x hx)

/-- Claim C8: in the `Dataflow::run` dispatch step of `src/babyflow.rs`,
every message that was pending for the popped operator and was not received
during its invocation (the un-received messages are the front `take k` of
the swapped-out inbox, since `Ctx::recv` pops from the back) is still
present in the operator's input queue afterwards, and when the invocation
sent nothing, the schedule is exactly the popped schedule, so leftover
undrained messages alone never re-insert the operator. -/
theorem run_loop_frame {M : Type} (df : GDF M) (op : Nat) (sch' : Sched)
    (k : Nat) (sent : List M) (df' : GDF M)
    (hpop : df.schedule.pop = some (op, sch'))
    (hnd : df.schedule.members.Nodup)
    (hdisp : df.dispatchStep op sch' ((df.inboxes.getD op []).take k) sent
      = some df') :
    (∀ m ∈ (df.inboxes.getD op []).take k, m ∈ df'.inboxes.getD op [])
      ∧ (sent = [] → df'.schedule = sch' ∧ op ∉ df'.schedule.members) := by
  unfold GDF.dispatchStep at hdisp
  constructor
  · intro m hm
    refine foldSendFrom_mem sent _ df' op hdisp op m ?_
    show m ∈ ((df.inboxes.set op ((df.inboxes.getD op []).take k)).getD op [])
    rw [List.getD_eq_getElem?_getD]
    by_cases hop : op < df.inboxes.length
    · rw [List.getElem?_set_eq_of_lt _ hop]
      simpa using hm
    · have hemp : df.inboxes.getD op [] = [] := by
        rw [List.getD_eq_getElem?_getD,
          List.getElem?_eq_none (Nat.le_of_not_lt hop)]
        rfl
      rw [hemp] at hm
      simp at hm
  · rintro rfl
    simp only [List.foldlM_nil] at hdisp
    injection hdisp with hdisp
    rw [← hdisp]
    refine ⟨rfl, ?_⟩
    show op ∉ sch'.members
    unfold Sched.pop at hpop
    rcases horder : df.schedule.order with _ | ⟨t, rest⟩
    · rw [horder] at hpop; exact absurd hpop (by simp)
    · rw [horder] at hpop
      simp only [Option.some.injEq, Prod.mk.injEq] at hpop
      obtain ⟨hpt, hps⟩ := hpop
      rw [← hps, ← hpt]
      intro hmem
      exact ((List.Nodup.mem_erase_iff hnd).mp hmem).1 rfl

theorem run_loop_frame_witness :
    (∀ m ∈ ((⟨[[]], [[(5, 0), (6, 0)]], ⟨[0], [0]⟩, []⟩ : GDF Nat).inboxes.getD
        0 []).take 1,
      m ∈ (((⟨[[]], [[(5, 0), (6, 0)]], ⟨[0], [0]⟩, []⟩ : GDF Nat).dispatchStep 0
          ⟨[], []⟩
          (((⟨[[]], [[(5, 0), (6, 0)]], ⟨[0], [0]⟩, []⟩ : GDF Nat).inboxes.getD
            0 []).take 1) []).getD
          ⟨[], [], ⟨[], []⟩, []⟩).inboxes.getD 0 []) ∧
      (([] : List Nat) = [] →
        (((⟨[[]], [[(5, 0), (6, 0)]], ⟨[0], [0]⟩, []⟩ : GDF Nat).dispatchStep 0
            ⟨[], []⟩
            (((⟨[[]], [[(5, 0), (6, 0)]], ⟨[0], [0]⟩, []⟩ : GDF Nat).inboxes.getD
              0 []).take 1) []).getD
            ⟨[], [], ⟨[], []⟩, []⟩).schedule = ⟨[], []⟩ ∧
          0 ∉ (((⟨[[]], [[(5, 0), (6, 0)]], ⟨[0], [0]⟩, []⟩ : GDF Nat).dispatchStep
              0 ⟨[], []⟩
              (((⟨[[]], [[(5, 0), (6, 0)]], ⟨[0], [0]⟩, []⟩ :
                GDF Nat).inboxes.getD 0 []).take 1) []).getD
              ⟨[], [], ⟨[], []⟩, []⟩).schedule.members) :=
  run_loop_frame (⟨[[]], [[(5, 0), (6, 0)]], ⟨[0], [0]⟩, []⟩ : GDF Nat) 0
    ⟨[], []⟩ 1 [] _ (by rfl) (by decide) (by rfl)

theorem wf_new : WFDF DF.new.1 := by
  constructor
  · intro l hl
    simp [DF.new] at hl
  · intro ib hib
    simp [DF.new] at hib

theorem wf_addOp {df : DF} (h : WFDF df) (o : DataOp) : WFDF (df.addOp o).1 := by
  obtain ⟨hp, hi⟩ := h
  constructor
  · intro l hl tp htp
    have hl' : l ∈ df.outputs ++ [[]] := hl
    rcases List.mem_append.mp hl' with hm | hm
    · exact hp l hm tp htp
    · simp only [List.mem_singleton] at hm
      subst hm
      cases htp
  · intro ib hib mp hmp
    have hib' : ib ∈ df.inboxes ++ [[]] := hib
    rcases List.mem_append.mp hib' with hm | hm
    · exact hi ib hm mp hmp
    · simp only [List.mem_singleton] at hm
      subst hm
      cases hmp

theorem wf_addEdge {df df' : DF} {s d p : Nat} (h : WFDF df) (hp : p ≤ 1)
    (he : df.addEdge s d p = some df') : WFDF df' := by
  obtain ⟨hpo, hio⟩ := h
  unfold DF.addEdge at he
  rcases hs : df.outputs[s]? with _ | l0
  · rw [hs] at he; exact absurd he (by simp)
  · rw [hs] at he
    injection he with he
    rw [← he]
    constructor
    · intro l hl tp htp
      rcases List.mem_or_eq_of_mem_set hl with hm | hm
      · exact hpo l hm tp htp
      · subst hm
        rcases List.mem_append.mp htp with hm | hm
        · exact hpo l0 (List.getElem?_mem hs) tp hm
        · simp only [List.mem_singleton] at hm
          subst hm
          exact hp
    · intro ib hib mp hmp
      exact hio ib hib mp hmp

theorem wf_addDistincts {rels : List (Nat × Relation)} :
    ∀ {df : DF}, WFDF df → WFDF (addDistincts df rels).1 := by
  induction rels with
  | nil => intro df h; exact h
  | cons p rest ih =>
      intro df h
      obtain ⟨nm, r⟩ := p
      exact ih (wf_addOp h _)

theorem wf_buildInputs {ops : List (Nat × Nat)} (body : List Pred) :
    ∀ {df df' : DF} {ins : List Nat}, WFDF df →
      buildInputs df ops body = some (df', ins) → WFDF df' := by
  induction body with
  | nil =>
      intro df df' ins h hb
      unfold buildInputs at hb
      injection hb with hb
      injection hb with hb1 hb2
      rw [← hb1]; exact h
  | cons pred rest ih =>
      intro df df' ins h hb
      unfold buildInputs at hb
      rcases halo : alookup ops pred.name with _ | op
      · rw [halo] at hb; exact absurd hb (by simp)
      · rw [halo] at hb
        simp only [Option.bind_eq_bind, Option.some_bind] at hb
        rcases he : (df.addOp (.select (pred.constants.map
            (fun cd => PredExpr.eqConstant cd.1 cd.2)))).1.addEdge op
            (df.addOp (.select (pred.constants.map
              (fun cd => PredExpr.eqConstant cd.1 cd.2)))).2 0 with _ | df2
        · rw [he] at hb; exact absurd hb (by simp)
        · rw [he] at hb
          simp only [Option.some_bind] at hb
          rcases hrest : buildInputs df2 ops rest with _ | p2
          · rw [hrest] at hb; exact absurd hb (by simp)
          · rw [hrest] at hb
            obtain ⟨df3, ins3⟩ := p2
            simp only [Option.some_bind] at hb
            injection hb with hb
            injection hb with hb1 hb2
            rw [← hb1]
            exact ih (wf_addEdge (wf_addOp h _) (by omega) he) hrest

theorem wf_joinChain {inputs : List Nat} (body : List Pred) :
    ∀ {df : DF} {i : Nat} {pv : List (Nat × Nat)} {len lhs : Nat}
      {df' : DF} {j' : Nat} {pv' : List (Nat × Nat)},
      WFDF df → joinChain inputs df body i pv len lhs = some (df', j', pv') →
        WFDF df' := by
  induction body with
  | nil =>
      intro df i pv len lhs df' j' pv' h hj
      unfold joinChain at hj
      injection hj with hj
      injection hj with hj1 hj2
      rw [← hj1]; exact h
  | cons pred rest ih =>
      intro df i pv len lhs df' j' pv' h hj
      unfold joinChain at hj
      rcases hkl : keysLoop pv len pred.vars with ⟨lk, rk, pv2⟩
      rw [hkl] at hj
      simp only [Option.bind_eq_bind] at hj
      rcases he1 : (df.addOp (.join lk [] rk [])).1.addEdge lhs
          (df.addOp (.join lk [] rk [])).2 0 with _ | df2
      · rw [he1] at hj; exact absurd hj (by simp)
      · rw [he1] at hj
        simp only [Option.some_bind] at hj
        rcases hinp : inputs[i]? with _ | inp
        · rw [hinp] at hj; exact absurd hj (by simp)
        · rw [hinp] at hj
          simp only [Option.some_bind] at hj
          rcases he2 : df2.addEdge inp (df.addOp (.join lk [] rk [])).2 1
              with _ | df3
          · rw [he2] at hj; exact absurd hj (by simp)
          · rw [he2] at hj
            simp only [Option.some_bind] at hj
            have h2 : WFDF df2 := wf_addEdge (wf_addOp h _) (by omega) he1
            have h3 : WFDF df3 := wf_addEdge h2 (by omega) he2
            exact ih h3 hj

theorem wf_compileClause {ops : List (Nat × Nat)} {relName : Nat}
    {head : Pred} {body : List Pred} {df df' : DF}
    (h : WFDF df) (hc : compileClause df ops relName head body = some df') :
    WFDF df' := by
  unfold compileClause at hc
  simp only [Option.bind_eq_bind] at hc
  rcases hb : buildInputs df ops body with _ | p1
  · rw [hb] at hc; exact absurd hc (by simp)
  · rw [hb] at hc
    obtain ⟨df1, inputs⟩ := p1
    simp only [Option.some_bind] at hc
    rcases hj : joinChain inputs (df1.addOp (.source [[]])).1 body 0 [] 0
        (df1.addOp (.source [[]])).2 with _ | p2
    · rw [hj] at hc; exact absurd hc (by simp)
    · rw [hj] at hc
      obtain ⟨df3, joinId, pv⟩ := p2
      simp only [Option.some_bind] at hc
      rcases hv : projVarsPass pv head.vars
          (List.replicate (head.constants.length + head.vars.length) none)
          with _ | l1
      · rw [hv] at hc; exact absurd hc (by simp)
      · rw [hv] at hc
        simp only [Option.some_bind] at hc
        rcases hcp : projConstsPass head.constants l1 with _ | l2
        · rw [hcp] at hc; exact absurd hc (by simp)
        · rw [hcp] at hc
          simp only [Option.some_bind] at hc
          rcases hm : l2.mapM id with _ | cols
          · rw [hm] at hc; exact absurd hc (by simp)
          · rw [hm] at hc
            simp only [Option.some_bind] at hc
            rcases he1 : (df3.addOp (.project cols)).1.addEdge joinId
                (df3.addOp (.project cols)).2 0 with _ | df5
            · rw [he1] at hc; exact absurd hc (by simp)
            · rw [he1] at hc
              simp only [Option.some_bind] at hc
              rcases ht : alookup ops relName with _ | target
              · rw [ht] at hc; exact absurd hc (by simp)
              · rw [ht] at hc
                simp only [Option.some_bind] at hc
                have h1 : WFDF df1 := wf_buildInputs body h hb
                have h3 : WFDF df3 := wf_joinChain body (wf_addOp h1 _) hj
                have h5 : WFDF df5 := wf_addEdge (wf_addOp h3 _) (by omega) he1
                exact wf_addEdge h5 (by omega) hc

theorem wf_compileClauses {ops : List (Nat × Nat)} {relName : Nat}
    (cls : List (Pred × List Pred)) :
    ∀ {df df' : DF}, WFDF df →
      compileClauses ops relName df cls = some df' → WFDF df' := by
  induction cls with
  | nil =>
      intro df df' h hc
      unfold compileClauses at hc
      injection hc with hc
      rw [← hc]; exact h
  | cons cl rest ih =>
      intro df df' h hc
      obtain ⟨head, body⟩ := cl
      unfold compileClauses at hc
      simp only [Option.bind_eq_bind] at hc
      rcases h1 : compileClause df ops relName head body with _ | df1
      · rw [h1] at hc; exact absurd hc (by simp)
      · rw [h1] at hc
        simp only [Option.some_bind] at hc
        exact ih (wf_compileClause h h1) hc

theorem wf_compileRels {ops : List (Nat × Nat)} (rels : List (Nat × Relation)) :
    ∀ {df df' : DF}, WFDF df →
      compileRels ops df rels = some df' → WFDF df' := by
  induction rels with
  | nil =>
      intro df df' h hc
      unfold compileRels at hc
      injection hc with hc
      rw [← hc]; exact h
  | cons p rest ih =>
      intro df df' h hc
      obtain ⟨nm, rel⟩ := p
      unfold compileRels at hc
      simp only [Option.bind_eq_bind] at hc
      rcases h1 : compileClauses ops nm df rel.clauses with _ | df1
      · rw [h1] at hc; exact absurd hc (by simp)
      · rw [h1] at hc
        simp only [Option.some_bind] at hc
        exact ih (wf_compileClauses rel.clauses h h1) hc

theorem wf_render {p : Program} {outRel : String} {df : DF}
    (hr : render p outRel = some df) : WFDF df := by
  unfold render at hr
  simp only [Option.bind_eq_bind] at hr
  rcases h1 : compileRels (addDistincts DF.new.1 (p.intern outRel).1.relations).2
      (addDistincts DF.new.1 (p.intern outRel).1.relations).1
      (p.intern outRel).1.relations with _ | df2
  · rw [h1] at hr; exact absurd hr (by simp)
  · rw [h1] at hr
    simp only [Option.some_bind] at hr
    have h2 : WFDF df2 :=
      wf_compileRels _ (wf_addDistincts wf_new) h1
    exact wf_addEdge h2 (by omega) hr

theorem rowGet_badIdx {v : Row} {i : Nat} {e : Err}
    (h : rowGet v i = .error e) : e = .badIdx := by
  unfold rowGet at h
  rcases hvi : v[i]? with _ | d
  · rw [hvi] at h
    injection h with h
    exact h.symm
  · rw [hvi] at h
    exact absurd h (by simp)

theorem except_bind_err {A B : Type} {x : Except Err A} {f : A → Except Err B}
    {e : Err} (h : (x >>= f) = .error e) :
    x = .error e ∨ ∃ a, x = .ok a ∧ f a = .error e := by
  rcases hx : x with e' | a
  · left
    rw [hx] at h
    have hred : (Except.error e' >>= f : Except Err B) = Except.error e' := rfl
    rw [hred] at h
    injection h with h
    rw [h]
  · right
    rw [hx] at h
    exact ⟨a, rfl, h⟩

theorem except_map_err {A B : Type} {x : Except Err A} {f : A → B} {e : Err}
    (h : (f <$> x) = .error e) : x = .error e := by
  rcases hx : x with e' | a
  · rw [hx] at h
    have hred : (f <$> Except.error e' : Except Err B) = Except.error e' := rfl
    rw [hred] at h
    injection h with h
    rw [h]
  · rw [hx] at h
    have hred : (f <$> Except.ok a : Except Err B) = Except.ok (f a) := rfl
    rw [hred] at h
    exact absurd h (by simp)

theorem predEval_badIdx {p : PredExpr} {v : Row} {e : Err}
    (h : PredExpr.eval p v = .error e) : e = .badIdx := by
  cases p with
  | eqConstant i d =>
      simp only [PredExpr.eval] at h
      rcases except_bind_err h with h1 | ⟨a, _, h2⟩
      · exact rowGet_badIdx h1
      · exact absurd h2 (by simp [pure, Except.pure])
  | eqCol i j =>
      simp only [PredExpr.eval] at h
      rcases except_bind_err h with h1 | ⟨a, _, h2⟩
      · exact rowGet_badIdx h1
      · exact rowGet_badIdx (except_map_err h2)

theorem except_bind_ok {A B : Type} {x : Except Err A} {f : A → Except Err B}
    {b : B} (h : (x >>= f) = .ok b) : ∃ a, x = .ok a ∧ f a = .ok b := by
  rcases hx : x with e' | a
  · rw [hx] at h
    have hred : (Except.error e' >>= f : Except Err B) = Except.error e' := rfl
    rw [hred] at h
    exact absurd h (by simp)
  · rw [hx] at h
    exact ⟨a, rfl, h⟩

theorem evalAll_badIdx {v : Row} {ps : List PredExpr} :
    ∀ {e : Err}, evalAll ps v = .error e → e = .badIdx := by
  induction ps with
  | nil => intro e h; exact absurd h (by simp [evalAll])
  | cons p rest ih =>
      intro e h
      simp only [evalAll] at h
      rcases except_bind_err h with h1 | ⟨b, _, h2⟩
      · exact predEval_badIdx h1
      · cases b
        · exact absurd h2 (by simp [pure, Except.pure])
        · exact ih h2

theorem projCol_badIdx {v : Row} {c : ColExpr} {e : Err}
    (h : projCol v c = .error e) : e = .badIdx := by
  cases c with
  | datum d => exact absurd h (by simp [projCol])
  | var i =>
      simp only [projCol] at h
      exact rowGet_badIdx h

theorem projRow_badIdx {v : Row} {cols : List ColExpr} :
    ∀ {e : Err}, projRow cols v = .error e → e = .badIdx := by
  induction cols with
  | nil => intro e h; exact absurd h (by simp [projRow])
  | cons c rest ih =>
      intro e h
      simp only [projRow] at h
      rcases except_bind_err h with h1 | ⟨d, _, h2⟩
      · exact projCol_badIdx h1
      · rcases except_bind_err h2 with h3 | ⟨tl, _, h4⟩
        · exact ih h3
        · exact absurd h4 (by simp [pure, Except.pure])

theorem keyRow_badIdx {v : Row} {ks : List Nat} :
    ∀ {e : Err}, keyRow ks v = .error e → e = .badIdx := by
  induction ks with
  | nil => intro e h; exact absurd h (by simp [keyRow])
  | cons i rest ih =>
      intro e h
      simp only [keyRow] at h
      rcases except_bind_err h with h1 | ⟨d, _, h2⟩
      · exact rowGet_badIdx h1
      · rcases except_bind_err h2 with h3 | ⟨tl, _, h4⟩
        · exact ih h3
        · exact absurd h4 (by simp [pure, Except.pure])

theorem runSelect_badIdx {ps : List PredExpr} {msgs : List (Row × Nat)} :
    ∀ {e : Err}, runSelect ps msgs = .error e → e = .badIdx := by
  induction msgs with
  | nil => intro e h; exact absurd h (by simp [runSelect])
  | cons mp rest ih =>
      intro e h
      obtain ⟨v, q⟩ := mp
      simp only [runSelect] at h
      rcases except_bind_err h with h1 | ⟨b, _, h2⟩
      · exact evalAll_badIdx h1
      · rcases except_bind_err h2 with h3 | ⟨tl, _, h4⟩
        · exact ih h3
        · exact absurd h4 (by simp [pure, Except.pure])

theorem runProject_badIdx {cols : List ColExpr} {msgs : List (Row × Nat)} :
    ∀ {e : Err}, runProject cols msgs = .error e → e = .badIdx := by
  induction msgs with
  | nil => intro e h; exact absurd h (by simp [runProject])
  | cons mp rest ih =>
      intro e h
      obtain ⟨v, q⟩ := mp
      simp only [runProject] at h
      rcases except_bind_err h with h1 | ⟨r, _, h2⟩
      · exact projRow_badIdx h1
      · rcases except_bind_err h2 with h3 | ⟨tl, _, h4⟩
        · exact ih h3
        · exact absurd h4 (by simp [pure, Except.pure])

theorem runJoin_badIdx {lk rk : List Nat} (msgs : List (Row × Nat)) :
    ∀ {lt rt : List (Row × List Row)},
      (∀ mp ∈ msgs, (mp : Row × Nat).2 ≤ 1) →
      ∀ {e : Err}, runJoin lk rk lt rt msgs = .error e → e = .badIdx := by
  induction msgs with
  | nil => intro lt rt _ e h; exact absurd h (by simp [runJoin])
  | cons mp rest ih =>
      intro lt rt hports e h
      obtain ⟨row, port⟩ := mp
      have hp : port ≤ 1 := hports (row, port) (by simp)
      have hrest : ∀ mp ∈ rest, (mp : Row × Nat).2 ≤ 1 :=
        fun mp hm => hports mp (List.mem_cons_of_mem _ hm)
      simp only [runJoin] at h
      by_cases h0 : port = 0
      · rw [if_pos h0] at h
        rcases except_bind_err h with h1 | ⟨k, _, h2⟩
        · exact keyRow_badIdx h1
        · rcases except_bind_err h2 with h3 | ⟨t3, _, h4⟩
          · exact ih hrest h3
          · obtain ⟨ltf, rtf, em⟩ := t3
            exact absurd h4 (by simp [pure, Except.pure])
      · rw [if_neg h0] at h
        by_cases h1 : port = 1
        · rw [if_pos h1] at h
          rcases except_bind_err h with h1' | ⟨k, _, h2⟩
          · exact keyRow_badIdx h1'
          · rcases except_bind_err h2 with h3 | ⟨t3, _, h4⟩
            · exact ih hrest h3
            · obtain ⟨ltf, rtf, em⟩ := t3
              exact absurd h4 (by simp [pure, Except.pure])
        · omega

theorem runModel_badIdx {o : DataOp} {inbox : List (Row × Nat)} {e : Err}
    (hin : ∀ mp ∈ inbox, (mp : Row × Nat).2 ≤ 1)
    (h : o.runModel inbox = .error e) : e = .badIdx := by
  cases o with
  | source v => exact absurd h (by simp [DataOp.runModel])
  | project cols =>
      simp only [DataOp.runModel] at h
      rcases except_bind_err h with h1 | ⟨em, _, h2⟩
      · exact runProject_badIdx h1
      · exact absurd h2 (by simp [pure, Except.pure])
  | select ps =>
      simp only [DataOp.runModel] at h
      rcases except_bind_err h with h1 | ⟨em, _, h2⟩
      · exact runSelect_badIdx h1
      · exact absurd h2 (by simp [pure, Except.pure])
  | distinct seen =>
      exact absurd h (by simp [DataOp.runModel])
  | join lk lt rk rt =>
      simp only [DataOp.runModel] at h
      rcases except_bind_err h with h1 | ⟨t, _, h2⟩
      · refine runJoin_badIdx (drainAll inbox) ?_ h1
        intro mp hm
        rw [drainAll_reverse] at hm
        exact hin mp (List.mem_reverse.mp hm)
      · obtain ⟨lt', rt', em⟩ := t
        exact absurd h2 (by simp [pure, Except.pure])

theorem runModel_leftover {o : DataOp} {inbox : List (Row × Nat)}
    {o' : DataOp} {lo : List (Row × Nat)} {sent : List Row}
    (h : o.runModel inbox = .ok (o', lo, sent)) : lo = inbox ∨ lo = [] := by
  cases o with
  | source v =>
      simp only [DataOp.runModel] at h
      injection h with h
      injection h with h1 h2
      injection h2 with h2 h3
      left; rw [← h2]
  | project cols =>
      simp only [DataOp.runModel] at h
      rcases except_bind_ok h with ⟨em, _, h2⟩
      have h2' : Except.ok (DataOp.project cols, ([] : List (Row × Nat)), em)
          = Except.ok (o', lo, sent) := h2
      injection h2' with h2'
      injection h2' with h1 h2'
      injection h2' with h2' h3
      right; rw [← h2']
  | select ps =>
      simp only [DataOp.runModel] at h
      rcases except_bind_ok h with ⟨em, _, h2⟩
      have h2' : Except.ok (DataOp.select ps, ([] : List (Row × Nat)), em)
          = Except.ok (o', lo, sent) := h2
      injection h2' with h2'
      injection h2' with h1 h2'
      injection h2' with h2' h3
      right; rw [← h2']
  | distinct seen =>
      simp only [DataOp.runModel] at h
      injection h with h
      injection h with h1 h2
      injection h2 with h2 h3
      right; rw [← h2]
  | join lk lt rk rt =>
      simp only [DataOp.runModel] at h
      rcases except_bind_ok h with ⟨t, _, h2⟩
      obtain ⟨lt', rt', em⟩ := t
      have h2' : Except.ok (DataOp.join lk lt' rk rt', ([] : List (Row × Nat)), em)
          = Except.ok (o', lo, sent) := h2
      injection h2' with h2'
      injection h2' with h1 h2'
      injection h2' with h2' h3
      right; rw [← h2']

theorem send_spec {df : DF} {m : Row} {r p : Nat} (h : WFDF df) (hp : p ≤ 1) :
    (∀ e, df.send m r p = .error e → e = .badIdx) ∧
      (∀ df', df.send m r p = .ok df' → WFDF df') := by
  unfold DF.send
  by_cases hr : r = uMAX
  · rw [if_pos hr]
    constructor
    · intro e he; exact absurd he (by simp)
    · intro df' he
      injection he with he
      rw [← he]
      exact ⟨h.1, h.2⟩
  · rw [if_neg hr]
    rcases hib : df.inboxes[r]? with _ | ib
    · constructor
      · intro e he
        injection he with he
        exact he.symm
      · intro df' he; exact absurd he (by simp)
    · constructor
      · intro e he; exact absurd he (by simp)
      · intro df' he
        injection he with he
        rw [← he]
        constructor
        · exact h.1
        · intro ib' hib' mp hmp
          rcases List.mem_or_eq_of_mem_set hib' with hm | hm
          · exact h.2 ib' hm mp hmp
          · subst hm
            rcases List.mem_append.mp hmp with hm2 | hm2
            · exact h.2 ib (List.getElem?_mem hib) mp hm2
            · simp only [List.mem_singleton] at hm2
              subst hm2
              exact hp

theorem foldSend_spec {m : Row} (targets : List (Nat × Nat))
    (hts : ∀ tp ∈ targets, (tp : Nat × Nat).2 ≤ 1) :
    ∀ {d : DF}, WFDF d →
      (∀ e, targets.foldlM (fun d (tp : Nat × Nat) => d.send m tp.1 tp.2) d
          = .error e → e = .badIdx) ∧
        (∀ d', targets.foldlM (fun d (tp : Nat × Nat) => d.send m tp.1 tp.2) d
          = .ok d' → WFDF d') := by
  induction targets with
  | nil =>
      intro d hd
      constructor
      · intro e he
        simp only [List.foldlM_nil] at he
        exact absurd he (by simp [pure, Except.pure])
      · intro d' he
        simp only [List.foldlM_nil] at he
        have hred : (pure d : Except Err DF) = .ok d := rfl
        rw [hred] at he
        injection he with he
        rw [← he]; exact hd
  | cons t ts ih =>
      intro d hd
      have ht : t.2 ≤ 1 := hts t (by simp)
      have hts' : ∀ tp ∈ ts, (tp : Nat × Nat).2 ≤ 1 :=
        fun tp hm => hts tp (List.mem_cons_of_mem _ hm)
      constructor
      · intro e he
        simp only [List.foldlM_cons] at he
        rcases except_bind_err he with h1 | ⟨d1, hd1, h2⟩
        · exact (send_spec hd ht).1 e h1
        · exact (ih hts' ((send_spec hd ht).2 d1 hd1)).1 e h2
      · intro d' he
        simp only [List.foldlM_cons] at he
        rcases except_bind_ok he with ⟨d1, hd1, h2⟩
        exact (ih hts' ((send_spec hd ht).2 d1 hd1)).2 d' h2

theorem sendFrom_spec {df : DF} {idx : Nat} {m : Row} (h : WFDF df) :
    (∀ e, df.sendFrom idx m = .error e → e = .badIdx) ∧
      (∀ df', df.sendFrom idx m = .ok df' → WFDF df') := by
  unfold DF.sendFrom
  rcases hout : df.outputs[idx]? with _ | targets
  · constructor
    · intro e he
      injection he with he
      exact he.symm
    · intro df' he; exact absurd he (by simp)
  · exact foldSend_spec targets
      (fun tp hm => h.1 targets (List.getElem?_mem hout) tp hm) h

theorem dispatch_spec (sent : List Row) :
    ∀ {df : DF} {idx : Nat}, WFDF df →
      (∀ e, df.dispatch idx sent = .error e → e = .badIdx) ∧
        (∀ df', df.dispatch idx sent = .ok df' → WFDF df') := by
  induction sent with
  | nil =>
      intro df idx h
      constructor
      · intro e he
        unfold DF.dispatch at he
        simp only [List.foldlM_nil] at he
        exact absurd he (by simp [pure, Except.pure])
      · intro df' he
        unfold DF.dispatch at he
        simp only [List.foldlM_nil] at he
        have hred : (pure df : Except Err DF) = .ok df := rfl
        rw [hred] at he
        injection he with he
        rw [← he]; exact h
  | cons m rest ih =>
      intro df idx h
      constructor
      · intro e he
        unfold DF.dispatch at he
        simp only [List.foldlM_cons] at he
        rcases except_bind_err he with h1 | ⟨d1, hd1, h2⟩
        · exact (sendFrom_spec h).1 e h1
        · exact (ih ((sendFrom_spec h).2 d1 hd1)).1 e h2
      · intro df' he
        unfold DF.dispatch at he
        simp only [List.foldlM_cons] at he
        rcases except_bind_ok he with ⟨d1, hd1, h2⟩
        exact (ih ((sendFrom_spec h).2 d1 hd1)).2 df' h2

theorem step_spec {df : DF} (h : WFDF df) :
    (∀ e, df.step = .error e → e = .badIdx) ∧
      (∀ df', df.step = .ok (some df') → WFDF df') := by
  rcases hpop : df.schedule.pop with _ | ⟨op, sch'⟩
  · constructor
    · intro e he
      unfold DF.step at he
      simp only [hpop] at he
      exact absurd he (by simp)
    · intro df' he
      unfold DF.step at he
      simp only [hpop] at he
      simp at he
  · rcases hop : df.operators[op]? with _ | o
    · constructor
      · intro e he
        unfold DF.step at he
        rcases hib : df.inboxes[op]? with _ | inbox
        · simp only [hpop, hop, hib] at he
          injection he with he
          exact he.symm
        · simp only [hpop, hop, hib] at he
          injection he with he
          exact he.symm
      · intro df' he
        unfold DF.step at he
        rcases hib : df.inboxes[op]? with _ | inbox
        · simp only [hpop, hop, hib] at he
          exact absurd he (by simp)
        · simp only [hpop, hop, hib] at he
          exact absurd he (by simp)
    · rcases hib : df.inboxes[op]? with _ | inbox
      · constructor
        · intro e he
          unfold DF.step at he
          simp only [hpop, hop, hib] at he
          injection he with he
          exact he.symm
        · intro df' he
          unfold DF.step at he
          simp only [hpop, hop, hib] at he
          exact absurd he (by simp)
      · have hin : ∀ mp ∈ inbox, (mp : Row × Nat).2 ≤ 1 :=
          fun mp hm => h.2 inbox (List.getElem?_mem hib) mp hm
        have hwf1 : ∀ (o' : DataOp) (lo : List (Row × Nat)) (sent : List Row),
            o.runModel inbox = .ok (o', lo, sent) →
            WFDF { df with operators := df.operators.set op o',
                           inboxes := df.inboxes.set op lo,
                           schedule := sch' } := by
          intro o' lo sent hrm
          constructor
          · exact h.1
          · intro ib' hib' mp hmp
            rcases List.mem_or_eq_of_mem_set hib' with hm | hm
            · exact h.2 ib' hm mp hmp
            · subst hm
              rcases runModel_leftover hrm with hlo | hlo
              · rw [hlo] at hmp
                exact hin mp hmp
              · rw [hlo] at hmp
                cases hmp
        constructor
        · intro e he
          unfold DF.step at he
          simp only [hpop, hop, hib] at he
          rcases except_bind_err he with h1 | ⟨t, ht, h2⟩
          · exact runModel_badIdx hin h1
          · obtain ⟨o', lo, sent⟩ := t
            rcases except_bind_err h2 with h3 | ⟨d2, hd2, h4⟩
            · exact (dispatch_spec sent (hwf1 o' lo sent ht)).1 e h3
            · exact absurd h4 (by simp [pure, Except.pure])
        · intro df' he
          unfold DF.step at he
          simp only [hpop, hop, hib] at he
          rcases except_bind_ok he with ⟨t, ht, h2⟩
          obtain ⟨o', lo, sent⟩ := t
          rcases except_bind_ok h2 with ⟨d2, hd2, h4⟩
          have hd2' : WFDF d2 :=
            (dispatch_spec sent (hwf1 o' lo sent ht)).2 d2 hd2
          have hred : (pure (some d2) : Except Err (Option DF))
              = .ok (some d2) := rfl
          rw [hred] at h4
          injection h4 with h4
          injection h4 with h4
          rw [← h4]
          exact hd2'

theorem runFuel_no_badPort (n : Nat) :
    ∀ {df : DF}, WFDF df → runFuel n df ≠ .err .badPort := by
  induction n with
  | zero =>
      intro df h hcon
      exact absurd hcon (by simp [runFuel])
  | succ n ih =>
      intro df h hcon
      unfold runFuel at hcon
      rcases hs : df.step with e | od
      · rw [hs] at hcon
        have he : e = .badIdx := (step_spec h).1 e hs
        rw [he] at hcon
        injection hcon with hcon
        exact absurd hcon (by simp)
      · rcases od with _ | df'
        · rw [hs] at hcon
          exact absurd hcon (by simp)
        · rw [hs] at hcon
          exact ih ((step_spec h).2 df' hs) hcon

/-- Claim C9: the join operator's port dispatch is the
`panic!("unhandled")` arm (modelled as the `badPort` failure) for any port
tag other than 0 or 1; and for every graph `Program::render` successfully
constructs, that abort is unreachable: every wired edge carries `in_port` 0
or 1, so a run of any length never produces the `badPort` panic. -/
theorem join_bad_port_unreachable (p : Program) (o : String) (df : DF)
    (hr : render p o = some df) :
    (∀ (lk rk : List Nat) (lt rt : List (Row × List Row)) (row : Row)
        (port : Nat) (rest : List (Row × Nat)), 2 ≤ port →
        runJoin lk rk lt rt ((row, port) :: rest) = .error .badPort) ∧
      (∀ l ∈ df.outputs, ∀ tp ∈ l, (tp : Nat × Nat).2 ≤ 1) ∧
      (∀ fuel, runFuel fuel df ≠ .err .badPort) := by
  have hwf := wf_render hr
  refine ⟨?_, hwf.1, fun fuel => runFuel_no_badPort fuel hwf⟩
  intro lk rk lt rt row port rest hport
  simp only [runJoin]
  rw [if_neg (by omega), if_neg (by omega)]

theorem join_bad_port_unreachable_witness :
    (∀ (lk rk : List Nat) (lt rt : List (Row × List Row)) (row : Row)
        (port : Nat) (rest : List (Row × Nat)), 2 ≤ port →
        runJoin lk rk lt rt ((row, port) :: rest) = .error .badPort) ∧
      (∀ l ∈ ((render (mainProgram [(1, 2)]) "reachable").getD DF.new.1).outputs,
        ∀ tp ∈ l, (tp : Nat × Nat).2 ≤ 1) ∧
      (∀ fuel, runFuel fuel
          ((render (mainProgram [(1, 2)]) "reachable").getD DF.new.1)
        ≠ .err .badPort) :=
  join_bad_port_unreachable (mainProgram [(1, 2)]) "reachable"
    ((render (mainProgram [(1, 2)]) "reachable").getD DF.new.1) (by rfl)

theorem runFuel_succ_of_step {df df' : DF} (n : Nat)
    (h : df.step = .ok (some df')) : runFuel (n + 1) df = runFuel n df' := by
  have hun : runFuel (n + 1) df = match df.step with
      | .error e => .err e
      | .ok none => .ok df.outbox
      | .ok (some d) => runFuel n d := rfl
  rw [hun, h]

theorem runFuel_quiescent {df : DF} (n : Nat)
    (h : df.schedule.order = []) : runFuel (n + 1) df = .ok df.outbox := by
  have hs : df.step = .ok none := by
    unfold DF.step Sched.pop
    rw [h]
  unfold runFuel
  rw [hs]

theorem step_run_eq {df : DF} {op : Nat} {sch' : Sched} {o o' : DataOp}
    {inbox lo : List (Row × Nat)} {sent : List Row} {df' : DF}
    (hpop : df.schedule.pop = some (op, sch'))
    (hop : df.operators[op]? = some o)
    (hib : df.inboxes[op]? = some inbox)
    (hrm : o.runModel inbox = .ok (o', lo, sent))
    (hdisp : DF.dispatch { df with operators := df.operators.set op o',
                                   inboxes := df.inboxes.set op lo,
                                   schedule := sch' } op sent = .ok df') :
    df.step = .ok (some df') := by
  unfold DF.step
  simp only [hpop, hop, hib, hrm]
  have hred : (Except.ok (o', lo, sent) >>=
      fun t => (match t with
        | (o', leftover, sent) =>
          DF.dispatch { df with operators := df.operators.set op o',
                                inboxes := df.inboxes.set op leftover,
                                schedule := sch' } op sent >>=
            fun df'' => pure (some df'')) :
      Except Err (Option DF))
      = (DF.dispatch { df with operators := df.operators.set op o',
                               inboxes := df.inboxes.set op lo,
                               schedule := sch' } op sent >>=
          fun df'' => pure (some df'')) := rfl
  rw [hred, hdisp]
  rfl

theorem sched_insert_insert (s : Sched) (t : Nat) :
    (s.insert t).insert t = s.insert t := by
  unfold Sched.insert
  by_cases h : t ∈ s.members
  · simp [h]
  · rw [if_neg h]
    have : t ∈ (⟨s.order ++ [t], t :: s.members⟩ : Sched).members := by simp
    simp [this]

theorem dispatch_nil (df : DF) (op : Nat) : df.dispatch op [] = .ok df := rfl

theorem dispatch_one_target {op t p : Nat} (sent : List Row) :
    ∀ (df1 : DF) (ibt : List (Row × Nat)),
      df1.outputs[op]? = some [(t, p)] →
      t ≠ uMAX →
      df1.inboxes[t]? = some ibt →
      df1.dispatch op sent = .ok { df1 with
        inboxes := df1.inboxes.set t (ibt ++ sent.map (fun m => (m, p))),
        schedule := if sent = [] then df1.schedule else df1.schedule.insert t } := by
  induction sent with
  | nil =>
      intro df1 ibt hout ht hibt
      rw [dispatch_nil]
      have hset : df1.inboxes.set t (ibt ++ []) = df1.inboxes := by
        have hibt' : ibt ++ [] = ibt := by simp
        rw [hibt']
        have hlt : t < df1.inboxes.length := by
          by_contra hge
          rw [List.getElem?_eq_none (Nat.le_of_not_lt hge)] at hibt
          exact absurd hibt (by simp)
        apply List.ext_getElem?
        intro i
        by_cases hi : i = t
        · subst hi
          rw [List.getElem?_set_eq_of_lt _ hlt, hibt]
        · rw [List.getElem?_set_ne (fun he => hi he.symm)]
      simp only [List.map_nil, hset, if_pos rfl]
      simp
  | cons m rest ih =>
      intro df1 ibt hout ht hibt
      have hlt : t < df1.inboxes.length := by
        by_contra hge
        rw [List.getElem?_eq_none (Nat.le_of_not_lt hge)] at hibt
        exact absurd hibt (by simp)
      have hsf : df1.sendFrom op m = .ok { df1 with
          inboxes := df1.inboxes.set t (ibt ++ [(m, p)]),
          schedule := df1.schedule.insert t } := by
        unfold DF.sendFrom
        rw [hout]
        simp only [List.foldlM_cons, List.foldlM_nil]
        have hsend : df1.send m t p = .ok { df1 with
            inboxes := df1.inboxes.set t (ibt ++ [(m, p)]),
            schedule := df1.schedule.insert t } := by
          unfold DF.send
          rw [if_neg ht, hibt]
        rw [hsend]
        rfl
      show (df1.sendFrom op m >>= fun d => d.dispatch op rest) = _
      rw [hsf]
      have hred : (Except.ok { df1 with
          inboxes := df1.inboxes.set t (ibt ++ [(m, p)]),
          schedule := df1.schedule.insert t } >>=
            fun d => d.dispatch op rest)
          = DF.dispatch { df1 with
              inboxes := df1.inboxes.set t (ibt ++ [(m, p)]),
              schedule := df1.schedule.insert t } op rest := rfl
      rw [hred]
      have hout2 : ({ df1 with
          inboxes := df1.inboxes.set t (ibt ++ [(m, p)]),
          schedule := df1.schedule.insert t } : DF).outputs[op]? = some [(t, p)] :=
        hout
      have hibt2 : ({ df1 with
          inboxes := df1.inboxes.set t (ibt ++ [(m, p)]),
          schedule := df1.schedule.insert t } : DF).inboxes[t]?
          = some (ibt ++ [(m, p)]) := by
        show (df1.inboxes.set t (ibt ++ [(m, p)]))[t]? = _
        rw [List.getElem?_set_eq_of_lt _ hlt]
      rw [ih _ _ hout2 ht hibt2]
      by_cases hrest : rest = []
      · subst hrest
        simp only [List.map_nil, List.append_nil, if_pos rfl]
        rw [List.set_set]
        rfl
      · rw [if_neg hrest, if_neg (by simp)]
        simp only [List.set_set, sched_insert_insert, List.append_assoc]
        rfl

theorem dispatch_two_targets {op t p q : Nat} (sent : List Row) :
    ∀ (df1 : DF) (ibt : List (Row × Nat)),
      df1.outputs[op]? = some [(t, p), (uMAX, q)] →
      t ≠ uMAX →
      df1.inboxes[t]? = some ibt →
      df1.dispatch op sent = .ok { df1 with
        inboxes := df1.inboxes.set t (ibt ++ sent.map (fun m => (m, p))),
        schedule := if sent = [] then df1.schedule else df1.schedule.insert t,
        outbox := df1.outbox ++ sent } := by
  induction sent with
  | nil =>
      intro df1 ibt hout ht hibt
      rw [dispatch_nil]
      have hlt : t < df1.inboxes.length := by
        by_contra hge
        rw [List.getElem?_eq_none (Nat.le_of_not_lt hge)] at hibt
        exact absurd hibt (by simp)
      have hset : df1.inboxes.set t (ibt ++ []) = df1.inboxes := by
        have hibt' : ibt ++ ([] : List (Row × Nat)) = ibt := by simp
        rw [hibt']
        apply List.ext_getElem?
        intro i
        by_cases hi : i = t
        · subst hi
          rw [List.getElem?_set_eq_of_lt _ hlt, hibt]
        · rw [List.getElem?_set_ne (fun he => hi he.symm)]
      simp only [List.map_nil, hset, if_pos rfl]
      simp
  | cons m rest ih =>
      intro df1 ibt hout ht hibt
      have hlt : t < df1.inboxes.length := by
        by_contra hge
        rw [List.getElem?_eq_none (Nat.le_of_not_lt hge)] at hibt
        exact absurd hibt (by simp)
      have hsf : df1.sendFrom op m = .ok { df1 with
          inboxes := df1.inboxes.set t (ibt ++ [(m, p)]),
          schedule := df1.schedule.insert t,
          outbox := df1.outbox ++ [m] } := by
        unfold DF.sendFrom
        rw [hout]
        simp only [List.foldlM_cons, List.foldlM_nil]
        have hsend : df1.send m t p = .ok { df1 with
            inboxes := df1.inboxes.set t (ibt ++ [(m, p)]),
            schedule := df1.schedule.insert t } := by
          unfold DF.send
          rw [if_neg ht, hibt]
        rw [hsend]
        have hsend2 : DF.send { df1 with
            inboxes := df1.inboxes.set t (ibt ++ [(m, p)]),
            schedule := df1.schedule.insert t } m uMAX q
            = .ok { df1 with
                inboxes := df1.inboxes.set t (ibt ++ [(m, p)]),
                schedule := df1.schedule.insert t,
                outbox := df1.outbox ++ [m] } := by
          unfold DF.send
          rw [if_pos rfl]
        show (DF.send { df1 with
            inboxes := df1.inboxes.set t (ibt ++ [(m, p)]),
            schedule := df1.schedule.insert t } m uMAX q >>=
            fun d2 => pure d2) = _
        rw [hsend2]
        rfl
      show (df1.sendFrom op m >>= fun d => d.dispatch op rest) = _
      rw [hsf]
      have hred : (Except.ok { df1 with
          inboxes := df1.inboxes.set t (ibt ++ [(m, p)]),
          schedule := df1.schedule.insert t,
          outbox := df1.outbox ++ [m] } >>=
            fun d => d.dispatch op rest)
          = DF.dispatch { df1 with
              inboxes := df1.inboxes.set t (ibt ++ [(m, p)]),
              schedule := df1.schedule.insert t,
              outbox := df1.outbox ++ [m] } op rest := rfl
      rw [hred]
      have hout2 : ({ df1 with
          inboxes := df1.inboxes.set t (ibt ++ [(m, p)]),
          schedule := df1.schedule.insert t,
          outbox := df1.outbox ++ [m] } : DF).outputs[op]?
          = some [(t, p), (uMAX, q)] := hout
      have hibt2 : ({ df1 with
          inboxes := df1.inboxes.set t (ibt ++ [(m, p)]),
          schedule := df1.schedule.insert t,
          outbox := df1.outbox ++ [m] } : DF).inboxes[t]?
          = some (ibt ++ [(m, p)]) := by
        show (df1.inboxes.set t (ibt ++ [(m, p)]))[t]? = _
        rw [List.getElem?_set_eq_of_lt _ hlt]
      rw [ih _ _ hout2 ht hibt2]
      by_cases hrest : rest = []
      · subst hrest
        simp only [List.map_nil, List.append_nil, if_pos rfl]
        rw [List.set_set]
        rfl
      · rw [if_neg hrest, if_neg (by simp)]
        simp only [List.set_set, sched_insert_insert, List.append_assoc]
        rfl

theorem runModel_distinct_eq (seen : List Row) (inbox : List (Row × Nat)) :
    DataOp.runModel (.distinct seen) inbox
      = .ok (.distinct (runDistinct seen inbox.reverse).1, [],
          (runDistinct seen inbox.reverse).2) := by
  rcases hrd : runDistinct seen inbox.reverse with ⟨s', em⟩
  simp only [DataOp.runModel, drainAll_reverse, hrd]

theorem runSelect_nil_eq (msgs : List (Row × Nat)) :
    runSelect [] msgs = .ok (msgs.map Prod.fst) := by
  induction msgs with
  | nil => rfl
  | cons mp rest ih =>
      obtain ⟨v, q⟩ := mp
      simp only [runSelect, evalAll, ih]
      rfl

theorem runModel_select_nil_eq (inbox : List (Row × Nat)) :
    DataOp.runModel (.select []) inbox
      = .ok (.select [], [], inbox.reverse.map Prod.fst) := by
  simp only [DataOp.runModel, drainAll_reverse, runSelect_nil_eq]
  rfl

theorem runProject_eq (cols : List ColExpr) (g : Row → Row)
    (msgs : List (Row × Nat))
    (hg : ∀ mp ∈ msgs, projRow cols (mp : Row × Nat).1 = .ok (g mp.1)) :
    runProject cols msgs = .ok (msgs.map (fun mp => g mp.1)) := by
  induction msgs with
  | nil => rfl
  | cons mp rest ih =>
      obtain ⟨v, q⟩ := mp
      have h1 : projRow cols v = .ok (g v) := hg (v, q) (by simp)
      have h2 := ih (fun mp hm => hg mp (List.mem_cons_of_mem _ hm))
      simp only [runProject, h1, h2]
      rfl

theorem runModel_project_eq (cols : List ColExpr) (g : Row → Row)
    (inbox : List (Row × Nat))
    (hg : ∀ mp ∈ inbox, projRow cols (mp : Row × Nat).1 = .ok (g mp.1)) :
    DataOp.runModel (.project cols) inbox
      = .ok (.project cols, [], inbox.reverse.map (fun mp => g mp.1)) := by
  simp only [DataOp.runModel, drainAll_reverse]
  rw [runProject_eq cols g _ (fun mp hm => hg mp (List.mem_reverse.mp hm))]
  rfl

theorem option_match_map_eq (o : Option (List Row)) (f : Row → Row) :
    (match o with | some ms => ms.map f | none => []) = (o.getD []).map f := by
  rcases o with _ | ms <;> rfl

theorem runJoin_port0_eq (lk rk : List Nat) (kf : Row → Row)
    (msgs : List (Row × Nat)) :
    ∀ (lt rt : List (Row × List Row)),
      (∀ mp ∈ msgs, (mp : Row × Nat).2 = 0) →
      (∀ mp ∈ msgs, keyRow lk (mp : Row × Nat).1 = .ok (kf mp.1)) →
      runJoin lk rk lt rt msgs
        = .ok (msgs.foldl (fun t mp => tpush t (kf mp.1) mp.1) lt, rt,
            msgs.flatMap (fun mp =>
              ((tget rt (kf mp.1)).getD []).map (fun m => mp.1 ++ m))) := by
  induction msgs with
  | nil => intro lt rt _ _; rfl
  | cons mp rest ih =>
      intro lt rt hp hk
      obtain ⟨row, port⟩ := mp
      have hport : port = 0 := hp (row, port) (by simp)
      subst hport
      have hkey : keyRow lk row = .ok (kf row) := hk (row, 0) (by simp)
      have hrec := ih (tpush lt (kf row) row) rt
        (fun mp hm => hp mp (List.mem_cons_of_mem _ hm))
        (fun mp hm => hk mp (List.mem_cons_of_mem _ hm))
      simp only [runJoin, if_pos rfl, hkey, option_match_map_eq]
      have hbind : (Except.ok (kf row) >>= fun k =>
          (runJoin lk rk (tpush lt k row) rt rest >>= fun t =>
            match t with
            | (ltf, rtf, em') =>
                pure (ltf, rtf,
                  ((tget rt k).getD []).map (fun m => row ++ m) ++ em')) :
          Except Err (List (Row × List Row) × List (Row × List Row) × List Row))
          = (runJoin lk rk (tpush lt (kf row) row) rt rest >>= fun t =>
              match t with
              | (ltf, rtf, em') =>
                  pure (ltf, rtf,
                    ((tget rt (kf row)).getD []).map (fun m => row ++ m) ++ em')) :=
        rfl
      rw [hbind, hrec]
      simp [List.flatMap_cons]

theorem runJoin_port1_eq (lk rk : List Nat) (kf : Row → Row)
    (msgs : List (Row × Nat)) :
    ∀ (lt rt : List (Row × List Row)),
      (∀ mp ∈ msgs, (mp : Row × Nat).2 = 1) →
      (∀ mp ∈ msgs, keyRow rk (mp : Row × Nat).1 = .ok (kf mp.1)) →
      runJoin lk rk lt rt msgs
        = .ok (lt, msgs.foldl (fun t mp => tpush t (kf mp.1) mp.1) rt,
            msgs.flatMap (fun mp =>
              ((tget lt (kf mp.1)).getD []).map (fun m => m ++ mp.1))) := by
  induction msgs with
  | nil => intro lt rt _ _; rfl
  | cons mp rest ih =>
      intro lt rt hp hk
      obtain ⟨row, port⟩ := mp
      have hport : port = 1 := hp (row, port) (by simp)
      subst hport
      have hkey : keyRow rk row = .ok (kf row) := hk (row, 1) (by simp)
      have hrec := ih lt (tpush rt (kf row) row)
        (fun mp hm => hp mp (List.mem_cons_of_mem _ hm))
        (fun mp hm => hk mp (List.mem_cons_of_mem _ hm))
      simp only [runJoin, if_neg (by omega : ¬(1 : Nat) = 0), if_pos rfl,
        hkey, option_match_map_eq]
      have hbind : (Except.ok (kf row) >>= fun k =>
          (runJoin lk rk lt (tpush rt k row) rest >>= fun t =>
            match t with
            | (ltf, rtf, em') =>
                pure (ltf, rtf,
                  ((tget lt k).getD []).map (fun m => m ++ row) ++ em')) :
          Except Err (List (Row × List Row) × List (Row × List Row) × List Row))
          = (runJoin lk rk lt (tpush rt (kf row) row) rest >>= fun t =>
              match t with
              | (ltf, rtf, em') =>
                  pure (ltf, rtf,
                    ((tget lt (kf row)).getD []).map (fun m => m ++ row) ++ em')) :=
        rfl
      rw [hbind, hrec]
      simp [List.flatMap_cons]

theorem runModel_join_port0_eq (lk rk : List Nat) (kf : Row → Row)
    (lt rt : List (Row × List Row)) (inbox : List (Row × Nat))
    (hp : ∀ mp ∈ inbox, (mp : Row × Nat).2 = 0)
    (hk : ∀ mp ∈ inbox, keyRow lk (mp : Row × Nat).1 = .ok (kf mp.1)) :
    DataOp.runModel (.join lk lt rk rt) inbox
      = .ok (.join lk
          (inbox.reverse.foldl (fun t mp => tpush t (kf mp.1) mp.1) lt) rk rt,
          [],
          inbox.reverse.flatMap (fun mp =>
            ((tget rt (kf mp.1)).getD []).map (fun m => mp.1 ++ m))) := by
  simp only [DataOp.runModel, drainAll_reverse]
  rw [runJoin_port0_eq lk rk kf inbox.reverse lt rt
    (fun mp hm => hp mp (List.mem_reverse.mp hm))
    (fun mp hm => hk mp (List.mem_reverse.mp hm))]
  rfl

theorem runModel_join_port1_eq (lk rk : List Nat) (kf : Row → Row)
    (lt rt : List (Row × List Row)) (inbox : List (Row × Nat))
    (hp : ∀ mp ∈ inbox, (mp : Row × Nat).2 = 1)
    (hk : ∀ mp ∈ inbox, keyRow rk (mp : Row × Nat).1 = .ok (kf mp.1)) :
    DataOp.runModel (.join lk lt rk rt) inbox
      = .ok (.join lk lt rk
          (inbox.reverse.foldl (fun t mp => tpush t (kf mp.1) mp.1) rt),
          [],
          inbox.reverse.flatMap (fun mp =>
            ((tget lt (kf mp.1)).getD []).map (fun m => m ++ mp.1))) := by
  simp only [DataOp.runModel, drainAll_reverse]
  rw [runJoin_port1_eq lk rk kf inbox.reverse lt rt
    (fun mp hm => hp mp (List.mem_reverse.mp hm))
    (fun mp hm => hk mp (List.mem_reverse.mp hm))]
  rfl

theorem runDistinct_eq_qDistinct (msgs : List (Row × Nat)) :
    ∀ seen : List Row, runDistinct seen msgs = qDistinct seen (msgs.map Prod.fst) := by
  induction msgs with
  | nil => intro seen; rfl
  | cons mp rest ih =>
      intro seen
      obtain ⟨v, q⟩ := mp
      simp only [runDistinct, List.map_cons, qDistinct, ih]

theorem qDistinct_mem_nodup {T : Type} [DecidableEq T] (inbox : List T) :
    ∀ (tab : List T),
      (∀ x, x ∈ (qDistinct tab inbox).2 ↔ x ∈ inbox ∧ x ∉ tab)
        ∧ (qDistinct tab inbox).2.Nodup := by
  induction inbox with
  | nil =>
      intro tab
      constructor
      · intro x; simp [qDistinct]
      · simp [qDistinct]
  | cons v rest ih =>
      intro tab
      by_cases hv : v ∈ tab
      · have hstep : qDistinct tab (v :: rest) = qDistinct tab rest := by
          simp [qDistinct, hv]
        rw [hstep]
        obtain ⟨hmem, hnd⟩ := ih tab
        refine ⟨?_, hnd⟩
        intro x
        rw [hmem x]
        constructor
        · rintro ⟨hr, ht⟩
          exact ⟨List.mem_cons_of_mem _ hr, ht⟩
        · rintro ⟨hr, ht⟩
          rcases List.mem_cons.mp hr with he | hr'
          · exact absurd (he ▸ hv) ht
          · exact ⟨hr', ht⟩
      · have hstep : qDistinct tab (v :: rest)
            = ((qDistinct (v :: tab) rest).1, v :: (qDistinct (v :: tab) rest).2) := by
          simp [qDistinct, hv]
        rw [hstep]
        obtain ⟨hmem, hnd⟩ := ih (v :: tab)
        constructor
        · intro x
          simp only [List.mem_cons]
          rw [hmem x]
          constructor
          · rintro (he | ⟨hr, ht⟩)
            · exact ⟨Or.inl he, he ▸ hv⟩
            · refine ⟨Or.inr hr, fun hx => ht (List.mem_cons_of_mem _ hx)⟩
          · rintro ⟨he | hr, ht⟩
            · exact Or.inl he
            · by_cases hxv : x = v
              · exact Or.inl hxv
              · refine Or.inr ⟨hr, fun hx => ?_⟩
                rcases List.mem_cons.mp hx with he2 | hx'
                · exact hxv he2
                · exact ht hx'
        · refine List.nodup_cons.mpr ⟨?_, hnd⟩
          intro hvm
          exact ((hmem v).mp hvm).2 (by simp)

theorem runDistinct_emissions_mem (seen : List Row) (msgs : List (Row × Nat))
    (x : Row) :
    (x ∈ (runDistinct seen msgs).2 ↔ x ∈ msgs.map Prod.fst ∧ x ∉ seen)
      ∧ (runDistinct seen msgs).2.Nodup
      ∧ (x ∈ (runDistinct seen msgs).1 ↔ x ∈ seen ∨ x ∈ msgs.map Prod.fst) := by
  rw [runDistinct_eq_qDistinct]
  obtain ⟨hmem, hnd⟩ := qDistinct_mem_nodup (msgs.map Prod.fst) seen
  exact ⟨hmem x, hnd, (qDistinct_spec (msgs.map Prod.fst) seen x).2⟩

theorem tget_eq_alookup (t : List (Row × List Row)) (k : Row) :
    tget t k = alookup t k := by
  induction t with
  | nil => rfl
  | cons p rest ih =>
      obtain ⟨k', vs⟩ := p
      simp only [tget, alookup, ih]

theorem tpush_eq_alpush (t : List (Row × List Row)) (k v : Row) :
    tpush t k v = alpush t k v := by
  induction t with
  | nil => rfl
  | cons p rest ih =>
      obtain ⟨k', vs⟩ := p
      simp only [tpush, alpush, ih]

theorem alookup_foldl_alpush {K V M : Type} [DecidableEq K]
    (kf : M → K) (vf : M → V) (rows : List M) :
    ∀ (t : List (K × List V)) (k : K),
      ((alookup (rows.foldl (fun t m => alpush t (kf m) (vf m)) t) k).getD [])
        = (alookup t k).getD []
            ++ (rows.filter (fun m => decide (kf m = k))).map vf := by
  induction rows with
  | nil => intro t k; simp
  | cons m rest ih =>
      intro t k
      simp only [List.foldl_cons, ih, List.filter_cons]
      by_cases hv : kf m = k
      · rw [← hv]
        rw [show (alookup (alpush t (kf m) (vf m)) (kf m)).getD []
            = (alookup t (kf m)).getD [] ++ [vf m] by
          rw [alookup_alpush_self]; rfl]
        simp [hv, List.append_assoc]
      · rw [alookup_alpush_other t (vf m) (fun he => hv he.symm)]
        simp [hv]

theorem dispatch_one_target_ne {op t p : Nat} (sent : List Row)
    (df1 : DF) (ibt : List (Row × Nat))
    (hout : df1.outputs[op]? = some [(t, p)])
    (ht : t ≠ uMAX)
    (hibt : df1.inboxes[t]? = some ibt)
    (hne : sent ≠ []) :
    df1.dispatch op sent = .ok { df1 with
      inboxes := df1.inboxes.set t (ibt ++ sent.map (fun m => (m, p))),
      schedule := df1.schedule.insert t } := by
  rw [dispatch_one_target sent df1 ibt hout ht hibt, if_neg hne]

theorem dispatch_two_targets_ne {op t p q : Nat} (sent : List Row)
    (df1 : DF) (ibt : List (Row × Nat))
    (hout : df1.outputs[op]? = some [(t, p), (uMAX, q)])
    (ht : t ≠ uMAX)
    (hibt : df1.inboxes[t]? = some ibt)
    (hne : sent ≠ []) :
    df1.dispatch op sent = .ok { df1 with
      inboxes := df1.inboxes.set t (ibt ++ sent.map (fun m => (m, p))),
      schedule := df1.schedule.insert t,
      outbox := df1.outbox ++ sent } := by
  rw [dispatch_two_targets sent df1 ibt hout ht hibt, if_neg hne]

theorem mem_map_tag {l : List Row} {k : Nat} {mp : Row × Nat}
    (h : mp ∈ l.map (fun m => (m, k))) : mp.2 = k ∧ mp.1 ∈ l := by
  rcases List.mem_map.mp h with ⟨m, hm, he⟩
  rw [← he]
  exact ⟨rfl, hm⟩

theorem tag_reverse_fst (l : List Row) (k : Nat) :
    ((l.map (fun m => (m, k))).reverse).map Prod.fst = l.reverse := by
  rw [← List.map_reverse, List.map_map]
  have : (Prod.fst ∘ fun m => (m, k)) = (id : Row → Row) := rfl
  rw [this, List.map_id]

theorem flatMap_const_singleton {α β : Type} (l : List α) (f : α → β) :
    l.flatMap (fun x => [f x]) = l.map f := by
  induction l with
  | nil => rfl
  | cons a t ih =>
      simp only [List.flatMap_cons, List.map_cons, ih, List.singleton_append]

theorem flatMap_tget_nil {γ : Type} (kf : γ → Row) (g : γ → Row → Row)
    (msgs : List γ) :
    msgs.flatMap (fun mp => ((tget [] (kf mp)).getD []).map (g mp)) = [] := by
  induction msgs with
  | nil => rfl
  | cons a t ih =>
      simp only [List.flatMap_cons, ih, List.append_nil]
      rfl

/-! One lemma per live operator of the rendered graph, each advancing
`runFuel` by one `step` from a `C1State` to a `C1State`. -/

theorem c1_step_distinct0 (n : Nat)
    {a1 b1 a2 b2 a3 b3 a4 b4 a5 b5 a6 b6 a7 b7 a8 b8 : Int}
    {s0 s1 : List Row} {rt23 lt24 rt24 : List (Row × List Row)}
    {ib0 ib1 ib20 ib21 ib23 ib24 ib25 : List (Row × Nat)}
    {sch sch₂ : Sched} {ob : List Row}
    (hpop : sch.pop = some (0, sch₂))
    (hne : (runDistinct s0 ib0.reverse).2 ≠ []) :
    runFuel (n + 1) (C1State a1 b1 a2 b2 a3 b3 a4 b4 a5 b5 a6 b6 a7 b7 a8 b8
        s0 s1 rt23 lt24 rt24 ib0 ib1 ib20 ib21 ib23 ib24 ib25 sch ob)
      = runFuel n (C1State a1 b1 a2 b2 a3 b3 a4 b4 a5 b5 a6 b6 a7 b7 a8 b8
          (runDistinct s0 ib0.reverse).1 s1 rt23 lt24 rt24 [] ib1 ib20
          (ib21 ++ ((runDistinct s0 ib0.reverse).2).map (fun m => (m, 0)))
          ib23 ib24 ib25 (sch₂.insert 21) ob) := by
  refine runFuel_succ_of_step n (step_run_eq hpop rfl rfl
    (runModel_distinct_eq s0 ib0) ?_)
  apply Eq.trans (dispatch_one_target_ne _ _ _ ?hout ?ht ?hibt hne)
  case hout => rfl
  case ht => decide
  case hibt => rfl
  rfl

theorem c1_step_distinct1 (n : Nat)
    {a1 b1 a2 b2 a3 b3 a4 b4 a5 b5 a6 b6 a7 b7 a8 b8 : Int}
    {s0 s1 : List Row} {rt23 lt24 rt24 : List (Row × List Row)}
    {ib0 ib1 ib20 ib21 ib23 ib24 ib25 : List (Row × Nat)}
    {sch sch₂ : Sched} {ob : List Row}
    (hpop : sch.pop = some (1, sch₂))
    (hne : (runDistinct s1 ib1.reverse).2 ≠ []) :
    runFuel (n + 1) (C1State a1 b1 a2 b2 a3 b3 a4 b4 a5 b5 a6 b6 a7 b7 a8 b8
        s0 s1 rt23 lt24 rt24 ib0 ib1 ib20 ib21 ib23 ib24 ib25 sch ob)
      = runFuel n (C1State a1 b1 a2 b2 a3 b3 a4 b4 a5 b5 a6 b6 a7 b7 a8 b8
          s0 (runDistinct s1 ib1.reverse).1 rt23 lt24 rt24 ib0 []
          (ib20 ++ ((runDistinct s1 ib1.reverse).2).map (fun m => (m, 0)))
          ib21 ib23 ib24 ib25 (sch₂.insert 20)
          (ob ++ (runDistinct s1 ib1.reverse).2)) := by
  refine runFuel_succ_of_step n (step_run_eq hpop rfl rfl
    (runModel_distinct_eq s1 ib1) ?_)
  apply Eq.trans (dispatch_two_targets_ne _ _ _ ?hout ?ht ?hibt hne)
  case hout => rfl
  case ht => decide
  case hibt => rfl
  rfl

theorem c1_step_select20 (n : Nat)
    {a1 b1 a2 b2 a3 b3 a4 b4 a5 b5 a6 b6 a7 b7 a8 b8 : Int}
    {s0 s1 : List Row} {rt23 lt24 rt24 : List (Row × List Row)}
    {ib0 ib1 ib20 ib21 ib23 ib24 ib25 : List (Row × Nat)}
    {sch sch₂ : Sched} {ob : List Row}
    (hpop : sch.pop = some (20, sch₂))
    (hne : ib20 ≠ []) :
    runFuel (n + 1) (C1State a1 b1 a2 b2 a3 b3 a4 b4 a5 b5 a6 b6 a7 b7 a8 b8
        s0 s1 rt23 lt24 rt24 ib0 ib1 ib20 ib21 ib23 ib24 ib25 sch ob)
      = runFuel n (C1State a1 b1 a2 b2 a3 b3 a4 b4 a5 b5 a6 b6 a7 b7 a8 b8
          s0 s1 rt23 lt24 rt24 ib0 ib1 [] ib21
          (ib23 ++ (ib20.reverse.map Prod.fst).map (fun m => (m, 1)))
          ib24 ib25 (sch₂.insert 23) ob) := by
  have hne' : ib20.reverse.map Prod.fst ≠ [] := by simpa using hne
  refine runFuel_succ_of_step n (step_run_eq hpop rfl rfl
    (runModel_select_nil_eq ib20) ?_)
  apply Eq.trans (dispatch_one_target_ne _ _ _ ?hout ?ht ?hibt hne')
  case hout => rfl
  case ht => decide
  case hibt => rfl
  rfl

theorem c1_step_select21 (n : Nat)
    {a1 b1 a2 b2 a3 b3 a4 b4 a5 b5 a6 b6 a7 b7 a8 b8 : Int}
    {s0 s1 : List Row} {rt23 lt24 rt24 : List (Row × List Row)}
    {ib0 ib1 ib20 ib21 ib23 ib24 ib25 : List (Row × Nat)}
    {sch sch₂ : Sched} {ob : List Row}
    (hpop : sch.pop = some (21, sch₂))
    (hne : ib21 ≠ []) :
    runFuel (n + 1) (C1State a1 b1 a2 b2 a3 b3 a4 b4 a5 b5 a6 b6 a7 b7 a8 b8
        s0 s1 rt23 lt24 rt24 ib0 ib1 ib20 ib21 ib23 ib24 ib25 sch ob)
      = runFuel n (C1State a1 b1 a2 b2 a3 b3 a4 b4 a5 b5 a6 b6 a7 b7 a8 b8
          s0 s1 rt23 lt24 rt24 ib0 ib1 ib20 []
          ib23 (ib24 ++ (ib21.reverse.map Prod.fst).map (fun m => (m, 1)))
          ib25 (sch₂.insert 24) ob) := by
  have hne' : ib21.reverse.map Prod.fst ≠ [] := by simpa using hne
  refine runFuel_succ_of_step n (step_run_eq hpop rfl rfl
    (runModel_select_nil_eq ib21) ?_)
  apply Eq.trans (dispatch_one_target_ne _ _ _ ?hout ?ht ?hibt hne')
  case hout => rfl
  case ht => decide
  case hibt => rfl
  rfl

theorem c1_step_join23 (n : Nat)
    {a1 b1 a2 b2 a3 b3 a4 b4 a5 b5 a6 b6 a7 b7 a8 b8 : Int}
    {s0 s1 : List Row} {rt23 lt24 rt24 : List (Row × List Row)}
    {ib0 ib1 ib20 ib21 ib23 ib24 ib25 : List (Row × Nat)}
    {sch sch₂ : Sched} {ob : List Row}
    (hpop : sch.pop = some (23, sch₂))
    (hports : ∀ mp ∈ ib23, (mp : Row × Nat).2 = 1)
    (hne : ib23 ≠ []) :
    runFuel (n + 1) (C1State a1 b1 a2 b2 a3 b3 a4 b4 a5 b5 a6 b6 a7 b7 a8 b8
        s0 s1 rt23 lt24 rt24 ib0 ib1 ib20 ib21 ib23 ib24 ib25 sch ob)
      = runFuel n (C1State a1 b1 a2 b2 a3 b3 a4 b4 a5 b5 a6 b6 a7 b7 a8 b8
          s0 s1 (ib23.reverse.foldl (fun t mp => tpush t [] mp.1) rt23)
          lt24 rt24 ib0 ib1 ib20 ib21 []
          (ib24 ++ (ib23.reverse.map Prod.fst).map (fun m => (m, 0)))
          ib25 (sch₂.insert 24) ob) := by
  have hm : ib23.reverse.flatMap (fun mp =>
        ((tget [([], [[]])] ([] : Row)).getD []).map
          (fun m => m ++ (mp : Row × Nat).1))
      = ib23.reverse.map Prod.fst := flatMap_const_singleton _ _
  have hrm := runModel_join_port1_eq [] [] (fun _ => ([] : Row)) [([], [[]])]
    rt23 ib23 hports (fun mp _ => rfl)
  rw [hm] at hrm
  have hne' : ib23.reverse.map Prod.fst ≠ [] := by simpa using hne
  refine runFuel_succ_of_step n (step_run_eq hpop rfl rfl hrm ?_)
  apply Eq.trans (dispatch_one_target_ne _ _ _ ?hout ?ht ?hibt hne')
  case hout => rfl
  case ht => decide
  case hibt => rfl
  rfl

theorem c1_step_join24_right (n : Nat)
    {a1 b1 a2 b2 a3 b3 a4 b4 a5 b5 a6 b6 a7 b7 a8 b8 : Int}
    {s0 s1 : List Row} {rt23 rt24 : List (Row × List Row)}
    {ib0 ib1 ib20 ib21 ib23 ib24 ib25 : List (Row × Nat)}
    {sch sch₂ : Sched} {ob : List Row}
    (hpop : sch.pop = some (24, sch₂))
    (hports : ∀ mp ∈ ib24, (mp : Row × Nat).2 = 1)
    (hkeys : ∀ mp ∈ ib24, ∃ h t, (mp : Row × Nat).1 = h :: t) :
    runFuel (n + 1) (C1State a1 b1 a2 b2 a3 b3 a4 b4 a5 b5 a6 b6 a7 b7 a8 b8
        s0 s1 rt23 [] rt24 ib0 ib1 ib20 ib21 ib23 ib24 ib25 sch ob)
      = runFuel n (C1State a1 b1 a2 b2 a3 b3 a4 b4 a5 b5 a6 b6 a7 b7 a8 b8
          s0 s1 rt23 []
          (ib24.reverse.foldl (fun t mp =>
            tpush t [(mp : Row × Nat).1.getD 0 (Datum.int 0)] mp.1) rt24)
          ib0 ib1 ib20 ib21 ib23 [] ib25 sch₂ ob) := by
  have hrm := runModel_join_port1_eq [0] [0]
    (fun r => [r.getD 0 (Datum.int 0)]) [] rt24 ib24 hports
    (fun mp hm => by
      obtain ⟨h, t, he⟩ := hkeys mp hm
      rw [he]
      simp only [keyRow, rowGet, List.getElem?_cons_zero, List.getD_cons_zero]
      rfl)
  have hm0 : ib24.reverse.flatMap (fun mp =>
        ((tget [] [(mp : Row × Nat).1.getD 0 (Datum.int 0)]).getD []).map
          (fun m => m ++ mp.1))
      = [] := flatMap_tget_nil _ _ _
  rw [hm0] at hrm
  refine runFuel_succ_of_step n (step_run_eq hpop rfl rfl hrm ?_)
  apply Eq.trans (dispatch_nil _ _)
  rfl

theorem c1_step_join24_left (n : Nat)
    {a1 b1 a2 b2 a3 b3 a4 b4 a5 b5 a6 b6 a7 b7 a8 b8 : Int}
    {s0 s1 : List Row} {rt23 lt24 rt24 : List (Row × List Row)}
    {ib0 ib1 ib20 ib21 ib23 ib24 ib25 : List (Row × Nat)}
    {sch sch₂ : Sched} {ob : List Row}
    (hpop : sch.pop = some (24, sch₂))
    (hports : ∀ mp ∈ ib24, (mp : Row × Nat).2 = 0)
    (hkeys : ∀ mp ∈ ib24, ∃ h t, (mp : Row × Nat).1 = h :: t)
    (hne : ib24.reverse.flatMap (fun mp =>
        ((tget rt24 [(mp : Row × Nat).1.getD 0 (Datum.int 0)]).getD []).map
          (fun m => mp.1 ++ m)) ≠ []) :
    runFuel (n + 1) (C1State a1 b1 a2 b2 a3 b3 a4 b4 a5 b5 a6 b6 a7 b7 a8 b8
        s0 s1 rt23 lt24 rt24 ib0 ib1 ib20 ib21 ib23 ib24 ib25 sch ob)
      = runFuel n (C1State a1 b1 a2 b2 a3 b3 a4 b4 a5 b5 a6 b6 a7 b7 a8 b8
          s0 s1 rt23
          (ib24.reverse.foldl (fun t mp =>
            tpush t [(mp : Row × Nat).1.getD 0 (Datum.int 0)] mp.1) lt24)
          rt24 ib0 ib1 ib20 ib21 ib23 []
          (ib25 ++ (ib24.reverse.flatMap (fun mp =>
            ((tget rt24 [(mp : Row × Nat).1.getD 0 (Datum.int 0)]).getD []).map
              (fun m => mp.1 ++ m))).map (fun m => (m, 0)))
          (sch₂.insert 25) ob) := by
  have hrm := runModel_join_port0_eq [0] [0]
    (fun r => [r.getD 0 (Datum.int 0)]) lt24 rt24 ib24 hports
    (fun mp hm => by
      obtain ⟨h, t, he⟩ := hkeys mp hm
      rw [he]
      simp only [keyRow, rowGet, List.getElem?_cons_zero, List.getD_cons_zero]
      rfl)
  refine runFuel_succ_of_step n (step_run_eq hpop rfl rfl hrm ?_)
  apply Eq.trans (dispatch_one_target_ne _ _ _ ?hout ?ht ?hibt hne)
  case hout => rfl
  case ht => decide
  case hibt => rfl
  rfl

theorem c1_step_join24_left_nil (n : Nat)
    {a1 b1 a2 b2 a3 b3 a4 b4 a5 b5 a6 b6 a7 b7 a8 b8 : Int}
    {s0 s1 : List Row} {rt23 lt24 rt24 : List (Row × List Row)}
    {ib0 ib1 ib20 ib21 ib23 ib24 ib25 : List (Row × Nat)}
    {sch sch₂ : Sched} {ob : List Row}
    (hpop : sch.pop = some (24, sch₂))
    (hports : ∀ mp ∈ ib24, (mp : Row × Nat).2 = 0)
    (hkeys : ∀ mp ∈ ib24, ∃ h t, (mp : Row × Nat).1 = h :: t)
    (hnil : ib24.reverse.flatMap (fun mp =>
        ((tget rt24 [(mp : Row × Nat).1.getD 0 (Datum.int 0)]).getD []).map
          (fun m => mp.1 ++ m)) = []) :
    runFuel (n + 1) (C1State a1 b1 a2 b2 a3 b3 a4 b4 a5 b5 a6 b6 a7 b7 a8 b8
        s0 s1 rt23 lt24 rt24 ib0 ib1 ib20 ib21 ib23 ib24 ib25 sch ob)
      = runFuel n (C1State a1 b1 a2 b2 a3 b3 a4 b4 a5 b5 a6 b6 a7 b7 a8 b8
          s0 s1 rt23
          (ib24.reverse.foldl (fun t mp =>
            tpush t [(mp : Row × Nat).1.getD 0 (Datum.int 0)] mp.1) lt24)
          rt24 ib0 ib1 ib20 ib21 ib23 [] ib25 sch₂ ob) := by
  have hrm := runModel_join_port0_eq [0] [0]
    (fun r => [r.getD 0 (Datum.int 0)]) lt24 rt24 ib24 hports
    (fun mp hm => by
      obtain ⟨h, t, he⟩ := hkeys mp hm
      rw [he]
      simp only [keyRow, rowGet, List.getElem?_cons_zero, List.getD_cons_zero]
      rfl)
  rw [hnil] at hrm
  refine runFuel_succ_of_step n (step_run_eq hpop rfl rfl hrm ?_)
  apply Eq.trans (dispatch_nil _ _)
  rfl

theorem c1_step_project25 (n : Nat) (g : Row → Row)
    {a1 b1 a2 b2 a3 b3 a4 b4 a5 b5 a6 b6 a7 b7 a8 b8 : Int}
    {s0 s1 : List Row} {rt23 lt24 rt24 : List (Row × List Row)}
    {ib0 ib1 ib20 ib21 ib23 ib24 ib25 : List (Row × Nat)}
    {sch sch₂ : Sched} {ob : List Row}
    (hpop : sch.pop = some (25, sch₂))
    (hg : ∀ mp ∈ ib25, projRow [ColExpr.var 2] (mp : Row × Nat).1 = .ok (g mp.1))
    (hne : ib25 ≠ []) :
    runFuel (n + 1) (C1State a1 b1 a2 b2 a3 b3 a4 b4 a5 b5 a6 b6 a7 b7 a8 b8
        s0 s1 rt23 lt24 rt24 ib0 ib1 ib20 ib21 ib23 ib24 ib25 sch ob)
      = runFuel n (C1State a1 b1 a2 b2 a3 b3 a4 b4 a5 b5 a6 b6 a7 b7 a8 b8
          s0 s1 rt23 lt24 rt24 ib0
          (ib1 ++ (ib25.reverse.map (fun mp => g (mp : Row × Nat).1)).map
            (fun m => (m, 0)))
          ib20 ib21 ib23 ib24 [] (sch₂.insert 1) ob) := by
  have hne' : ib25.reverse.map (fun mp => g (mp : Row × Nat).1) ≠ [] := by
    simpa using hne
  refine runFuel_succ_of_step n (step_run_eq hpop rfl rfl
    (runModel_project_eq [ColExpr.var 2] g ib25 hg) ?_)
  apply Eq.trans (dispatch_one_target_ne _ _ _ ?hout ?ht ?hibt hne')
  case hout => rfl
  case ht => decide
  case hibt => rfl
  rfl

theorem cons_shape_of_ne_nil {r : Row} (h : r ≠ []) : ∃ x t, r = x :: t := by
  rcases r with _ | ⟨x, t⟩
  · exact absurd rfl h
  · exact ⟨x, t, rfl⟩

theorem eq_singleton_of_mem_nodup {α : Type} {l : List α} {a : α}
    (hnd : l.Nodup) (h : a ∈ l) (huniq : ∀ b ∈ l, b = a) : l = [a] := by
  rcases l with _ | ⟨x, t⟩
  · cases h
  · have hx : x = a := huniq x (by simp)
    subst hx
    rcases t with _ | ⟨y, u⟩
    · rfl
    · have hy : y = x := huniq y (by simp)
      subst hy
      simp at hnd

theorem projRow_var2 (x u v : Datum) :
    projRow [ColExpr.var 2] [x, u, v] = .ok [List.getD [x, u, v] 2 (Datum.int 0)] := by
  simp only [projRow, projCol, rowGet]
  rfl

/-- The third visit to the `reachable` distinct operator: its queue holds
rows from `{[3],[4],[5]}` including `[5]`, and its seen-set is exactly
`{[1],[2],[3],[4]}`, so it emits exactly `[[5]]`. -/
theorem c1_step_distinct1_sing (n : Nat)
    {a1 b1 a2 b2 a3 b3 a4 b4 a5 b5 a6 b6 a7 b7 a8 b8 : Int}
    {s0 s1 : List Row} {rt23 lt24 rt24 : List (Row × List Row)}
    {ib0 ib1 ib20 ib21 ib23 ib24 ib25 : List (Row × Nat)}
    {sch sch₂ : Sched} {ob : List Row}
    (hpop : sch.pop = some (1, sch₂))
    (hub : ∀ mp ∈ ib1, (mp : Row × Nat).1 ∈
      ([[Datum.int 3], [Datum.int 4], [Datum.int 5]] : List Row))
    (hmem5 : [Datum.int 5] ∈ ib1.map Prod.fst)
    (hs1 : ∀ x : Row, x ∈ s1 ↔ x ∈
      ([[Datum.int 1], [Datum.int 2], [Datum.int 3], [Datum.int 4]] : List Row)) :
    runFuel (n + 1) (C1State a1 b1 a2 b2 a3 b3 a4 b4 a5 b5 a6 b6 a7 b7 a8 b8
        s0 s1 rt23 lt24 rt24 ib0 ib1 ib20 ib21 ib23 ib24 ib25 sch ob)
      = runFuel n (C1State a1 b1 a2 b2 a3 b3 a4 b4 a5 b5 a6 b6 a7 b7 a8 b8
          s0 (runDistinct s1 ib1.reverse).1 rt23 lt24 rt24 ib0 []
          (ib20 ++ [([Datum.int 5], 0)])
          ib21 ib23 ib24 ib25 (sch₂.insert 20)
          (ob ++ [[Datum.int 5]])) := by
  have he3 : (runDistinct s1 ib1.reverse).2 = [[Datum.int 5]] := by
    apply eq_singleton_of_mem_nodup
    · exact (runDistinct_emissions_mem s1 ib1.reverse [Datum.int 5]).2.1
    · refine ((runDistinct_emissions_mem s1 ib1.reverse [Datum.int 5]).1).mpr
        ⟨?_, ?_⟩
      · rw [List.map_reverse, List.mem_reverse]
        exact hmem5
      · intro hc
        have h1 := (hs1 _).mp hc
        revert h1
        decide
    · intro b hb
      obtain ⟨hb1, hb2⟩ :=
        ((runDistinct_emissions_mem s1 ib1.reverse b).1).mp hb
      rw [List.map_reverse, List.mem_reverse] at hb1
      obtain ⟨mp, hmp, hfst⟩ := List.mem_map.mp hb1
      have h3 := hub mp hmp
      rw [hfst] at h3
      simp only [List.mem_cons, List.not_mem_nil, or_false] at h3
      rcases h3 with h | h | h
      · exact absurd ((hs1 b).mpr (by rw [h]; decide)) hb2
      · exact absurd ((hs1 b).mpr (by rw [h]; decide)) hb2
      · exact h
  have hne : (runDistinct s1 ib1.reverse).2 ≠ [] := by
    rw [he3]
    simp
  refine (c1_step_distinct1 n hpop hne).trans ?_
  rw [he3]
  rfl

/-- The second half of the run of `main`'s rendered dataflow: from the state
just after the `reachable` distinct operator has emitted the first derived
generation `e2 = {[2],[3],[4]}`, the loop `20, 23, 24, 25, 1, 20, 23, 24`
drains to quiescence with exactly `[5]` appended to the outbox. -/
theorem c1_run_from_B (e0 : List Row)
    {a1 b1 a2 b2 a3 b3 a4 b4 a5 b5 a6 b6 a7 b7 a8 b8 : Int}
    {s0 s1 : List Row} {rt23 lt24 rt24 : List (Row × List Row)}
    {e2 ob0 : List Row}
    (hE0 : ∀ x : Row, x ∈ e0 ↔ x ∈
      ([[Datum.int 1, Datum.int 2], [Datum.int 2, Datum.int 3],
        [Datum.int 1, Datum.int 3], [Datum.int 1, Datum.int 4],
        [Datum.int 1, Datum.int 2], [Datum.int 2, Datum.int 4],
        [Datum.int 4, Datum.int 5], [Datum.int 6, Datum.int 7]] : List Row))
    (hrt : ∀ k : Row, (tget rt24 k).getD []
        = e0.filter (fun r => decide ([r.getD 0 (Datum.int 0)] = k)))
    (he2 : ∀ x : Row, x ∈ e2 ↔ x ∈
      ([[Datum.int 2], [Datum.int 3], [Datum.int 4]] : List Row))
    (hs1 : ∀ x : Row, x ∈ s1 ↔ x ∈
      ([[Datum.int 1], [Datum.int 2], [Datum.int 3], [Datum.int 4]] : List Row)) :
    runFuel 65 (C1State a1 b1 a2 b2 a3 b3 a4 b4 a5 b5 a6 b6 a7 b7 a8 b8
        s0 s1 rt23 lt24 rt24 [] [] (e2.map (fun m => (m, 0))) [] [] [] []
        ⟨[20], [20]⟩ ob0)
      = .ok (ob0 ++ [[Datum.int 5]]) := by
  have h2e2 : ([Datum.int 2] : Row) ∈ e2 := (he2 _).mpr (by decide)
  have h4e2 : ([Datum.int 4] : Row) ∈ e2 := (he2 _).mpr (by decide)
  have he2ne : e2 ≠ [] := List.ne_nil_of_mem h2e2
  -- P9: select 20
  apply Eq.trans (c1_step_select20 64 ?hpop9 (by simpa using he2ne))
  case hpop9 => rfl
  simp only [List.nil_append]
  rw [tag_reverse_fst]
  -- P10: join 23 (port 1, key [])
  apply Eq.trans (c1_step_join23 63 ?hpop10
    (fun mp hm => (mem_map_tag hm).1) (by simpa using he2ne))
  case hpop10 => rfl
  simp only [List.nil_append]
  rw [tag_reverse_fst, List.reverse_reverse]
  -- P11: join 24 (port 0, probe the edge index)
  have hw11 : [Datum.int 4, Datum.int 4, Datum.int 5] ∈
      (e2.map (fun m => (m, 0))).reverse.flatMap (fun mp =>
        ((tget rt24 [(mp : Row × Nat).1.getD 0 (Datum.int 0)]).getD []).map
          (fun m => mp.1 ++ m)) := by
    refine List.mem_flatMap.mpr ⟨([Datum.int 4], 0), ?_, ?_⟩
    · rw [List.mem_reverse]
      exact List.mem_map.mpr ⟨[Datum.int 4], h4e2, rfl⟩
    · rw [hrt]
      refine List.mem_map.mpr ⟨[Datum.int 4, Datum.int 5], ?_, ?_⟩
      · exact List.mem_filter.mpr ⟨(hE0 _).mpr (by decide), by decide⟩
      · rfl
  apply Eq.trans (c1_step_join24_left 62 ?hpop11
    (fun mp hm => (mem_map_tag hm).1)
    (fun mp hm => by
      have h2 := (he2 mp.1).mp (mem_map_tag hm).2
      simp only [List.mem_cons, List.not_mem_nil, or_false] at h2
      rcases h2 with h2 | h2 | h2 <;> exact ⟨_, _, h2⟩)
    (List.ne_nil_of_mem hw11))
  case hpop11 => rfl
  simp only [List.nil_append, hrt]
  -- P12: project 25 (keep the third column)
  have hw11f : [Datum.int 4, Datum.int 4, Datum.int 5] ∈
      (e2.map (fun m => (m, 0))).reverse.flatMap (fun mp =>
        (e0.filter (fun r => decide ([r.getD 0 (Datum.int 0)]
          = [(mp : Row × Nat).1.getD 0 (Datum.int 0)]))).map
          (fun m => mp.1 ++ m)) := by
    have h := hw11
    simp only [hrt] at h
    exact h
  apply Eq.trans (c1_step_project25 61 (fun r => [r.getD 2 (Datum.int 0)])
    ?hpop12 ?hg12 ?hne12)
  case hpop12 => rfl
  case hne12 => exact List.ne_nil_of_mem (List.mem_map.mpr ⟨_, hw11f, rfl⟩)
  case hg12 =>
    intro mp hm
    have h1 := (mem_map_tag hm).2
    obtain ⟨mq, hmq, hmem⟩ := List.mem_flatMap.mp h1
    obtain ⟨m, hmfil, hf⟩ := List.mem_map.mp hmem
    obtain ⟨hm0, hpred⟩ := List.mem_filter.mp hmfil
    have hq := (he2 mq.1).mp (mem_map_tag (List.mem_reverse.mp hmq)).2
    have hmc := (hE0 m).mp hm0
    simp only [List.mem_cons, List.not_mem_nil, or_false] at hq hmc
    obtain ⟨x, hx⟩ : ∃ x, mq.1 = [x] := by
      rcases hq with h | h | h <;> exact ⟨_, h⟩
    obtain ⟨u, v, huv⟩ : ∃ u v, m = [u, v] := by
      rcases hmc with h | h | h | h | h | h | h | h <;> exact ⟨_, _, h⟩
    rw [← hf, hx, huv]
    simp only [List.cons_append, List.nil_append]
    exact projRow_var2 x u v
  -- P13: distinct 1 (third visit, emits exactly [5])
  apply Eq.trans (c1_step_distinct1_sing 60 ?hpop13 ?hub13 ?hmem13 hs1)
  case hpop13 => rfl
  case hmem13 =>
    refine List.mem_map.mpr ⟨([Datum.int 5], 0), List.mem_append.mpr
      (Or.inr (List.mem_map.mpr ⟨[Datum.int 5], ?_, rfl⟩)), rfl⟩
    refine List.mem_map.mpr ⟨([Datum.int 4, Datum.int 4, Datum.int 5], 0),
      List.mem_reverse.mpr (List.mem_map.mpr ⟨_, hw11f, rfl⟩), by decide⟩
  case hub13 =>
    intro mp hm
    rw [List.nil_append] at hm
    have h1 := (mem_map_tag hm).2
    obtain ⟨mq, hmq, hfst⟩ := List.mem_map.mp h1
    have h2 := (mem_map_tag (List.mem_reverse.mp hmq)).2
    obtain ⟨mr, hmr, hmem2⟩ := List.mem_flatMap.mp h2
    obtain ⟨m, hmfil, hf2⟩ := List.mem_map.mp hmem2
    obtain ⟨hm0, hpred⟩ := List.mem_filter.mp hmfil
    have hqr := (he2 mr.1).mp (mem_map_tag (List.mem_reverse.mp hmr)).2
    have hmc := (hE0 m).mp hm0
    simp only [List.mem_cons, List.not_mem_nil, or_false] at hqr hmc
    rw [← hfst, ← hf2]
    rcases hqr with h | h | h <;> rw [h] at hpred ⊢ <;>
      (rcases hmc with h2 | h2 | h2 | h2 | h2 | h2 | h2 | h2 <;>
        rw [h2] at hpred ⊢ <;> revert hpred <;> decide)
  -- P14: select 20 forwards [5]
  apply Eq.trans (c1_step_select20 59 ?hpop14 (by decide))
  case hpop14 => rfl
  -- P15: join 23 forwards [5] with the trivial key
  apply Eq.trans (c1_step_join23 58 ?hpop15 (by decide) (by decide))
  case hpop15 => rfl
  -- P16: join 24 probes [5]; no edge starts at 5, nothing is emitted
  have hfilter5 : e0.filter (fun r =>
      decide ([r.getD 0 (Datum.int 0)] = [Datum.int 5])) = [] := by
    rw [List.filter_eq_nil_iff]
    intro a ha
    have h8 := (hE0 a).mp ha
    simp only [List.mem_cons, List.not_mem_nil, or_false] at h8
    rcases h8 with h | h | h | h | h | h | h | h <;> subst h <;> decide
  apply Eq.trans (c1_step_join24_left_nil 57 ?hpop16 (by decide) ?hkeys16
    ?hnil16)
  case hpop16 => rfl
  case hkeys16 =>
    intro mp hm
    refine cons_shape_of_ne_nil ?_
    revert hm
    revert mp
    decide
  case hnil16 =>
    simp only [hrt, List.reverse_cons, List.reverse_nil, List.nil_append,
      List.map_cons, List.map_nil, List.flatMap_cons, List.flatMap_nil,
      List.getD_cons_zero, List.append_nil, hfilter5]
  exact runFuel_quiescent 56 rfl


theorem tag_map_fst (l : List Row) (k : Nat) :
    (l.map (fun m => (m, k))).map Prod.fst = l := by
  rw [List.map_map]
  have h : (Prod.fst ∘ fun m : Row => (m, k)) = id := rfl
  rw [h, List.map_id]

/-- The first derived generation of `reachable` rows: joining `[1]` against
the edge index keyed on the first column and projecting the third column
yields exactly the successors of `1`, namely `{[2],[3],[4]}`. -/
theorem c1_first_gen (e0 : List Row)
    (hE0 : ∀ x : Row, x ∈ e0 ↔ x ∈
      ([[Datum.int 1, Datum.int 2], [Datum.int 2, Datum.int 3],
        [Datum.int 1, Datum.int 3], [Datum.int 1, Datum.int 4],
        [Datum.int 1, Datum.int 2], [Datum.int 2, Datum.int 4],
        [Datum.int 4, Datum.int 5], [Datum.int 6, Datum.int 7]] : List Row)) :
    ∀ x : Row,
      x ∈ (((((e0.filter (fun r => decide ([List.getD r 0 (Datum.int 0)] = [Datum.int 1]))).map (fun m => [Datum.int 1] ++ m)).map (fun m => (m, (0 : Nat)))).reverse).map (fun mp => [List.getD (mp : Row × Nat).1 2 (Datum.int 0)]))
        ↔ x ∈ ([[Datum.int 2], [Datum.int 3], [Datum.int 4]] : List Row) := by
  intro x
  constructor
  · intro hx
    obtain ⟨mp, hmp, hg⟩ := List.mem_map.mp hx
    have h2 := (mem_map_tag (List.mem_reverse.mp hmp)).2
    obtain ⟨m, hmf, hm1⟩ := List.mem_map.mp h2
    obtain ⟨hm0, hpred⟩ := List.mem_filter.mp hmf
    have hmc := (hE0 m).mp hm0
    simp only [List.mem_cons, List.not_mem_nil, or_false] at hmc
    rw [← hg, ← hm1]
    rcases hmc with h | h | h | h | h | h | h | h <;> rw [h] at hpred ⊢ <;>
      revert hpred <;> decide
  · intro hx
    simp only [List.mem_cons, List.not_mem_nil, or_false] at hx
    rcases hx with h | h | h <;> subst h
    · refine List.mem_map.mpr ⟨([Datum.int 1, Datum.int 1, Datum.int 2], 0),
        List.mem_reverse.mpr (List.mem_map.mpr
          ⟨[Datum.int 1, Datum.int 1, Datum.int 2], List.mem_map.mpr
            ⟨[Datum.int 1, Datum.int 2], List.mem_filter.mpr
              ⟨(hE0 _).mpr (by decide), by decide⟩, by decide⟩, rfl⟩),
        by decide⟩
    · refine List.mem_map.mpr ⟨([Datum.int 1, Datum.int 1, Datum.int 3], 0),
        List.mem_reverse.mpr (List.mem_map.mpr
          ⟨[Datum.int 1, Datum.int 1, Datum.int 3], List.mem_map.mpr
            ⟨[Datum.int 1, Datum.int 3], List.mem_filter.mpr
              ⟨(hE0 _).mpr (by decide), by decide⟩, by decide⟩, rfl⟩),
        by decide⟩
    · refine List.mem_map.mpr ⟨([Datum.int 1, Datum.int 1, Datum.int 4], 0),
        List.mem_reverse.mpr (List.mem_map.mpr
          ⟨[Datum.int 1, Datum.int 1, Datum.int 4], List.mem_map.mpr
            ⟨[Datum.int 1, Datum.int 4], List.mem_filter.mpr
              ⟨(hE0 _).mpr (by decide), by decide⟩, by decide⟩, rfl⟩),
        by decide⟩

/-- The second visit to the `reachable` distinct operator: the queued first
generation against seen-set `{[1]}` emits exactly the set `{[2],[3],[4]}`
(in some order, without duplicates), and leaves the seen-set at
`{[1],[2],[3],[4]}`. -/
theorem c1_second_gen (e0 : List Row)
    (hE0 : ∀ x : Row, x ∈ e0 ↔ x ∈
      ([[Datum.int 1, Datum.int 2], [Datum.int 2, Datum.int 3],
        [Datum.int 1, Datum.int 3], [Datum.int 1, Datum.int 4],
        [Datum.int 1, Datum.int 2], [Datum.int 2, Datum.int 4],
        [Datum.int 4, Datum.int 5], [Datum.int 6, Datum.int 7]] : List Row)) :
    ∀ x : Row,
      (x ∈ (runDistinct [[Datum.int 1]] (((((((e0.filter (fun r => decide ([List.getD r 0 (Datum.int 0)] = [Datum.int 1]))).map (fun m => [Datum.int 1] ++ m)).map (fun m => (m, (0 : Nat)))).reverse).map (fun mp => [List.getD (mp : Row × Nat).1 2 (Datum.int 0)])).map (fun m => (m, (0 : Nat)))).reverse)).2
          ↔ x ∈ ([[Datum.int 2], [Datum.int 3], [Datum.int 4]] : List Row))
        ∧ (x ∈ (runDistinct [[Datum.int 1]] (((((((e0.filter (fun r => decide ([List.getD r 0 (Datum.int 0)] = [Datum.int 1]))).map (fun m => [Datum.int 1] ++ m)).map (fun m => (m, (0 : Nat)))).reverse).map (fun mp => [List.getD (mp : Row × Nat).1 2 (Datum.int 0)])).map (fun m => (m, (0 : Nat)))).reverse)).1
          ↔ x ∈ ([[Datum.int 1], [Datum.int 2], [Datum.int 3],
              [Datum.int 4]] : List Row)) := by
  intro x
  constructor
  · rw [(runDistinct_emissions_mem _ _ x).1]
    constructor
    · rintro ⟨hx, -⟩
      rw [List.map_reverse, List.mem_reverse, tag_map_fst] at hx
      exact (c1_first_gen e0 hE0 x).mp hx
    · intro hx
      refine ⟨?_, ?_⟩
      · rw [List.map_reverse, List.mem_reverse, tag_map_fst]
        exact (c1_first_gen e0 hE0 x).mpr hx
      · simp only [List.mem_cons, List.not_mem_nil, or_false] at hx
        rcases hx with h | h | h <;> subst h <;> decide
  · rw [(runDistinct_emissions_mem _ _ x).2.2]
    constructor
    · rintro (h1 | h2)
      · have h := List.mem_singleton.mp h1
        subst h
        decide
      · rw [List.map_reverse, List.mem_reverse, tag_map_fst] at h2
        have h3 := (c1_first_gen e0 hE0 x).mp h2
        simp only [List.mem_cons, List.not_mem_nil, or_false] at h3
        rcases h3 with h | h | h <;> subst h <;> decide
    · intro hx
      simp only [List.mem_cons, List.not_mem_nil, or_false] at hx
      rcases hx with h | h | h | h <;> subst h
      · exact Or.inl (by decide)
      · refine Or.inr ?_
        rw [List.map_reverse, List.mem_reverse, tag_map_fst]
        exact (c1_first_gen e0 hE0 _).mpr (by decide)
      · refine Or.inr ?_
        rw [List.map_reverse, List.mem_reverse, tag_map_fst]
        exact (c1_first_gen e0 hE0 _).mpr (by decide)
      · refine Or.inr ?_
        rw [List.map_reverse, List.mem_reverse, tag_map_fst]
        exact (c1_first_gen e0 hE0 _).mpr (by decide)

/-- The full run of `main`'s rendered dataflow from the state just after the
edge distinct operator has fired: the outbox collects a permutation of
`{[1],[2],[3],[4],[5]}`. -/
theorem c1_run_from_A (a1 b1 a2 b2 a3 b3 a4 b4 a5 b5 a6 b6 a7 b7 a8 b8 : Int)
    (s0 e0 : List Row)
    (hE0 : ∀ x : Row, x ∈ e0 ↔ x ∈
      ([[Datum.int 1, Datum.int 2], [Datum.int 2, Datum.int 3],
        [Datum.int 1, Datum.int 3], [Datum.int 1, Datum.int 4],
        [Datum.int 1, Datum.int 2], [Datum.int 2, Datum.int 4],
        [Datum.int 4, Datum.int 5], [Datum.int 6, Datum.int 7]] : List Row)) :
    ∃ ob : List Row,
      runFuel 73 (C1State a1 b1 a2 b2 a3 b3 a4 b4 a5 b5 a6 b6 a7 b7 a8 b8
          s0 [] [] [] [] [] [([Datum.int 1], 0)] [] (e0.map (fun m => (m, 0)))
          [] [] [] ⟨[1, 21], [21, 1]⟩ [])
        = .ok ob ∧
        ob.Perm [[Datum.int 1], [Datum.int 2], [Datum.int 3], [Datum.int 4],
          [Datum.int 5]] := by
  have he0ne : e0 ≠ [] :=
    List.ne_nil_of_mem ((hE0 [Datum.int 1, Datum.int 2]).mpr (by decide))
  refine ⟨?ob, ?hrun, ?hperm⟩
  case hrun =>
    -- P1: distinct 1 emits the seed [1]
    apply Eq.trans (c1_step_distinct1 72 ?hpop1 (by decide))
    case hpop1 => rfl
    rw [(by decide : (runDistinct ([] : List Row)
        (([([Datum.int 1], 0)] : List (Row × Nat))).reverse).2 = [[Datum.int 1]]),
      (by decide : (runDistinct ([] : List Row)
        (([([Datum.int 1], 0)] : List (Row × Nat))).reverse).1 = [[Datum.int 1]])]
    simp only [List.nil_append, List.map_cons, List.map_nil]
    -- P2: select 21 forwards the distinct edges
    apply Eq.trans (c1_step_select21 71 ?hpop2 (by simpa using he0ne))
    case hpop2 => rfl
    simp only [List.nil_append]
    rw [tag_reverse_fst]
    -- P3: select 20 forwards the seed
    apply Eq.trans (c1_step_select20 70 ?hpop3 (by decide))
    case hpop3 => rfl
    simp only [List.nil_append, List.reverse_cons, List.reverse_nil,
      List.map_cons, List.map_nil]
    -- P4: join 24 receives the edges on port 1 and builds the right index
    apply Eq.trans (c1_step_join24_right 69 ?hpop4 ?hports4 ?hkeys4)
    case hpop4 => rfl
    case hports4 => exact fun mp hm => (mem_map_tag hm).1
    case hkeys4 =>
      intro mp hm
      have h2 := (mem_map_tag hm).2
      rw [List.mem_reverse] at h2
      have h8 := (hE0 _).mp h2
      simp only [List.mem_cons, List.not_mem_nil, or_false] at h8
      rcases h8 with h | h | h | h | h | h | h | h <;> exact ⟨_, _, h⟩
    rw [(by rw [List.map_reverse, List.reverse_reverse, List.foldl_map] :
      ((e0.reverse.map (fun m => (m, 1))).reverse).foldl
          (fun t mp => tpush t [(mp : Row × Nat).1.getD 0 (Datum.int 0)] mp.1)
          ([] : List (Row × List Row))
        = e0.foldl (fun t r => tpush t [r.getD 0 (Datum.int 0)] r) [])]
    have hrt : ∀ k : Row,
        (tget (e0.foldl (fun t r => tpush t [r.getD 0 (Datum.int 0)] r) []) k).getD []
          = e0.filter (fun r => decide ([r.getD 0 (Datum.int 0)] = k)) := by
      intro k
      simp only [tpush_eq_alpush, tget_eq_alookup]
      rw [alookup_foldl_alpush (fun r : Row => [r.getD 0 (Datum.int 0)])
        (fun r : Row => r) e0 [] k]
      simp [alookup]
    -- P5: join 23 forwards the seed with the trivial key
    apply Eq.trans (c1_step_join23 68 ?hpop5 (by decide) (by decide))
    case hpop5 => rfl
    simp only [List.nil_append, List.reverse_cons, List.reverse_nil,
      List.map_cons, List.map_nil]
    -- P6: join 24 probes [1] against the edge index
    have hw6 : [Datum.int 1, Datum.int 1, Datum.int 2] ∈
        ([([Datum.int 1], 0)] : List (Row × Nat)).reverse.flatMap (fun mp =>
          ((tget (e0.foldl (fun t r => tpush t [r.getD 0 (Datum.int 0)] r) [])
            [(mp : Row × Nat).1.getD 0 (Datum.int 0)]).getD []).map
            (fun m => mp.1 ++ m)) := by
      refine List.mem_flatMap.mpr ⟨([Datum.int 1], 0), by decide, ?_⟩
      rw [hrt]
      exact List.mem_map.mpr ⟨[Datum.int 1, Datum.int 2], List.mem_filter.mpr
        ⟨(hE0 _).mpr (by decide), by decide⟩, by decide⟩
    apply Eq.trans (c1_step_join24_left 67 ?hpop6 (by decide) ?hkeys6
      (List.ne_nil_of_mem hw6))
    case hpop6 => rfl
    case hkeys6 =>
      intro mp hm
      refine cons_shape_of_ne_nil ?_
      revert hm
      revert mp
      decide
    simp only [List.nil_append, hrt, List.reverse_cons, List.reverse_nil,
      List.flatMap_cons, List.flatMap_nil, List.getD_cons_zero,
      List.append_nil]
    -- P7: project 25 keeps the third column
    apply Eq.trans (c1_step_project25 66 (fun r => [r.getD 2 (Datum.int 0)])
      ?hpop7 ?hg7 ?hne7)
    case hpop7 => rfl
    case hne7 =>
      exact List.ne_nil_of_mem (List.mem_map.mpr
        ⟨[Datum.int 1, Datum.int 1, Datum.int 2], List.mem_map.mpr
          ⟨[Datum.int 1, Datum.int 2], List.mem_filter.mpr
            ⟨(hE0 _).mpr (by decide), by decide⟩, by decide⟩, rfl⟩)
    case hg7 =>
      intro mp hm
      have h1 := (mem_map_tag hm).2
      obtain ⟨m, hmf, hm1⟩ := List.mem_map.mp h1
      obtain ⟨hm0, hpred⟩ := List.mem_filter.mp hmf
      have hmc := (hE0 m).mp hm0
      simp only [List.mem_cons, List.not_mem_nil, or_false] at hmc
      obtain ⟨u, v, huv⟩ : ∃ u v, m = [u, v] := by
        rcases hmc with h | h | h | h | h | h | h | h <;> exact ⟨_, _, h⟩
      rw [← hm1, huv]
      simp only [List.cons_append, List.nil_append]
      exact projRow_var2 (Datum.int 1) u v
    -- P8: distinct 1 emits the first derived generation
    apply Eq.trans (c1_step_distinct1 65 ?hpop8 ?hne8)
    case hpop8 => rfl
    case hne8 =>
      apply List.ne_nil_of_mem
      refine ((runDistinct_emissions_mem _ _ [Datum.int 2]).1).mpr
        ⟨?_, by decide⟩
      simp only [List.nil_append]
      rw [List.map_reverse, List.mem_reverse, tag_map_fst]
      exact (c1_first_gen e0 hE0 _).mpr (by decide)
    simp only [List.nil_append]
    -- hand over to the second half of the run
    refine c1_run_from_B e0 hE0 hrt ?he2B ?hs1B
    case he2B => exact fun x => ((c1_second_gen e0 hE0 x).1)
    case hs1B => exact fun x => ((c1_second_gen e0 hE0 x).2)
  case hperm =>
    refine @List.Perm.trans _ _
      (([[Datum.int 1]] ++ [[Datum.int 2], [Datum.int 3], [Datum.int 4]])
        ++ [[Datum.int 5]]) _ ?_ (List.Perm.refl _)
    refine List.Perm.append (List.Perm.append (List.Perm.refl _) ?_)
      (List.Perm.refl _)
    refine List.perm_of_nodup_nodup_toFinset_eq
      ((runDistinct_emissions_mem _ _ []).2.1) (by decide) ?_
    ext a
    simp only [List.mem_toFinset]
    exact (c1_second_gen e0 hE0 a).1

theorem compileClauses_cons_eq {ops : List (Nat × Nat)} {nm : Nat}
    {df df' : DF} {h : Pred} {b : List Pred} {rest : List (Pred × List Pred)}
    (hcl : compileClause df ops nm h b = some df') :
    compileClauses ops nm df ((h, b) :: rest) = compileClauses ops nm df' rest := by
  have he : compileClauses ops nm df ((h, b) :: rest)
      = Option.bind (compileClause df ops nm h b)
          (fun d => compileClauses ops nm d rest) := rfl
  rw [he, hcl]
  rfl

theorem compileRels_cons_eq {ops : List (Nat × Nat)} {df df' : DF} {nm : Nat}
    {rel : Relation} {rest : List (Nat × Relation)}
    (hcl : compileClauses ops nm df rel.clauses = some df') :
    compileRels ops df ((nm, rel) :: rest) = compileRels ops df' rest := by
  have he : compileRels ops df ((nm, rel) :: rest)
      = Option.bind (compileClauses ops nm df rel.clauses)
          (fun d => compileRels ops d rest) := rfl
  rw [he, hcl]
  rfl

set_option maxHeartbeats 1600000 in
theorem c1_mainProgram_eq (a1 b1 a2 b2 a3 b3 a4 b4 a5 b5 a6 b6 a7 b7 a8 b8 : Int) :
    mainProgram [(a1, b1), (a2, b2), (a3, b3), (a4, b4), (a5, b5), (a6, b6), (a7, b7), (a8, b8)] = ({ idents := [("edge", 0), ("reachable", 1), ("A", 2), ("B", 3)], relations := [(0, { clauses := [({ name := 0, constants := [(0, Datum.int a1), (1, Datum.int b1)], vars := [] }, []), ({ name := 0, constants := [(0, Datum.int a2), (1, Datum.int b2)], vars := [] }, []), ({ name := 0, constants := [(0, Datum.int a3), (1, Datum.int b3)], vars := [] }, []), ({ name := 0, constants := [(0, Datum.int a4), (1, Datum.int b4)], vars := [] }, []), ({ name := 0, constants := [(0, Datum.int a5), (1, Datum.int b5)], vars := [] }, []), ({ name := 0, constants := [(0, Datum.int a6), (1, Datum.int b6)], vars := [] }, []), ({ name := 0, constants := [(0, Datum.int a7), (1, Datum.int b7)], vars := [] }, []), ({ name := 0, constants := [(0, Datum.int a8), (1, Datum.int b8)], vars := [] }, [])] }), (1, { clauses := [({ name := 1, constants := [(0, Datum.int 1)], vars := [] }, []), ({ name := 1, constants := [], vars := [(0, 2)] }, [{ name := 1, constants := [], vars := [(0, 3)] }, { name := 0, constants := [], vars := [(0, 3), (1, 2)] }])] })] } : Program) := by
  have h1 : Program.clause Program.new ("edge", [.datum (.int a1), .datum (.int b1)]) [] = ({ idents := [("edge", 0)], relations := [(0, { clauses := [({ name := 0, constants := [(0, Datum.int a1), (1, Datum.int b1)], vars := [] }, [])] })] } : Program) := by rfl
  have h2 : Program.clause ({ idents := [("edge", 0)], relations := [(0, { clauses := [({ name := 0, constants := [(0, Datum.int a1), (1, Datum.int b1)], vars := [] }, [])] })] } : Program) ("edge", [.datum (.int a2), .datum (.int b2)]) [] = ({ idents := [("edge", 0)], relations := [(0, { clauses := [({ name := 0, constants := [(0, Datum.int a1), (1, Datum.int b1)], vars := [] }, []), ({ name := 0, constants := [(0, Datum.int a2), (1, Datum.int b2)], vars := [] }, [])] })] } : Program) := by rfl
  have h3 : Program.clause ({ idents := [("edge", 0)], relations := [(0, { clauses := [({ name := 0, constants := [(0, Datum.int a1), (1, Datum.int b1)], vars := [] }, []), ({ name := 0, constants := [(0, Datum.int a2), (1, Datum.int b2)], vars := [] }, [])] })] } : Program) ("edge", [.datum (.int a3), .datum (.int b3)]) [] = ({ idents := [("edge", 0)], relations := [(0, { clauses := [({ name := 0, constants := [(0, Datum.int a1), (1, Datum.int b1)], vars := [] }, []), ({ name := 0, constants := [(0, Datum.int a2), (1, Datum.int b2)], vars := [] }, []), ({ name := 0, constants := [(0, Datum.int a3), (1, Datum.int b3)], vars := [] }, [])] })] } : Program) := by rfl
  have h4 : Program.clause ({ idents := [("edge", 0)], relations := [(0, { clauses := [({ name := 0, constants := [(0, Datum.int a1), (1, Datum.int b1)], vars := [] }, []), ({ name := 0, constants := [(0, Datum.int a2), (1, Datum.int b2)], vars := [] }, []), ({ name := 0, constants := [(0, Datum.int a3), (1, Datum.int b3)], vars := [] }, [])] })] } : Program) ("edge", [.datum (.int a4), .datum (.int b4)]) [] = ({ idents := [("edge", 0)], relations := [(0, { clauses := [({ name := 0, constants := [(0, Datum.int a1), (1, Datum.int b1)], vars := [] }, []), ({ name := 0, constants := [(0, Datum.int a2), (1, Datum.int b2)], vars := [] }, []), ({ name := 0, constants := [(0, Datum.int a3), (1, Datum.int b3)], vars := [] }, []), ({ name := 0, constants := [(0, Datum.int a4), (1, Datum.int b4)], vars := [] }, [])] })] } : Program) := by rfl
  have h5 : Program.clause ({ idents := [("edge", 0)], relations := [(0, { clauses := [({ name := 0, constants := [(0, Datum.int a1), (1, Datum.int b1)], vars := [] }, []), ({ name := 0, constants := [(0, Datum.int a2), (1, Datum.int b2)], vars := [] }, []), ({ name := 0, constants := [(0, Datum.int a3), (1, Datum.int b3)], vars := [] }, []), ({ name := 0, constants := [(0, Datum.int a4), (1, Datum.int b4)], vars := [] }, [])] })] } : Program) ("edge", [.datum (.int a5), .datum (.int b5)]) [] = ({ idents := [("edge", 0)], relations := [(0, { clauses := [({ name := 0, constants := [(0, Datum.int a1), (1, Datum.int b1)], vars := [] }, []), ({ name := 0, constants := [(0, Datum.int a2), (1, Datum.int b2)], vars := [] }, []), ({ name := 0, constants := [(0, Datum.int a3), (1, Datum.int b3)], vars := [] }, []), ({ name := 0, constants := [(0, Datum.int a4), (1, Datum.int b4)], vars := [] }, []), ({ name := 0, constants := [(0, Datum.int a5), (1, Datum.int b5)], vars := [] }, [])] })] } : Program) := by rfl
  have h6 : Program.clause ({ idents := [("edge", 0)], relations := [(0, { clauses := [({ name := 0, constants := [(0, Datum.int a1), (1, Datum.int b1)], vars := [] }, []), ({ name := 0, constants := [(0, Datum.int a2), (1, Datum.int b2)], vars := [] }, []), ({ name := 0, constants := [(0, Datum.int a3), (1, Datum.int b3)], vars := [] }, []), ({ name := 0, constants := [(0, Datum.int a4), (1, Datum.int b4)], vars := [] }, []), ({ name := 0, constants := [(0, Datum.int a5), (1, Datum.int b5)], vars := [] }, [])] })] } : Program) ("edge", [.datum (.int a6), .datum (.int b6)]) [] = ({ idents := [("edge", 0)], relations := [(0, { clauses := [({ name := 0, constants := [(0, Datum.int a1), (1, Datum.int b1)], vars := [] }, []), ({ name := 0, constants := [(0, Datum.int a2), (1, Datum.int b2)], vars := [] }, []), ({ name := 0, constants := [(0, Datum.int a3), (1, Datum.int b3)], vars := [] }, []), ({ name := 0, constants := [(0, Datum.int a4), (1, Datum.int b4)], vars := [] }, []), ({ name := 0, constants := [(0, Datum.int a5), (1, Datum.int b5)], vars := [] }, []), ({ name := 0, constants := [(0, Datum.int a6), (1, Datum.int b6)], vars := [] }, [])] })] } : Program) := by rfl
  have h7 : Program.clause ({ idents := [("edge", 0)], relations := [(0, { clauses := [({ name := 0, constants := [(0, Datum.int a1), (1, Datum.int b1)], vars := [] }, []), ({ name := 0, constants := [(0, Datum.int a2), (1, Datum.int b2)], vars := [] }, []), ({ name := 0, constants := [(0, Datum.int a3), (1, Datum.int b3)], vars := [] }, []), ({ name := 0, constants := [(0, Datum.int a4), (1, Datum.int b4)], vars := [] }, []), ({ name := 0, constants := [(0, Datum.int a5), (1, Datum.int b5)], vars := [] }, []), ({ name := 0, constants := [(0, Datum.int a6), (1, Datum.int b6)], vars := [] }, [])] })] } : Program) ("edge", [.datum (.int a7), .datum (.int b7)]) [] = ({ idents := [("edge", 0)], relations := [(0, { clauses := [({ name := 0, constants := [(0, Datum.int a1), (1, Datum.int b1)], vars := [] }, []), ({ name := 0, constants := [(0, Datum.int a2), (1, Datum.int b2)], vars := [] }, []), ({ name := 0, constants := [(0, Datum.int a3), (1, Datum.int b3)], vars := [] }, []), ({ name := 0, constants := [(0, Datum.int a4), (1, Datum.int b4)], vars := [] }, []), ({ name := 0, constants := [(0, Datum.int a5), (1, Datum.int b5)], vars := [] }, []), ({ name := 0, constants := [(0, Datum.int a6), (1, Datum.int b6)], vars := [] }, []), ({ name := 0, constants := [(0, Datum.int a7), (1, Datum.int b7)], vars := [] }, [])] })] } : Program) := by rfl
  have h8 : Program.clause ({ idents := [("edge", 0)], relations := [(0, { clauses := [({ name := 0, constants := [(0, Datum.int a1), (1, Datum.int b1)], vars := [] }, []), ({ name := 0, constants := [(0, Datum.int a2), (1, Datum.int b2)], vars := [] }, []), ({ name := 0, constants := [(0, Datum.int a3), (1, Datum.int b3)], vars := [] }, []), ({ name := 0, constants := [(0, Datum.int a4), (1, Datum.int b4)], vars := [] }, []), ({ name := 0, constants := [(0, Datum.int a5), (1, Datum.int b5)], vars := [] }, []), ({ name := 0, constants := [(0, Datum.int a6), (1, Datum.int b6)], vars := [] }, []), ({ name := 0, constants := [(0, Datum.int a7), (1, Datum.int b7)], vars := [] }, [])] })] } : Program) ("edge", [.datum (.int a8), .datum (.int b8)]) [] = ({ idents := [("edge", 0)], relations := [(0, { clauses := [({ name := 0, constants := [(0, Datum.int a1), (1, Datum.int b1)], vars := [] }, []), ({ name := 0, constants := [(0, Datum.int a2), (1, Datum.int b2)], vars := [] }, []), ({ name := 0, constants := [(0, Datum.int a3), (1, Datum.int b3)], vars := [] }, []), ({ name := 0, constants := [(0, Datum.int a4), (1, Datum.int b4)], vars := [] }, []), ({ name := 0, constants := [(0, Datum.int a5), (1, Datum.int b5)], vars := [] }, []), ({ name := 0, constants := [(0, Datum.int a6), (1, Datum.int b6)], vars := [] }, []), ({ name := 0, constants := [(0, Datum.int a7), (1, Datum.int b7)], vars := [] }, []), ({ name := 0, constants := [(0, Datum.int a8), (1, Datum.int b8)], vars := [] }, [])] })] } : Program) := by rfl
  have h9 : Program.clause ({ idents := [("edge", 0)], relations := [(0, { clauses := [({ name := 0, constants := [(0, Datum.int a1), (1, Datum.int b1)], vars := [] }, []), ({ name := 0, constants := [(0, Datum.int a2), (1, Datum.int b2)], vars := [] }, []), ({ name := 0, constants := [(0, Datum.int a3), (1, Datum.int b3)], vars := [] }, []), ({ name := 0, constants := [(0, Datum.int a4), (1, Datum.int b4)], vars := [] }, []), ({ name := 0, constants := [(0, Datum.int a5), (1, Datum.int b5)], vars := [] }, []), ({ name := 0, constants := [(0, Datum.int a6), (1, Datum.int b6)], vars := [] }, []), ({ name := 0, constants := [(0, Datum.int a7), (1, Datum.int b7)], vars := [] }, []), ({ name := 0, constants := [(0, Datum.int a8), (1, Datum.int b8)], vars := [] }, [])] })] } : Program) ("reachable", [.datum (.int 1)]) [] = ({ idents := [("edge", 0), ("reachable", 1)], relations := [(0, { clauses := [({ name := 0, constants := [(0, Datum.int a1), (1, Datum.int b1)], vars := [] }, []), ({ name := 0, constants := [(0, Datum.int a2), (1, Datum.int b2)], vars := [] }, []), ({ name := 0, constants := [(0, Datum.int a3), (1, Datum.int b3)], vars := [] }, []), ({ name := 0, constants := [(0, Datum.int a4), (1, Datum.int b4)], vars := [] }, []), ({ name := 0, constants := [(0, Datum.int a5), (1, Datum.int b5)], vars := [] }, []), ({ name := 0, constants := [(0, Datum.int a6), (1, Datum.int b6)], vars := [] }, []), ({ name := 0, constants := [(0, Datum.int a7), (1, Datum.int b7)], vars := [] }, []), ({ name := 0, constants := [(0, Datum.int a8), (1, Datum.int b8)], vars := [] }, [])] }), (1, { clauses := [({ name := 1, constants := [(0, Datum.int 1)], vars := [] }, [])] })] } : Program) := by rfl
  have h10 : Program.clause ({ idents := [("edge", 0), ("reachable", 1)], relations := [(0, { clauses := [({ name := 0, constants := [(0, Datum.int a1), (1, Datum.int b1)], vars := [] }, []), ({ name := 0, constants := [(0, Datum.int a2), (1, Datum.int b2)], vars := [] }, []), ({ name := 0, constants := [(0, Datum.int a3), (1, Datum.int b3)], vars := [] }, []), ({ name := 0, constants := [(0, Datum.int a4), (1, Datum.int b4)], vars := [] }, []), ({ name := 0, constants := [(0, Datum.int a5), (1, Datum.int b5)], vars := [] }, []), ({ name := 0, constants := [(0, Datum.int a6), (1, Datum.int b6)], vars := [] }, []), ({ name := 0, constants := [(0, Datum.int a7), (1, Datum.int b7)], vars := [] }, []), ({ name := 0, constants := [(0, Datum.int a8), (1, Datum.int b8)], vars := [] }, [])] }), (1, { clauses := [({ name := 1, constants := [(0, Datum.int 1)], vars := [] }, [])] })] } : Program) ("reachable", [.var "A"]) [("reachable", [.var "B"]), ("edge", [.var "B", .var "A"])] = ({ idents := [("edge", 0), ("reachable", 1), ("A", 2), ("B", 3)], relations := [(0, { clauses := [({ name := 0, constants := [(0, Datum.int a1), (1, Datum.int b1)], vars := [] }, []), ({ name := 0, constants := [(0, Datum.int a2), (1, Datum.int b2)], vars := [] }, []), ({ name := 0, constants := [(0, Datum.int a3), (1, Datum.int b3)], vars := [] }, []), ({ name := 0, constants := [(0, Datum.int a4), (1, Datum.int b4)], vars := [] }, []), ({ name := 0, constants := [(0, Datum.int a5), (1, Datum.int b5)], vars := [] }, []), ({ name := 0, constants := [(0, Datum.int a6), (1, Datum.int b6)], vars := [] }, []), ({ name := 0, constants := [(0, Datum.int a7), (1, Datum.int b7)], vars := [] }, []), ({ name := 0, constants := [(0, Datum.int a8), (1, Datum.int b8)], vars := [] }, [])] }), (1, { clauses := [({ name := 1, constants := [(0, Datum.int 1)], vars := [] }, []), ({ name := 1, constants := [], vars := [(0, 2)] }, [{ name := 1, constants := [], vars := [(0, 3)] }, { name := 0, constants := [], vars := [(0, 3), (1, 2)] }])] })] } : Program) := by rfl
  simp only [mainProgram, List.foldl_cons, List.foldl_nil]
  rw [h1, h2, h3, h4, h5, h6, h7, h8, h9, h10]

set_option maxHeartbeats 1600000 in
theorem c1_render_eq (a1 b1 a2 b2 a3 b3 a4 b4 a5 b5 a6 b6 a7 b7 a8 b8 : Int) :
    render ({ idents := [("edge", 0), ("reachable", 1), ("A", 2), ("B", 3)], relations := [(0, { clauses := [({ name := 0, constants := [(0, Datum.int a1), (1, Datum.int b1)], vars := [] }, []), ({ name := 0, constants := [(0, Datum.int a2), (1, Datum.int b2)], vars := [] }, []), ({ name := 0, constants := [(0, Datum.int a3), (1, Datum.int b3)], vars := [] }, []), ({ name := 0, constants := [(0, Datum.int a4), (1, Datum.int b4)], vars := [] }, []), ({ name := 0, constants := [(0, Datum.int a5), (1, Datum.int b5)], vars := [] }, []), ({ name := 0, constants := [(0, Datum.int a6), (1, Datum.int b6)], vars := [] }, []), ({ name := 0, constants := [(0, Datum.int a7), (1, Datum.int b7)], vars := [] }, []), ({ name := 0, constants := [(0, Datum.int a8), (1, Datum.int b8)], vars := [] }, [])] }), (1, { clauses := [({ name := 1, constants := [(0, Datum.int 1)], vars := [] }, []), ({ name := 1, constants := [], vars := [(0, 2)] }, [{ name := 1, constants := [], vars := [(0, 3)] }, { name := 0, constants := [], vars := [(0, 3), (1, 2)] }])] })] } : Program) "reachable" = some ({ operators := [DataOp.distinct [], DataOp.distinct [], DataOp.source [[]], DataOp.project [ColExpr.datum (Datum.int a1), ColExpr.datum (Datum.int b1)], DataOp.source [[]], DataOp.project [ColExpr.datum (Datum.int a2), ColExpr.datum (Datum.int b2)], DataOp.source [[]], DataOp.project [ColExpr.datum (Datum.int a3), ColExpr.datum (Datum.int b3)], DataOp.source [[]], DataOp.project [ColExpr.datum (Datum.int a4), ColExpr.datum (Datum.int b4)], DataOp.source [[]], DataOp.project [ColExpr.datum (Datum.int a5), ColExpr.datum (Datum.int b5)], DataOp.source [[]], DataOp.project [ColExpr.datum (Datum.int a6), ColExpr.datum (Datum.int b6)], DataOp.source [[]], DataOp.project [ColExpr.datum (Datum.int a7), ColExpr.datum (Datum.int b7)], DataOp.source [[]], DataOp.project [ColExpr.datum (Datum.int a8), ColExpr.datum (Datum.int b8)], DataOp.source [[]], DataOp.project [ColExpr.datum (Datum.int 1)], DataOp.select [], DataOp.select [], DataOp.source [[]], DataOp.join [] [] [] [], DataOp.join [0] [] [0] [], DataOp.project [ColExpr.var 2]], outputs := [[(21, 0)], [(20, 0), (18446744073709551615, 0)], [(3, 0)], [(0, 0)], [(5, 0)], [(0, 0)], [(7, 0)], [(0, 0)], [(9, 0)], [(0, 0)], [(11, 0)], [(0, 0)], [(13, 0)], [(0, 0)], [(15, 0)], [(0, 0)], [(17, 0)], [(0, 0)], [(19, 0)], [(1, 0)], [(23, 1)], [(24, 1)], [(23, 0)], [(24, 0)], [(25, 0)], [(1, 0)]], inboxes := [[], [], [], [], [], [], [], [], [], [], [], [], [], [], [], [], [], [], [], [], [], [], [], [], [], []], schedule := { order := [0, 1, 2, 3, 4, 5, 6, 7, 8, 9, 10, 11, 12, 13, 14, 15, 16, 17, 18, 19, 20, 21, 22, 23, 24, 25], members := [25, 24, 23, 22, 21, 20, 19, 18, 17, 16, 15, 14, 13, 12, 11, 10, 9, 8, 7, 6, 5, 4, 3, 2, 1, 0] }, outbox := [] } : DF) := by
  have hc1 : compileClause ({ operators := [DataOp.distinct [], DataOp.distinct []], outputs := [[], []], inboxes := [[], []], schedule := { order := [0, 1], members := [1, 0] }, outbox := [] } : DF) [(0, 0), (1, 1)] 0 (⟨0, [(0, Datum.int a1), (1, Datum.int b1)], []⟩ : Pred) [] = some ({ operators := [DataOp.distinct [], DataOp.distinct [], DataOp.source [[]], DataOp.project [ColExpr.datum (Datum.int a1), ColExpr.datum (Datum.int b1)]], outputs := [[], [], [(3, 0)], [(0, 0)]], inboxes := [[], [], [], []], schedule := { order := [0, 1, 2, 3], members := [3, 2, 1, 0] }, outbox := [] } : DF) := by rfl
  have hc2 : compileClause ({ operators := [DataOp.distinct [], DataOp.distinct [], DataOp.source [[]], DataOp.project [ColExpr.datum (Datum.int a1), ColExpr.datum (Datum.int b1)]], outputs := [[], [], [(3, 0)], [(0, 0)]], inboxes := [[], [], [], []], schedule := { order := [0, 1, 2, 3], members := [3, 2, 1, 0] }, outbox := [] } : DF) [(0, 0), (1, 1)] 0 (⟨0, [(0, Datum.int a2), (1, Datum.int b2)], []⟩ : Pred) [] = some ({ operators := [DataOp.distinct [], DataOp.distinct [], DataOp.source [[]], DataOp.project [ColExpr.datum (Datum.int a1), ColExpr.datum (Datum.int b1)], DataOp.source [[]], DataOp.project [ColExpr.datum (Datum.int a2), ColExpr.datum (Datum.int b2)]], outputs := [[], [], [(3, 0)], [(0, 0)], [(5, 0)], [(0, 0)]], inboxes := [[], [], [], [], [], []], schedule := { order := [0, 1, 2, 3, 4, 5], members := [5, 4, 3, 2, 1, 0] }, outbox := [] } : DF) := by rfl
  have hc3 : compileClause ({ operators := [DataOp.distinct [], DataOp.distinct [], DataOp.source [[]], DataOp.project [ColExpr.datum (Datum.int a1), ColExpr.datum (Datum.int b1)], DataOp.source [[]], DataOp.project [ColExpr.datum (Datum.int a2), ColExpr.datum (Datum.int b2)]], outputs := [[], [], [(3, 0)], [(0, 0)], [(5, 0)], [(0, 0)]], inboxes := [[], [], [], [], [], []], schedule := { order := [0, 1, 2, 3, 4, 5], members := [5, 4, 3, 2, 1, 0] }, outbox := [] } : DF) [(0, 0), (1, 1)] 0 (⟨0, [(0, Datum.int a3), (1, Datum.int b3)], []⟩ : Pred) [] = some ({ operators := [DataOp.distinct [], DataOp.distinct [], DataOp.source [[]], DataOp.project [ColExpr.datum (Datum.int a1), ColExpr.datum (Datum.int b1)], DataOp.source [[]], DataOp.project [ColExpr.datum (Datum.int a2), ColExpr.datum (Datum.int b2)], DataOp.source [[]], DataOp.project [ColExpr.datum (Datum.int a3), ColExpr.datum (Datum.int b3)]], outputs := [[], [], [(3, 0)], [(0, 0)], [(5, 0)], [(0, 0)], [(7, 0)], [(0, 0)]], inboxes := [[], [], [], [], [], [], [], []], schedule := { order := [0, 1, 2, 3, 4, 5, 6, 7], members := [7, 6, 5, 4, 3, 2, 1, 0] }, outbox := [] } : DF) := by rfl
  have hc4 : compileClause ({ operators := [DataOp.distinct [], DataOp.distinct [], DataOp.source [[]], DataOp.project [ColExpr.datum (Datum.int a1), ColExpr.datum (Datum.int b1)], DataOp.source [[]], DataOp.project [ColExpr.datum (Datum.int a2), ColExpr.datum (Datum.int b2)], DataOp.source [[]], DataOp.project [ColExpr.datum (Datum.int a3), ColExpr.datum (Datum.int b3)]], outputs := [[], [], [(3, 0)], [(0, 0)], [(5, 0)], [(0, 0)], [(7, 0)], [(0, 0)]], inboxes := [[], [], [], [], [], [], [], []], schedule := { order := [0, 1, 2, 3, 4, 5, 6, 7], members := [7, 6, 5, 4, 3, 2, 1, 0] }, outbox := [] } : DF) [(0, 0), (1, 1)] 0 (⟨0, [(0, Datum.int a4), (1, Datum.int b4)], []⟩ : Pred) [] = some ({ operators := [DataOp.distinct [], DataOp.distinct [], DataOp.source [[]], DataOp.project [ColExpr.datum (Datum.int a1), ColExpr.datum (Datum.int b1)], DataOp.source [[]], DataOp.project [ColExpr.datum (Datum.int a2), ColExpr.datum (Datum.int b2)], DataOp.source [[]], DataOp.project [ColExpr.datum (Datum.int a3), ColExpr.datum (Datum.int b3)], DataOp.source [[]], DataOp.project [ColExpr.datum (Datum.int a4), ColExpr.datum (Datum.int b4)]], outputs := [[], [], [(3, 0)], [(0, 0)], [(5, 0)], [(0, 0)], [(7, 0)], [(0, 0)], [(9, 0)], [(0, 0)]], inboxes := [[], [], [], [], [], [], [], [], [], []], schedule := { order := [0, 1, 2, 3, 4, 5, 6, 7, 8, 9], members := [9, 8, 7, 6, 5, 4, 3, 2, 1, 0] }, outbox := [] } : DF) := by rfl
  have hc5 : compileClause ({ operators := [DataOp.distinct [], DataOp.distinct [], DataOp.source [[]], DataOp.project [ColExpr.datum (Datum.int a1), ColExpr.datum (Datum.int b1)], DataOp.source [[]], DataOp.project [ColExpr.datum (Datum.int a2), ColExpr.datum (Datum.int b2)], DataOp.source [[]], DataOp.project [ColExpr.datum (Datum.int a3), ColExpr.datum (Datum.int b3)], DataOp.source [[]], DataOp.project [ColExpr.datum (Datum.int a4), ColExpr.datum (Datum.int b4)]], outputs := [[], [], [(3, 0)], [(0, 0)], [(5, 0)], [(0, 0)], [(7, 0)], [(0, 0)], [(9, 0)], [(0, 0)]], inboxes := [[], [], [], [], [], [], [], [], [], []], schedule := { order := [0, 1, 2, 3, 4, 5, 6, 7, 8, 9], members := [9, 8, 7, 6, 5, 4, 3, 2, 1, 0] }, outbox := [] } : DF) [(0, 0), (1, 1)] 0 (⟨0, [(0, Datum.int a5), (1, Datum.int b5)], []⟩ : Pred) [] = some ({ operators := [DataOp.distinct [], DataOp.distinct [], DataOp.source [[]], DataOp.project [ColExpr.datum (Datum.int a1), ColExpr.datum (Datum.int b1)], DataOp.source [[]], DataOp.project [ColExpr.datum (Datum.int a2), ColExpr.datum (Datum.int b2)], DataOp.source [[]], DataOp.project [ColExpr.datum (Datum.int a3), ColExpr.datum (Datum.int b3)], DataOp.source [[]], DataOp.project [ColExpr.datum (Datum.int a4), ColExpr.datum (Datum.int b4)], DataOp.source [[]], DataOp.project [ColExpr.datum (Datum.int a5), ColExpr.datum (Datum.int b5)]], outputs := [[], [], [(3, 0)], [(0, 0)], [(5, 0)], [(0, 0)], [(7, 0)], [(0, 0)], [(9, 0)], [(0, 0)], [(11, 0)], [(0, 0)]], inboxes := [[], [], [], [], [], [], [], [], [], [], [], []], schedule := { order := [0, 1, 2, 3, 4, 5, 6, 7, 8, 9, 10, 11], members := [11, 10, 9, 8, 7, 6, 5, 4, 3, 2, 1, 0] }, outbox := [] } : DF) := by rfl
  have hc6 : compileClause ({ operators := [DataOp.distinct [], DataOp.distinct [], DataOp.source [[]], DataOp.project [ColExpr.datum (Datum.int a1), ColExpr.datum (Datum.int b1)], DataOp.source [[]], DataOp.project [ColExpr.datum (Datum.int a2), ColExpr.datum (Datum.int b2)], DataOp.source [[]], DataOp.project [ColExpr.datum (Datum.int a3), ColExpr.datum (Datum.int b3)], DataOp.source [[]], DataOp.project [ColExpr.datum (Datum.int a4), ColExpr.datum (Datum.int b4)], DataOp.source [[]], DataOp.project [ColExpr.datum (Datum.int a5), ColExpr.datum (Datum.int b5)]], outputs := [[], [], [(3, 0)], [(0, 0)], [(5, 0)], [(0, 0)], [(7, 0)], [(0, 0)], [(9, 0)], [(0, 0)], [(11, 0)], [(0, 0)]], inboxes := [[], [], [], [], [], [], [], [], [], [], [], []], schedule := { order := [0, 1, 2, 3, 4, 5, 6, 7, 8, 9, 10, 11], members := [11, 10, 9, 8, 7, 6, 5, 4, 3, 2, 1, 0] }, outbox := [] } : DF) [(0, 0), (1, 1)] 0 (⟨0, [(0, Datum.int a6), (1, Datum.int b6)], []⟩ : Pred) [] = some ({ operators := [DataOp.distinct [], DataOp.distinct [], DataOp.source [[]], DataOp.project [ColExpr.datum (Datum.int a1), ColExpr.datum (Datum.int b1)], DataOp.source [[]], DataOp.project [ColExpr.datum (Datum.int a2), ColExpr.datum (Datum.int b2)], DataOp.source [[]], DataOp.project [ColExpr.datum (Datum.int a3), ColExpr.datum (Datum.int b3)], DataOp.source [[]], DataOp.project [ColExpr.datum (Datum.int a4), ColExpr.datum (Datum.int b4)], DataOp.source [[]], DataOp.project [ColExpr.datum (Datum.int a5), ColExpr.datum (Datum.int b5)], DataOp.source [[]], DataOp.project [ColExpr.datum (Datum.int a6), ColExpr.datum (Datum.int b6)]], outputs := [[], [], [(3, 0)], [(0, 0)], [(5, 0)], [(0, 0)], [(7, 0)], [(0, 0)], [(9, 0)], [(0, 0)], [(11, 0)], [(0, 0)], [(13, 0)], [(0, 0)]], inboxes := [[], [], [], [], [], [], [], [], [], [], [], [], [], []], schedule := { order := [0, 1, 2, 3, 4, 5, 6, 7, 8, 9, 10, 11, 12, 13], members := [13, 12, 11, 10, 9, 8, 7, 6, 5, 4, 3, 2, 1, 0] }, outbox := [] } : DF) := by rfl
  have hc7 : compileClause ({ operators := [DataOp.distinct [], DataOp.distinct [], DataOp.source [[]], DataOp.project [ColExpr.datum (Datum.int a1), ColExpr.datum (Datum.int b1)], DataOp.source [[]], DataOp.project [ColExpr.datum (Datum.int a2), ColExpr.datum (Datum.int b2)], DataOp.source [[]], DataOp.project [ColExpr.datum (Datum.int a3), ColExpr.datum (Datum.int b3)], DataOp.source [[]], DataOp.project [ColExpr.datum (Datum.int a4), ColExpr.datum (Datum.int b4)], DataOp.source [[]], DataOp.project [ColExpr.datum (Datum.int a5), ColExpr.datum (Datum.int b5)], DataOp.source [[]], DataOp.project [ColExpr.datum (Datum.int a6), ColExpr.datum (Datum.int b6)]], outputs := [[], [], [(3, 0)], [(0, 0)], [(5, 0)], [(0, 0)], [(7, 0)], [(0, 0)], [(9, 0)], [(0, 0)], [(11, 0)], [(0, 0)], [(13, 0)], [(0, 0)]], inboxes := [[], [], [], [], [], [], [], [], [], [], [], [], [], []], schedule := { order := [0, 1, 2, 3, 4, 5, 6, 7, 8, 9, 10, 11, 12, 13], members := [13, 12, 11, 10, 9, 8, 7, 6, 5, 4, 3, 2, 1, 0] }, outbox := [] } : DF) [(0, 0), (1, 1)] 0 (⟨0, [(0, Datum.int a7), (1, Datum.int b7)], []⟩ : Pred) [] = some ({ operators := [DataOp.distinct [], DataOp.distinct [], DataOp.source [[]], DataOp.project [ColExpr.datum (Datum.int a1), ColExpr.datum (Datum.int b1)], DataOp.source [[]], DataOp.project [ColExpr.datum (Datum.int a2), ColExpr.datum (Datum.int b2)], DataOp.source [[]], DataOp.project [ColExpr.datum (Datum.int a3), ColExpr.datum (Datum.int b3)], DataOp.source [[]], DataOp.project [ColExpr.datum (Datum.int a4), ColExpr.datum (Datum.int b4)], DataOp.source [[]], DataOp.project [ColExpr.datum (Datum.int a5), ColExpr.datum (Datum.int b5)], DataOp.source [[]], DataOp.project [ColExpr.datum (Datum.int a6), ColExpr.datum (Datum.int b6)], DataOp.source [[]], DataOp.project [ColExpr.datum (Datum.int a7), ColExpr.datum (Datum.int b7)]], outputs := [[], [], [(3, 0)], [(0, 0)], [(5, 0)], [(0, 0)], [(7, 0)], [(0, 0)], [(9, 0)], [(0, 0)], [(11, 0)], [(0, 0)], [(13, 0)], [(0, 0)], [(15, 0)], [(0, 0)]], inboxes := [[], [], [], [], [], [], [], [], [], [], [], [], [], [], [], []], schedule := { order := [0, 1, 2, 3, 4, 5, 6, 7, 8, 9, 10, 11, 12, 13, 14, 15], members := [15, 14, 13, 12, 11, 10, 9, 8, 7, 6, 5, 4, 3, 2, 1, 0] }, outbox := [] } : DF) := by rfl
  have hc8 : compileClause ({ operators := [DataOp.distinct [], DataOp.distinct [], DataOp.source [[]], DataOp.project [ColExpr.datum (Datum.int a1), ColExpr.datum (Datum.int b1)], DataOp.source [[]], DataOp.project [ColExpr.datum (Datum.int a2), ColExpr.datum (Datum.int b2)], DataOp.source [[]], DataOp.project [ColExpr.datum (Datum.int a3), ColExpr.datum (Datum.int b3)], DataOp.source [[]], DataOp.project [ColExpr.datum (Datum.int a4), ColExpr.datum (Datum.int b4)], DataOp.source [[]], DataOp.project [ColExpr.datum (Datum.int a5), ColExpr.datum (Datum.int b5)], DataOp.source [[]], DataOp.project [ColExpr.datum (Datum.int a6), ColExpr.datum (Datum.int b6)], DataOp.source [[]], DataOp.project [ColExpr.datum (Datum.int a7), ColExpr.datum (Datum.int b7)]], outputs := [[], [], [(3, 0)], [(0, 0)], [(5, 0)], [(0, 0)], [(7, 0)], [(0, 0)], [(9, 0)], [(0, 0)], [(11, 0)], [(0, 0)], [(13, 0)], [(0, 0)], [(15, 0)], [(0, 0)]], inboxes := [[], [], [], [], [], [], [], [], [], [], [], [], [], [], [], []], schedule := { order := [0, 1, 2, 3, 4, 5, 6, 7, 8, 9, 10, 11, 12, 13, 14, 15], members := [15, 14, 13, 12, 11, 10, 9, 8, 7, 6, 5, 4, 3, 2, 1, 0] }, outbox := [] } : DF) [(0, 0), (1, 1)] 0 (⟨0, [(0, Datum.int a8), (1, Datum.int b8)], []⟩ : Pred) [] = some ({ operators := [DataOp.distinct [], DataOp.distinct [], DataOp.source [[]], DataOp.project [ColExpr.datum (Datum.int a1), ColExpr.datum (Datum.int b1)], DataOp.source [[]], DataOp.project [ColExpr.datum (Datum.int a2), ColExpr.datum (Datum.int b2)], DataOp.source [[]], DataOp.project [ColExpr.datum (Datum.int a3), ColExpr.datum (Datum.int b3)], DataOp.source [[]], DataOp.project [ColExpr.datum (Datum.int a4), ColExpr.datum (Datum.int b4)], DataOp.source [[]], DataOp.project [ColExpr.datum (Datum.int a5), ColExpr.datum (Datum.int b5)], DataOp.source [[]], DataOp.project [ColExpr.datum (Datum.int a6), ColExpr.datum (Datum.int b6)], DataOp.source [[]], DataOp.project [ColExpr.datum (Datum.int a7), ColExpr.datum (Datum.int b7)], DataOp.source [[]], DataOp.project [ColExpr.datum (Datum.int a8), ColExpr.datum (Datum.int b8)]], outputs := [[], [], [(3, 0)], [(0, 0)], [(5, 0)], [(0, 0)], [(7, 0)], [(0, 0)], [(9, 0)], [(0, 0)], [(11, 0)], [(0, 0)], [(13, 0)], [(0, 0)], [(15, 0)], [(0, 0)], [(17, 0)], [(0, 0)]], inboxes := [[], [], [], [], [], [], [], [], [], [], [], [], [], [], [], [], [], []], schedule := { order := [0, 1, 2, 3, 4, 5, 6, 7, 8, 9, 10, 11, 12, 13, 14, 15, 16, 17], members := [17, 16, 15, 14, 13, 12, 11, 10, 9, 8, 7, 6, 5, 4, 3, 2, 1, 0] }, outbox := [] } : DF) := by rfl
  have hc9 : compileClause ({ operators := [DataOp.distinct [], DataOp.distinct [], DataOp.source [[]], DataOp.project [ColExpr.datum (Datum.int a1), ColExpr.datum (Datum.int b1)], DataOp.source [[]], DataOp.project [ColExpr.datum (Datum.int a2), ColExpr.datum (Datum.int b2)], DataOp.source [[]], DataOp.project [ColExpr.datum (Datum.int a3), ColExpr.datum (Datum.int b3)], DataOp.source [[]], DataOp.project [ColExpr.datum (Datum.int a4), ColExpr.datum (Datum.int b4)], DataOp.source [[]], DataOp.project [ColExpr.datum (Datum.int a5), ColExpr.datum (Datum.int b5)], DataOp.source [[]], DataOp.project [ColExpr.datum (Datum.int a6), ColExpr.datum (Datum.int b6)], DataOp.source [[]], DataOp.project [ColExpr.datum (Datum.int a7), ColExpr.datum (Datum.int b7)], DataOp.source [[]], DataOp.project [ColExpr.datum (Datum.int a8), ColExpr.datum (Datum.int b8)]], outputs := [[], [], [(3, 0)], [(0, 0)], [(5, 0)], [(0, 0)], [(7, 0)], [(0, 0)], [(9, 0)], [(0, 0)], [(11, 0)], [(0, 0)], [(13, 0)], [(0, 0)], [(15, 0)], [(0, 0)], [(17, 0)], [(0, 0)]], inboxes := [[], [], [], [], [], [], [], [], [], [], [], [], [], [], [], [], [], []], schedule := { order := [0, 1, 2, 3, 4, 5, 6, 7, 8, 9, 10, 11, 12, 13, 14, 15, 16, 17], members := [17, 16, 15, 14, 13, 12, 11, 10, 9, 8, 7, 6, 5, 4, 3, 2, 1, 0] }, outbox := [] } : DF) [(0, 0), (1, 1)] 1 (⟨1, [(0, Datum.int 1)], []⟩ : Pred) [] = some ({ operators := [DataOp.distinct [], DataOp.distinct [], DataOp.source [[]], DataOp.project [ColExpr.datum (Datum.int a1), ColExpr.datum (Datum.int b1)], DataOp.source [[]], DataOp.project [ColExpr.datum (Datum.int a2), ColExpr.datum (Datum.int b2)], DataOp.source [[]], DataOp.project [ColExpr.datum (Datum.int a3), ColExpr.datum (Datum.int b3)], DataOp.source [[]], DataOp.project [ColExpr.datum (Datum.int a4), ColExpr.datum (Datum.int b4)], DataOp.source [[]], DataOp.project [ColExpr.datum (Datum.int a5), ColExpr.datum (Datum.int b5)], DataOp.source [[]], DataOp.project [ColExpr.datum (Datum.int a6), ColExpr.datum (Datum.int b6)], DataOp.source [[]], DataOp.project [ColExpr.datum (Datum.int a7), ColExpr.datum (Datum.int b7)], DataOp.source [[]], DataOp.project [ColExpr.datum (Datum.int a8), ColExpr.datum (Datum.int b8)], DataOp.source [[]], DataOp.project [ColExpr.datum (Datum.int 1)]], outputs := [[], [], [(3, 0)], [(0, 0)], [(5, 0)], [(0, 0)], [(7, 0)], [(0, 0)], [(9, 0)], [(0, 0)], [(11, 0)], [(0, 0)], [(13, 0)], [(0, 0)], [(15, 0)], [(0, 0)], [(17, 0)], [(0, 0)], [(19, 0)], [(1, 0)]], inboxes := [[], [], [], [], [], [], [], [], [], [], [], [], [], [], [], [], [], [], [], []], schedule := { order := [0, 1, 2, 3, 4, 5, 6, 7, 8, 9, 10, 11, 12, 13, 14, 15, 16, 17, 18, 19], members := [19, 18, 17, 16, 15, 14, 13, 12, 11, 10, 9, 8, 7, 6, 5, 4, 3, 2, 1, 0] }, outbox := [] } : DF) := by rfl
  have hc10 : compileClause ({ operators := [DataOp.distinct [], DataOp.distinct [], DataOp.source [[]], DataOp.project [ColExpr.datum (Datum.int a1), ColExpr.datum (Datum.int b1)], DataOp.source [[]], DataOp.project [ColExpr.datum (Datum.int a2), ColExpr.datum (Datum.int b2)], DataOp.source [[]], DataOp.project [ColExpr.datum (Datum.int a3), ColExpr.datum (Datum.int b3)], DataOp.source [[]], DataOp.project [ColExpr.datum (Datum.int a4), ColExpr.datum (Datum.int b4)], DataOp.source [[]], DataOp.project [ColExpr.datum (Datum.int a5), ColExpr.datum (Datum.int b5)], DataOp.source [[]], DataOp.project [ColExpr.datum (Datum.int a6), ColExpr.datum (Datum.int b6)], DataOp.source [[]], DataOp.project [ColExpr.datum (Datum.int a7), ColExpr.datum (Datum.int b7)], DataOp.source [[]], DataOp.project [ColExpr.datum (Datum.int a8), ColExpr.datum (Datum.int b8)], DataOp.source [[]], DataOp.project [ColExpr.datum (Datum.int 1)]], outputs := [[], [], [(3, 0)], [(0, 0)], [(5, 0)], [(0, 0)], [(7, 0)], [(0, 0)], [(9, 0)], [(0, 0)], [(11, 0)], [(0, 0)], [(13, 0)], [(0, 0)], [(15, 0)], [(0, 0)], [(17, 0)], [(0, 0)], [(19, 0)], [(1, 0)]], inboxes := [[], [], [], [], [], [], [], [], [], [], [], [], [], [], [], [], [], [], [], []], schedule := { order := [0, 1, 2, 3, 4, 5, 6, 7, 8, 9, 10, 11, 12, 13, 14, 15, 16, 17, 18, 19], members := [19, 18, 17, 16, 15, 14, 13, 12, 11, 10, 9, 8, 7, 6, 5, 4, 3, 2, 1, 0] }, outbox := [] } : DF) [(0, 0), (1, 1)] 1 (⟨1, [], [(0, 2)]⟩ : Pred) [⟨1, [], [(0, 3)]⟩, ⟨0, [], [(0, 3), (1, 2)]⟩] = some ({ operators := [DataOp.distinct [], DataOp.distinct [], DataOp.source [[]], DataOp.project [ColExpr.datum (Datum.int a1), ColExpr.datum (Datum.int b1)], DataOp.source [[]], DataOp.project [ColExpr.datum (Datum.int a2), ColExpr.datum (Datum.int b2)], DataOp.source [[]], DataOp.project [ColExpr.datum (Datum.int a3), ColExpr.datum (Datum.int b3)], DataOp.source [[]], DataOp.project [ColExpr.datum (Datum.int a4), ColExpr.datum (Datum.int b4)], DataOp.source [[]], DataOp.project [ColExpr.datum (Datum.int a5), ColExpr.datum (Datum.int b5)], DataOp.source [[]], DataOp.project [ColExpr.datum (Datum.int a6), ColExpr.datum (Datum.int b6)], DataOp.source [[]], DataOp.project [ColExpr.datum (Datum.int a7), ColExpr.datum (Datum.int b7)], DataOp.source [[]], DataOp.project [ColExpr.datum (Datum.int a8), ColExpr.datum (Datum.int b8)], DataOp.source [[]], DataOp.project [ColExpr.datum (Datum.int 1)], DataOp.select [], DataOp.select [], DataOp.source [[]], DataOp.join [] [] [] [], DataOp.join [0] [] [0] [], DataOp.project [ColExpr.var 2]], outputs := [[(21, 0)], [(20, 0)], [(3, 0)], [(0, 0)], [(5, 0)], [(0, 0)], [(7, 0)], [(0, 0)], [(9, 0)], [(0, 0)], [(11, 0)], [(0, 0)], [(13, 0)], [(0, 0)], [(15, 0)], [(0, 0)], [(17, 0)], [(0, 0)], [(19, 0)], [(1, 0)], [(23, 1)], [(24, 1)], [(23, 0)], [(24, 0)], [(25, 0)], [(1, 0)]], inboxes := [[], [], [], [], [], [], [], [], [], [], [], [], [], [], [], [], [], [], [], [], [], [], [], [], [], []], schedule := { order := [0, 1, 2, 3, 4, 5, 6, 7, 8, 9, 10, 11, 12, 13, 14, 15, 16, 17, 18, 19, 20, 21, 22, 23, 24, 25], members := [25, 24, 23, 22, 21, 20, 19, 18, 17, 16, 15, 14, 13, 12, 11, 10, 9, 8, 7, 6, 5, 4, 3, 2, 1, 0] }, outbox := [] } : DF) := by rfl
  have hcc0 : compileClauses [(0, 0), (1, 1)] 0 ({ operators := [DataOp.distinct [], DataOp.distinct []], outputs := [[], []], inboxes := [[], []], schedule := { order := [0, 1], members := [1, 0] }, outbox := [] } : DF) ([(⟨0, [(0, Datum.int a1), (1, Datum.int b1)], []⟩, []), (⟨0, [(0, Datum.int a2), (1, Datum.int b2)], []⟩, []), (⟨0, [(0, Datum.int a3), (1, Datum.int b3)], []⟩, []), (⟨0, [(0, Datum.int a4), (1, Datum.int b4)], []⟩, []), (⟨0, [(0, Datum.int a5), (1, Datum.int b5)], []⟩, []), (⟨0, [(0, Datum.int a6), (1, Datum.int b6)], []⟩, []), (⟨0, [(0, Datum.int a7), (1, Datum.int b7)], []⟩, []), (⟨0, [(0, Datum.int a8), (1, Datum.int b8)], []⟩, [])] : List (Pred × List Pred)) = some ({ operators := [DataOp.distinct [], DataOp.distinct [], DataOp.source [[]], DataOp.project [ColExpr.datum (Datum.int a1), ColExpr.datum (Datum.int b1)], DataOp.source [[]], DataOp.project [ColExpr.datum (Datum.int a2), ColExpr.datum (Datum.int b2)], DataOp.source [[]], DataOp.project [ColExpr.datum (Datum.int a3), ColExpr.datum (Datum.int b3)], DataOp.source [[]], DataOp.project [ColExpr.datum (Datum.int a4), ColExpr.datum (Datum.int b4)], DataOp.source [[]], DataOp.project [ColExpr.datum (Datum.int a5), ColExpr.datum (Datum.int b5)], DataOp.source [[]], DataOp.project [ColExpr.datum (Datum.int a6), ColExpr.datum (Datum.int b6)], DataOp.source [[]], DataOp.project [ColExpr.datum (Datum.int a7), ColExpr.datum (Datum.int b7)], DataOp.source [[]], DataOp.project [ColExpr.datum (Datum.int a8), ColExpr.datum (Datum.int b8)]], outputs := [[], [], [(3, 0)], [(0, 0)], [(5, 0)], [(0, 0)], [(7, 0)], [(0, 0)], [(9, 0)], [(0, 0)], [(11, 0)], [(0, 0)], [(13, 0)], [(0, 0)], [(15, 0)], [(0, 0)], [(17, 0)], [(0, 0)]], inboxes := [[], [], [], [], [], [], [], [], [], [], [], [], [], [], [], [], [], []], schedule := { order := [0, 1, 2, 3, 4, 5, 6, 7, 8, 9, 10, 11, 12, 13, 14, 15, 16, 17], members := [17, 16, 15, 14, 13, 12, 11, 10, 9, 8, 7, 6, 5, 4, 3, 2, 1, 0] }, outbox := [] } : DF) :=
    (compileClauses_cons_eq hc1).trans ((compileClauses_cons_eq hc2).trans ((compileClauses_cons_eq hc3).trans ((compileClauses_cons_eq hc4).trans ((compileClauses_cons_eq hc5).trans ((compileClauses_cons_eq hc6).trans ((compileClauses_cons_eq hc7).trans ((compileClauses_cons_eq hc8).trans (rfl))))))))
  have hcc1 : compileClauses [(0, 0), (1, 1)] 1 ({ operators := [DataOp.distinct [], DataOp.distinct [], DataOp.source [[]], DataOp.project [ColExpr.datum (Datum.int a1), ColExpr.datum (Datum.int b1)], DataOp.source [[]], DataOp.project [ColExpr.datum (Datum.int a2), ColExpr.datum (Datum.int b2)], DataOp.source [[]], DataOp.project [ColExpr.datum (Datum.int a3), ColExpr.datum (Datum.int b3)], DataOp.source [[]], DataOp.project [ColExpr.datum (Datum.int a4), ColExpr.datum (Datum.int b4)], DataOp.source [[]], DataOp.project [ColExpr.datum (Datum.int a5), ColExpr.datum (Datum.int b5)], DataOp.source [[]], DataOp.project [ColExpr.datum (Datum.int a6), ColExpr.datum (Datum.int b6)], DataOp.source [[]], DataOp.project [ColExpr.datum (Datum.int a7), ColExpr.datum (Datum.int b7)], DataOp.source [[]], DataOp.project [ColExpr.datum (Datum.int a8), ColExpr.datum (Datum.int b8)]], outputs := [[], [], [(3, 0)], [(0, 0)], [(5, 0)], [(0, 0)], [(7, 0)], [(0, 0)], [(9, 0)], [(0, 0)], [(11, 0)], [(0, 0)], [(13, 0)], [(0, 0)], [(15, 0)], [(0, 0)], [(17, 0)], [(0, 0)]], inboxes := [[], [], [], [], [], [], [], [], [], [], [], [], [], [], [], [], [], []], schedule := { order := [0, 1, 2, 3, 4, 5, 6, 7, 8, 9, 10, 11, 12, 13, 14, 15, 16, 17], members := [17, 16, 15, 14, 13, 12, 11, 10, 9, 8, 7, 6, 5, 4, 3, 2, 1, 0] }, outbox := [] } : DF) ([(⟨1, [(0, Datum.int 1)], []⟩, []), (⟨1, [], [(0, 2)]⟩, [⟨1, [], [(0, 3)]⟩, ⟨0, [], [(0, 3), (1, 2)]⟩])] : List (Pred × List Pred)) = some ({ operators := [DataOp.distinct [], DataOp.distinct [], DataOp.source [[]], DataOp.project [ColExpr.datum (Datum.int a1), ColExpr.datum (Datum.int b1)], DataOp.source [[]], DataOp.project [ColExpr.datum (Datum.int a2), ColExpr.datum (Datum.int b2)], DataOp.source [[]], DataOp.project [ColExpr.datum (Datum.int a3), ColExpr.datum (Datum.int b3)], DataOp.source [[]], DataOp.project [ColExpr.datum (Datum.int a4), ColExpr.datum (Datum.int b4)], DataOp.source [[]], DataOp.project [ColExpr.datum (Datum.int a5), ColExpr.datum (Datum.int b5)], DataOp.source [[]], DataOp.project [ColExpr.datum (Datum.int a6), ColExpr.datum (Datum.int b6)], DataOp.source [[]], DataOp.project [ColExpr.datum (Datum.int a7), ColExpr.datum (Datum.int b7)], DataOp.source [[]], DataOp.project [ColExpr.datum (Datum.int a8), ColExpr.datum (Datum.int b8)], DataOp.source [[]], DataOp.project [ColExpr.datum (Datum.int 1)], DataOp.select [], DataOp.select [], DataOp.source [[]], DataOp.join [] [] [] [], DataOp.join [0] [] [0] [], DataOp.project [ColExpr.var 2]], outputs := [[(21, 0)], [(20, 0)], [(3, 0)], [(0, 0)], [(5, 0)], [(0, 0)], [(7, 0)], [(0, 0)], [(9, 0)], [(0, 0)], [(11, 0)], [(0, 0)], [(13, 0)], [(0, 0)], [(15, 0)], [(0, 0)], [(17, 0)], [(0, 0)], [(19, 0)], [(1, 0)], [(23, 1)], [(24, 1)], [(23, 0)], [(24, 0)], [(25, 0)], [(1, 0)]], inboxes := [[], [], [], [], [], [], [], [], [], [], [], [], [], [], [], [], [], [], [], [], [], [], [], [], [], []], schedule := { order := [0, 1, 2, 3, 4, 5, 6, 7, 8, 9, 10, 11, 12, 13, 14, 15, 16, 17, 18, 19, 20, 21, 22, 23, 24, 25], members := [25, 24, 23, 22, 21, 20, 19, 18, 17, 16, 15, 14, 13, 12, 11, 10, 9, 8, 7, 6, 5, 4, 3, 2, 1, 0] }, outbox := [] } : DF) :=
    (compileClauses_cons_eq hc9).trans ((compileClauses_cons_eq hc10).trans rfl)
  have hrels : compileRels [(0, 0), (1, 1)] ({ operators := [DataOp.distinct [], DataOp.distinct []], outputs := [[], []], inboxes := [[], []], schedule := { order := [0, 1], members := [1, 0] }, outbox := [] } : DF) ([(0, { clauses := [({ name := 0, constants := [(0, Datum.int a1), (1, Datum.int b1)], vars := [] }, []), ({ name := 0, constants := [(0, Datum.int a2), (1, Datum.int b2)], vars := [] }, []), ({ name := 0, constants := [(0, Datum.int a3), (1, Datum.int b3)], vars := [] }, []), ({ name := 0, constants := [(0, Datum.int a4), (1, Datum.int b4)], vars := [] }, []), ({ name := 0, constants := [(0, Datum.int a5), (1, Datum.int b5)], vars := [] }, []), ({ name := 0, constants := [(0, Datum.int a6), (1, Datum.int b6)], vars := [] }, []), ({ name := 0, constants := [(0, Datum.int a7), (1, Datum.int b7)], vars := [] }, []), ({ name := 0, constants := [(0, Datum.int a8), (1, Datum.int b8)], vars := [] }, [])] }), (1, { clauses := [({ name := 1, constants := [(0, Datum.int 1)], vars := [] }, []), ({ name := 1, constants := [], vars := [(0, 2)] }, [{ name := 1, constants := [], vars := [(0, 3)] }, { name := 0, constants := [], vars := [(0, 3), (1, 2)] }])] })] : List (Nat × Relation)) = some ({ operators := [DataOp.distinct [], DataOp.distinct [], DataOp.source [[]], DataOp.project [ColExpr.datum (Datum.int a1), ColExpr.datum (Datum.int b1)], DataOp.source [[]], DataOp.project [ColExpr.datum (Datum.int a2), ColExpr.datum (Datum.int b2)], DataOp.source [[]], DataOp.project [ColExpr.datum (Datum.int a3), ColExpr.datum (Datum.int b3)], DataOp.source [[]], DataOp.project [ColExpr.datum (Datum.int a4), ColExpr.datum (Datum.int b4)], DataOp.source [[]], DataOp.project [ColExpr.datum (Datum.int a5), ColExpr.datum (Datum.int b5)], DataOp.source [[]], DataOp.project [ColExpr.datum (Datum.int a6), ColExpr.datum (Datum.int b6)], DataOp.source [[]], DataOp.project [ColExpr.datum (Datum.int a7), ColExpr.datum (Datum.int b7)], DataOp.source [[]], DataOp.project [ColExpr.datum (Datum.int a8), ColExpr.datum (Datum.int b8)], DataOp.source [[]], DataOp.project [ColExpr.datum (Datum.int 1)], DataOp.select [], DataOp.select [], DataOp.source [[]], DataOp.join [] [] [] [], DataOp.join [0] [] [0] [], DataOp.project [ColExpr.var 2]], outputs := [[(21, 0)], [(20, 0)], [(3, 0)], [(0, 0)], [(5, 0)], [(0, 0)], [(7, 0)], [(0, 0)], [(9, 0)], [(0, 0)], [(11, 0)], [(0, 0)], [(13, 0)], [(0, 0)], [(15, 0)], [(0, 0)], [(17, 0)], [(0, 0)], [(19, 0)], [(1, 0)], [(23, 1)], [(24, 1)], [(23, 0)], [(24, 0)], [(25, 0)], [(1, 0)]], inboxes := [[], [], [], [], [], [], [], [], [], [], [], [], [], [], [], [], [], [], [], [], [], [], [], [], [], []], schedule := { order := [0, 1, 2, 3, 4, 5, 6, 7, 8, 9, 10, 11, 12, 13, 14, 15, 16, 17, 18, 19, 20, 21, 22, 23, 24, 25], members := [25, 24, 23, 22, 21, 20, 19, 18, 17, 16, 15, 14, 13, 12, 11, 10, 9, 8, 7, 6, 5, 4, 3, 2, 1, 0] }, outbox := [] } : DF) :=
    (compileRels_cons_eq hcc0).trans ((compileRels_cons_eq hcc1).trans rfl)
  have hint : Program.intern ({ idents := [("edge", 0), ("reachable", 1), ("A", 2), ("B", 3)], relations := [(0, { clauses := [({ name := 0, constants := [(0, Datum.int a1), (1, Datum.int b1)], vars := [] }, []), ({ name := 0, constants := [(0, Datum.int a2), (1, Datum.int b2)], vars := [] }, []), ({ name := 0, constants := [(0, Datum.int a3), (1, Datum.int b3)], vars := [] }, []), ({ name := 0, constants := [(0, Datum.int a4), (1, Datum.int b4)], vars := [] }, []), ({ name := 0, constants := [(0, Datum.int a5), (1, Datum.int b5)], vars := [] }, []), ({ name := 0, constants := [(0, Datum.int a6), (1, Datum.int b6)], vars := [] }, []), ({ name := 0, constants := [(0, Datum.int a7), (1, Datum.int b7)], vars := [] }, []), ({ name := 0, constants := [(0, Datum.int a8), (1, Datum.int b8)], vars := [] }, [])] }), (1, { clauses := [({ name := 1, constants := [(0, Datum.int 1)], vars := [] }, []), ({ name := 1, constants := [], vars := [(0, 2)] }, [{ name := 1, constants := [], vars := [(0, 3)] }, { name := 0, constants := [], vars := [(0, 3), (1, 2)] }])] })] } : Program) "reachable" = (({ idents := [("edge", 0), ("reachable", 1), ("A", 2), ("B", 3)], relations := [(0, { clauses := [({ name := 0, constants := [(0, Datum.int a1), (1, Datum.int b1)], vars := [] }, []), ({ name := 0, constants := [(0, Datum.int a2), (1, Datum.int b2)], vars := [] }, []), ({ name := 0, constants := [(0, Datum.int a3), (1, Datum.int b3)], vars := [] }, []), ({ name := 0, constants := [(0, Datum.int a4), (1, Datum.int b4)], vars := [] }, []), ({ name := 0, constants := [(0, Datum.int a5), (1, Datum.int b5)], vars := [] }, []), ({ name := 0, constants := [(0, Datum.int a6), (1, Datum.int b6)], vars := [] }, []), ({ name := 0, constants := [(0, Datum.int a7), (1, Datum.int b7)], vars := [] }, []), ({ name := 0, constants := [(0, Datum.int a8), (1, Datum.int b8)], vars := [] }, [])] }), (1, { clauses := [({ name := 1, constants := [(0, Datum.int 1)], vars := [] }, []), ({ name := 1, constants := [], vars := [(0, 2)] }, [{ name := 1, constants := [], vars := [(0, 3)] }, { name := 0, constants := [], vars := [(0, 3), (1, 2)] }])] })] } : Program), 1) := by rfl
  have haddD : addDistincts (⟨[], [], [], ⟨[], []⟩, []⟩ : DF) ([(0, { clauses := [({ name := 0, constants := [(0, Datum.int a1), (1, Datum.int b1)], vars := [] }, []), ({ name := 0, constants := [(0, Datum.int a2), (1, Datum.int b2)], vars := [] }, []), ({ name := 0, constants := [(0, Datum.int a3), (1, Datum.int b3)], vars := [] }, []), ({ name := 0, constants := [(0, Datum.int a4), (1, Datum.int b4)], vars := [] }, []), ({ name := 0, constants := [(0, Datum.int a5), (1, Datum.int b5)], vars := [] }, []), ({ name := 0, constants := [(0, Datum.int a6), (1, Datum.int b6)], vars := [] }, []), ({ name := 0, constants := [(0, Datum.int a7), (1, Datum.int b7)], vars := [] }, []), ({ name := 0, constants := [(0, Datum.int a8), (1, Datum.int b8)], vars := [] }, [])] }), (1, { clauses := [({ name := 1, constants := [(0, Datum.int 1)], vars := [] }, []), ({ name := 1, constants := [], vars := [(0, 2)] }, [{ name := 1, constants := [], vars := [(0, 3)] }, { name := 0, constants := [], vars := [(0, 3), (1, 2)] }])] })] : List (Nat × Relation)) = (({ operators := [DataOp.distinct [], DataOp.distinct []], outputs := [[], []], inboxes := [[], []], schedule := { order := [0, 1], members := [1, 0] }, outbox := [] } : DF), [(0, 0), (1, 1)]) := by rfl
  have hedge : DF.addEdge ({ operators := [DataOp.distinct [], DataOp.distinct [], DataOp.source [[]], DataOp.project [ColExpr.datum (Datum.int a1), ColExpr.datum (Datum.int b1)], DataOp.source [[]], DataOp.project [ColExpr.datum (Datum.int a2), ColExpr.datum (Datum.int b2)], DataOp.source [[]], DataOp.project [ColExpr.datum (Datum.int a3), ColExpr.datum (Datum.int b3)], DataOp.source [[]], DataOp.project [ColExpr.datum (Datum.int a4), ColExpr.datum (Datum.int b4)], DataOp.source [[]], DataOp.project [ColExpr.datum (Datum.int a5), ColExpr.datum (Datum.int b5)], DataOp.source [[]], DataOp.project [ColExpr.datum (Datum.int a6), ColExpr.datum (Datum.int b6)], DataOp.source [[]], DataOp.project [ColExpr.datum (Datum.int a7), ColExpr.datum (Datum.int b7)], DataOp.source [[]], DataOp.project [ColExpr.datum (Datum.int a8), ColExpr.datum (Datum.int b8)], DataOp.source [[]], DataOp.project [ColExpr.datum (Datum.int 1)], DataOp.select [], DataOp.select [], DataOp.source [[]], DataOp.join [] [] [] [], DataOp.join [0] [] [0] [], DataOp.project [ColExpr.var 2]], outputs := [[(21, 0)], [(20, 0)], [(3, 0)], [(0, 0)], [(5, 0)], [(0, 0)], [(7, 0)], [(0, 0)], [(9, 0)], [(0, 0)], [(11, 0)], [(0, 0)], [(13, 0)], [(0, 0)], [(15, 0)], [(0, 0)], [(17, 0)], [(0, 0)], [(19, 0)], [(1, 0)], [(23, 1)], [(24, 1)], [(23, 0)], [(24, 0)], [(25, 0)], [(1, 0)]], inboxes := [[], [], [], [], [], [], [], [], [], [], [], [], [], [], [], [], [], [], [], [], [], [], [], [], [], []], schedule := { order := [0, 1, 2, 3, 4, 5, 6, 7, 8, 9, 10, 11, 12, 13, 14, 15, 16, 17, 18, 19, 20, 21, 22, 23, 24, 25], members := [25, 24, 23, 22, 21, 20, 19, 18, 17, 16, 15, 14, 13, 12, 11, 10, 9, 8, 7, 6, 5, 4, 3, 2, 1, 0] }, outbox := [] } : DF) 1 uMAX 0 = some ({ operators := [DataOp.distinct [], DataOp.distinct [], DataOp.source [[]], DataOp.project [ColExpr.datum (Datum.int a1), ColExpr.datum (Datum.int b1)], DataOp.source [[]], DataOp.project [ColExpr.datum (Datum.int a2), ColExpr.datum (Datum.int b2)], DataOp.source [[]], DataOp.project [ColExpr.datum (Datum.int a3), ColExpr.datum (Datum.int b3)], DataOp.source [[]], DataOp.project [ColExpr.datum (Datum.int a4), ColExpr.datum (Datum.int b4)], DataOp.source [[]], DataOp.project [ColExpr.datum (Datum.int a5), ColExpr.datum (Datum.int b5)], DataOp.source [[]], DataOp.project [ColExpr.datum (Datum.int a6), ColExpr.datum (Datum.int b6)], DataOp.source [[]], DataOp.project [ColExpr.datum (Datum.int a7), ColExpr.datum (Datum.int b7)], DataOp.source [[]], DataOp.project [ColExpr.datum (Datum.int a8), ColExpr.datum (Datum.int b8)], DataOp.source [[]], DataOp.project [ColExpr.datum (Datum.int 1)], DataOp.select [], DataOp.select [], DataOp.source [[]], DataOp.join [] [] [] [], DataOp.join [0] [] [0] [], DataOp.project [ColExpr.var 2]], outputs := [[(21, 0)], [(20, 0), (18446744073709551615, 0)], [(3, 0)], [(0, 0)], [(5, 0)], [(0, 0)], [(7, 0)], [(0, 0)], [(9, 0)], [(0, 0)], [(11, 0)], [(0, 0)], [(13, 0)], [(0, 0)], [(15, 0)], [(0, 0)], [(17, 0)], [(0, 0)], [(19, 0)], [(1, 0)], [(23, 1)], [(24, 1)], [(23, 0)], [(24, 0)], [(25, 0)], [(1, 0)]], inboxes := [[], [], [], [], [], [], [], [], [], [], [], [], [], [], [], [], [], [], [], [], [], [], [], [], [], []], schedule := { order := [0, 1, 2, 3, 4, 5, 6, 7, 8, 9, 10, 11, 12, 13, 14, 15, 16, 17, 18, 19, 20, 21, 22, 23, 24, 25], members := [25, 24, 23, 22, 21, 20, 19, 18, 17, 16, 15, 14, 13, 12, 11, 10, 9, 8, 7, 6, 5, 4, 3, 2, 1, 0] }, outbox := [] } : DF) := by rfl
  simp only [render, hint, DF.new, haddD, hrels, hedge, Option.some_bind]
  rfl

set_option maxHeartbeats 1600000 in
theorem c1_roundone (a1 b1 a2 b2 a3 b3 a4 b4 a5 b5 a6 b6 a7 b7 a8 b8 : Int) :
    runFuel 100 ({ operators := [DataOp.distinct [], DataOp.distinct [], DataOp.source [[]], DataOp.project [ColExpr.datum (Datum.int a1), ColExpr.datum (Datum.int b1)], DataOp.source [[]], DataOp.project [ColExpr.datum (Datum.int a2), ColExpr.datum (Datum.int b2)], DataOp.source [[]], DataOp.project [ColExpr.datum (Datum.int a3), ColExpr.datum (Datum.int b3)], DataOp.source [[]], DataOp.project [ColExpr.datum (Datum.int a4), ColExpr.datum (Datum.int b4)], DataOp.source [[]], DataOp.project [ColExpr.datum (Datum.int a5), ColExpr.datum (Datum.int b5)], DataOp.source [[]], DataOp.project [ColExpr.datum (Datum.int a6), ColExpr.datum (Datum.int b6)], DataOp.source [[]], DataOp.project [ColExpr.datum (Datum.int a7), ColExpr.datum (Datum.int b7)], DataOp.source [[]], DataOp.project [ColExpr.datum (Datum.int a8), ColExpr.datum (Datum.int b8)], DataOp.source [[]], DataOp.project [ColExpr.datum (Datum.int 1)], DataOp.select [], DataOp.select [], DataOp.source [[]], DataOp.join [] [] [] [], DataOp.join [0] [] [0] [], DataOp.project [ColExpr.var 2]], outputs := [[(21, 0)], [(20, 0), (18446744073709551615, 0)], [(3, 0)], [(0, 0)], [(5, 0)], [(0, 0)], [(7, 0)], [(0, 0)], [(9, 0)], [(0, 0)], [(11, 0)], [(0, 0)], [(13, 0)], [(0, 0)], [(15, 0)], [(0, 0)], [(17, 0)], [(0, 0)], [(19, 0)], [(1, 0)], [(23, 1)], [(24, 1)], [(23, 0)], [(24, 0)], [(25, 0)], [(1, 0)]], inboxes := [[], [], [], [], [], [], [], [], [], [], [], [], [], [], [], [], [], [], [], [], [], [], [], [], [], []], schedule := { order := [0, 1, 2, 3, 4, 5, 6, 7, 8, 9, 10, 11, 12, 13, 14, 15, 16, 17, 18, 19, 20, 21, 22, 23, 24, 25], members := [25, 24, 23, 22, 21, 20, 19, 18, 17, 16, 15, 14, 13, 12, 11, 10, 9, 8, 7, 6, 5, 4, 3, 2, 1, 0] }, outbox := [] } : DF) = runFuel 74 (C1State a1 b1 a2 b2 a3 b3 a4 b4 a5 b5 a6 b6 a7 b7 a8 b8 [] [] [] [] [] [([Datum.int a1, Datum.int b1], 0), ([Datum.int a2, Datum.int b2], 0), ([Datum.int a3, Datum.int b3], 0), ([Datum.int a4, Datum.int b4], 0), ([Datum.int a5, Datum.int b5], 0), ([Datum.int a6, Datum.int b6], 0), ([Datum.int a7, Datum.int b7], 0), ([Datum.int a8, Datum.int b8], 0)] [([Datum.int 1], 0)] [] [] [] [] [] ⟨[0, 1], [1, 0]⟩ []) := by
  have hs1 : DF.step ({ operators := [DataOp.distinct [], DataOp.distinct [], DataOp.source [[]], DataOp.project [ColExpr.datum (Datum.int a1), ColExpr.datum (Datum.int b1)], DataOp.source [[]], DataOp.project [ColExpr.datum (Datum.int a2), ColExpr.datum (Datum.int b2)], DataOp.source [[]], DataOp.project [ColExpr.datum (Datum.int a3), ColExpr.datum (Datum.int b3)], DataOp.source [[]], DataOp.project [ColExpr.datum (Datum.int a4), ColExpr.datum (Datum.int b4)], DataOp.source [[]], DataOp.project [ColExpr.datum (Datum.int a5), ColExpr.datum (Datum.int b5)], DataOp.source [[]], DataOp.project [ColExpr.datum (Datum.int a6), ColExpr.datum (Datum.int b6)], DataOp.source [[]], DataOp.project [ColExpr.datum (Datum.int a7), ColExpr.datum (Datum.int b7)], DataOp.source [[]], DataOp.project [ColExpr.datum (Datum.int a8), ColExpr.datum (Datum.int b8)], DataOp.source [[]], DataOp.project [ColExpr.datum (Datum.int 1)], DataOp.select [], DataOp.select [], DataOp.source [[]], DataOp.join [] [] [] [], DataOp.join [0] [] [0] [], DataOp.project [ColExpr.var 2]], outputs := [[(21, 0)], [(20, 0), (18446744073709551615, 0)], [(3, 0)], [(0, 0)], [(5, 0)], [(0, 0)], [(7, 0)], [(0, 0)], [(9, 0)], [(0, 0)], [(11, 0)], [(0, 0)], [(13, 0)], [(0, 0)], [(15, 0)], [(0, 0)], [(17, 0)], [(0, 0)], [(19, 0)], [(1, 0)], [(23, 1)], [(24, 1)], [(23, 0)], [(24, 0)], [(25, 0)], [(1, 0)]], inboxes := [[], [], [], [], [], [], [], [], [], [], [], [], [], [], [], [], [], [], [], [], [], [], [], [], [], []], schedule := { order := [0, 1, 2, 3, 4, 5, 6, 7, 8, 9, 10, 11, 12, 13, 14, 15, 16, 17, 18, 19, 20, 21, 22, 23, 24, 25], members := [25, 24, 23, 22, 21, 20, 19, 18, 17, 16, 15, 14, 13, 12, 11, 10, 9, 8, 7, 6, 5, 4, 3, 2, 1, 0] }, outbox := [] } : DF) = .ok (some ({ operators := [DataOp.distinct [], DataOp.distinct [], DataOp.source [[]], DataOp.project [ColExpr.datum (Datum.int a1), ColExpr.datum (Datum.int b1)], DataOp.source [[]], DataOp.project [ColExpr.datum (Datum.int a2), ColExpr.datum (Datum.int b2)], DataOp.source [[]], DataOp.project [ColExpr.datum (Datum.int a3), ColExpr.datum (Datum.int b3)], DataOp.source [[]], DataOp.project [ColExpr.datum (Datum.int a4), ColExpr.datum (Datum.int b4)], DataOp.source [[]], DataOp.project [ColExpr.datum (Datum.int a5), ColExpr.datum (Datum.int b5)], DataOp.source [[]], DataOp.project [ColExpr.datum (Datum.int a6), ColExpr.datum (Datum.int b6)], DataOp.source [[]], DataOp.project [ColExpr.datum (Datum.int a7), ColExpr.datum (Datum.int b7)], DataOp.source [[]], DataOp.project [ColExpr.datum (Datum.int a8), ColExpr.datum (Datum.int b8)], DataOp.source [[]], DataOp.project [ColExpr.datum (Datum.int 1)], DataOp.select [], DataOp.select [], DataOp.source [[]], DataOp.join [] [] [] [], DataOp.join [0] [] [0] [], DataOp.project [ColExpr.var 2]], outputs := [[(21, 0)], [(20, 0), (18446744073709551615, 0)], [(3, 0)], [(0, 0)], [(5, 0)], [(0, 0)], [(7, 0)], [(0, 0)], [(9, 0)], [(0, 0)], [(11, 0)], [(0, 0)], [(13, 0)], [(0, 0)], [(15, 0)], [(0, 0)], [(17, 0)], [(0, 0)], [(19, 0)], [(1, 0)], [(23, 1)], [(24, 1)], [(23, 0)], [(24, 0)], [(25, 0)], [(1, 0)]], inboxes := [[], [], [], [], [], [], [], [], [], [], [], [], [], [], [], [], [], [], [], [], [], [], [], [], [], []], schedule := { order := [1, 2, 3, 4, 5, 6, 7, 8, 9, 10, 11, 12, 13, 14, 15, 16, 17, 18, 19, 20, 21, 22, 23, 24, 25], members := [25, 24, 23, 22, 21, 20, 19, 18, 17, 16, 15, 14, 13, 12, 11, 10, 9, 8, 7, 6, 5, 4, 3, 2, 1] }, outbox := [] } : DF)) := by rfl
  have hs2 : DF.step ({ operators := [DataOp.distinct [], DataOp.distinct [], DataOp.source [[]], DataOp.project [ColExpr.datum (Datum.int a1), ColExpr.datum (Datum.int b1)], DataOp.source [[]], DataOp.project [ColExpr.datum (Datum.int a2), ColExpr.datum (Datum.int b2)], DataOp.source [[]], DataOp.project [ColExpr.datum (Datum.int a3), ColExpr.datum (Datum.int b3)], DataOp.source [[]], DataOp.project [ColExpr.datum (Datum.int a4), ColExpr.datum (Datum.int b4)], DataOp.source [[]], DataOp.project [ColExpr.datum (Datum.int a5), ColExpr.datum (Datum.int b5)], DataOp.source [[]], DataOp.project [ColExpr.datum (Datum.int a6), ColExpr.datum (Datum.int b6)], DataOp.source [[]], DataOp.project [ColExpr.datum (Datum.int a7), ColExpr.datum (Datum.int b7)], DataOp.source [[]], DataOp.project [ColExpr.datum (Datum.int a8), ColExpr.datum (Datum.int b8)], DataOp.source [[]], DataOp.project [ColExpr.datum (Datum.int 1)], DataOp.select [], DataOp.select [], DataOp.source [[]], DataOp.join [] [] [] [], DataOp.join [0] [] [0] [], DataOp.project [ColExpr.var 2]], outputs := [[(21, 0)], [(20, 0), (18446744073709551615, 0)], [(3, 0)], [(0, 0)], [(5, 0)], [(0, 0)], [(7, 0)], [(0, 0)], [(9, 0)], [(0, 0)], [(11, 0)], [(0, 0)], [(13, 0)], [(0, 0)], [(15, 0)], [(0, 0)], [(17, 0)], [(0, 0)], [(19, 0)], [(1, 0)], [(23, 1)], [(24, 1)], [(23, 0)], [(24, 0)], [(25, 0)], [(1, 0)]], inboxes := [[], [], [], [], [], [], [], [], [], [], [], [], [], [], [], [], [], [], [], [], [], [], [], [], [], []], schedule := { order := [1, 2, 3, 4, 5, 6, 7, 8, 9, 10, 11, 12, 13, 14, 15, 16, 17, 18, 19, 20, 21, 22, 23, 24, 25], members := [25, 24, 23, 22, 21, 20, 19, 18, 17, 16, 15, 14, 13, 12, 11, 10, 9, 8, 7, 6, 5, 4, 3, 2, 1] }, outbox := [] } : DF) = .ok (some ({ operators := [DataOp.distinct [], DataOp.distinct [], DataOp.source [[]], DataOp.project [ColExpr.datum (Datum.int a1), ColExpr.datum (Datum.int b1)], DataOp.source [[]], DataOp.project [ColExpr.datum (Datum.int a2), ColExpr.datum (Datum.int b2)], DataOp.source [[]], DataOp.project [ColExpr.datum (Datum.int a3), ColExpr.datum (Datum.int b3)], DataOp.source [[]], DataOp.project [ColExpr.datum (Datum.int a4), ColExpr.datum (Datum.int b4)], DataOp.source [[]], DataOp.project [ColExpr.datum (Datum.int a5), ColExpr.datum (Datum.int b5)], DataOp.source [[]], DataOp.project [ColExpr.datum (Datum.int a6), ColExpr.datum (Datum.int b6)], DataOp.source [[]], DataOp.project [ColExpr.datum (Datum.int a7), ColExpr.datum (Datum.int b7)], DataOp.source [[]], DataOp.project [ColExpr.datum (Datum.int a8), ColExpr.datum (Datum.int b8)], DataOp.source [[]], DataOp.project [ColExpr.datum (Datum.int 1)], DataOp.select [], DataOp.select [], DataOp.source [[]], DataOp.join [] [] [] [], DataOp.join [0] [] [0] [], DataOp.project [ColExpr.var 2]], outputs := [[(21, 0)], [(20, 0), (18446744073709551615, 0)], [(3, 0)], [(0, 0)], [(5, 0)], [(0, 0)], [(7, 0)], [(0, 0)], [(9, 0)], [(0, 0)], [(11, 0)], [(0, 0)], [(13, 0)], [(0, 0)], [(15, 0)], [(0, 0)], [(17, 0)], [(0, 0)], [(19, 0)], [(1, 0)], [(23, 1)], [(24, 1)], [(23, 0)], [(24, 0)], [(25, 0)], [(1, 0)]], inboxes := [[], [], [], [], [], [], [], [], [], [], [], [], [], [], [], [], [], [], [], [], [], [], [], [], [], []], schedule := { order := [2, 3, 4, 5, 6, 7, 8, 9, 10, 11, 12, 13, 14, 15, 16, 17, 18, 19, 20, 21, 22, 23, 24, 25], members := [25, 24, 23, 22, 21, 20, 19, 18, 17, 16, 15, 14, 13, 12, 11, 10, 9, 8, 7, 6, 5, 4, 3, 2] }, outbox := [] } : DF)) := by rfl
  have hs3 : DF.step ({ operators := [DataOp.distinct [], DataOp.distinct [], DataOp.source [[]], DataOp.project [ColExpr.datum (Datum.int a1), ColExpr.datum (Datum.int b1)], DataOp.source [[]], DataOp.project [ColExpr.datum (Datum.int a2), ColExpr.datum (Datum.int b2)], DataOp.source [[]], DataOp.project [ColExpr.datum (Datum.int a3), ColExpr.datum (Datum.int b3)], DataOp.source [[]], DataOp.project [ColExpr.datum (Datum.int a4), ColExpr.datum (Datum.int b4)], DataOp.source [[]], DataOp.project [ColExpr.datum (Datum.int a5), ColExpr.datum (Datum.int b5)], DataOp.source [[]], DataOp.project [ColExpr.datum (Datum.int a6), ColExpr.datum (Datum.int b6)], DataOp.source [[]], DataOp.project [ColExpr.datum (Datum.int a7), ColExpr.datum (Datum.int b7)], DataOp.source [[]], DataOp.project [ColExpr.datum (Datum.int a8), ColExpr.datum (Datum.int b8)], DataOp.source [[]], DataOp.project [ColExpr.datum (Datum.int 1)], DataOp.select [], DataOp.select [], DataOp.source [[]], DataOp.join [] [] [] [], DataOp.join [0] [] [0] [], DataOp.project [ColExpr.var 2]], outputs := [[(21, 0)], [(20, 0), (18446744073709551615, 0)], [(3, 0)], [(0, 0)], [(5, 0)], [(0, 0)], [(7, 0)], [(0, 0)], [(9, 0)], [(0, 0)], [(11, 0)], [(0, 0)], [(13, 0)], [(0, 0)], [(15, 0)], [(0, 0)], [(17, 0)], [(0, 0)], [(19, 0)], [(1, 0)], [(23, 1)], [(24, 1)], [(23, 0)], [(24, 0)], [(25, 0)], [(1, 0)]], inboxes := [[], [], [], [], [], [], [], [], [], [], [], [], [], [], [], [], [], [], [], [], [], [], [], [], [], []], schedule := { order := [2, 3, 4, 5, 6, 7, 8, 9, 10, 11, 12, 13, 14, 15, 16, 17, 18, 19, 20, 21, 22, 23, 24, 25], members := [25, 24, 23, 22, 21, 20, 19, 18, 17, 16, 15, 14, 13, 12, 11, 10, 9, 8, 7, 6, 5, 4, 3, 2] }, outbox := [] } : DF) = .ok (some ({ operators := [DataOp.distinct [], DataOp.distinct [], DataOp.source [], DataOp.project [ColExpr.datum (Datum.int a1), ColExpr.datum (Datum.int b1)], DataOp.source [[]], DataOp.project [ColExpr.datum (Datum.int a2), ColExpr.datum (Datum.int b2)], DataOp.source [[]], DataOp.project [ColExpr.datum (Datum.int a3), ColExpr.datum (Datum.int b3)], DataOp.source [[]], DataOp.project [ColExpr.datum (Datum.int a4), ColExpr.datum (Datum.int b4)], DataOp.source [[]], DataOp.project [ColExpr.datum (Datum.int a5), ColExpr.datum (Datum.int b5)], DataOp.source [[]], DataOp.project [ColExpr.datum (Datum.int a6), ColExpr.datum (Datum.int b6)], DataOp.source [[]], DataOp.project [ColExpr.datum (Datum.int a7), ColExpr.datum (Datum.int b7)], DataOp.source [[]], DataOp.project [ColExpr.datum (Datum.int a8), ColExpr.datum (Datum.int b8)], DataOp.source [[]], DataOp.project [ColExpr.datum (Datum.int 1)], DataOp.select [], DataOp.select [], DataOp.source [[]], DataOp.join [] [] [] [], DataOp.join [0] [] [0] [], DataOp.project [ColExpr.var 2]], outputs := [[(21, 0)], [(20, 0), (18446744073709551615, 0)], [(3, 0)], [(0, 0)], [(5, 0)], [(0, 0)], [(7, 0)], [(0, 0)], [(9, 0)], [(0, 0)], [(11, 0)], [(0, 0)], [(13, 0)], [(0, 0)], [(15, 0)], [(0, 0)], [(17, 0)], [(0, 0)], [(19, 0)], [(1, 0)], [(23, 1)], [(24, 1)], [(23, 0)], [(24, 0)], [(25, 0)], [(1, 0)]], inboxes := [[], [], [], [([], 0)], [], [], [], [], [], [], [], [], [], [], [], [], [], [], [], [], [], [], [], [], [], []], schedule := { order := [3, 4, 5, 6, 7, 8, 9, 10, 11, 12, 13, 14, 15, 16, 17, 18, 19, 20, 21, 22, 23, 24, 25], members := [25, 24, 23, 22, 21, 20, 19, 18, 17, 16, 15, 14, 13, 12, 11, 10, 9, 8, 7, 6, 5, 4, 3] }, outbox := [] } : DF)) := by rfl
  have hs4 : DF.step ({ operators := [DataOp.distinct [], DataOp.distinct [], DataOp.source [], DataOp.project [ColExpr.datum (Datum.int a1), ColExpr.datum (Datum.int b1)], DataOp.source [[]], DataOp.project [ColExpr.datum (Datum.int a2), ColExpr.datum (Datum.int b2)], DataOp.source [[]], DataOp.project [ColExpr.datum (Datum.int a3), ColExpr.datum (Datum.int b3)], DataOp.source [[]], DataOp.project [ColExpr.datum (Datum.int a4), ColExpr.datum (Datum.int b4)], DataOp.source [[]], DataOp.project [ColExpr.datum (Datum.int a5), ColExpr.datum (Datum.int b5)], DataOp.source [[]], DataOp.project [ColExpr.datum (Datum.int a6), ColExpr.datum (Datum.int b6)], DataOp.source [[]], DataOp.project [ColExpr.datum (Datum.int a7), ColExpr.datum (Datum.int b7)], DataOp.source [[]], DataOp.project [ColExpr.datum (Datum.int a8), ColExpr.datum (Datum.int b8)], DataOp.source [[]], DataOp.project [ColExpr.datum (Datum.int 1)], DataOp.select [], DataOp.select [], DataOp.source [[]], DataOp.join [] [] [] [], DataOp.join [0] [] [0] [], DataOp.project [ColExpr.var 2]], outputs := [[(21, 0)], [(20, 0), (18446744073709551615, 0)], [(3, 0)], [(0, 0)], [(5, 0)], [(0, 0)], [(7, 0)], [(0, 0)], [(9, 0)], [(0, 0)], [(11, 0)], [(0, 0)], [(13, 0)], [(0, 0)], [(15, 0)], [(0, 0)], [(17, 0)], [(0, 0)], [(19, 0)], [(1, 0)], [(23, 1)], [(24, 1)], [(23, 0)], [(24, 0)], [(25, 0)], [(1, 0)]], inboxes := [[], [], [], [([], 0)], [], [], [], [], [], [], [], [], [], [], [], [], [], [], [], [], [], [], [], [], [], []], schedule := { order := [3, 4, 5, 6, 7, 8, 9, 10, 11, 12, 13, 14, 15, 16, 17, 18, 19, 20, 21, 22, 23, 24, 25], members := [25, 24, 23, 22, 21, 20, 19, 18, 17, 16, 15, 14, 13, 12, 11, 10, 9, 8, 7, 6, 5, 4, 3] }, outbox := [] } : DF) = .ok (some ({ operators := [DataOp.distinct [], DataOp.distinct [], DataOp.source [], DataOp.project [ColExpr.datum (Datum.int a1), ColExpr.datum (Datum.int b1)], DataOp.source [[]], DataOp.project [ColExpr.datum (Datum.int a2), ColExpr.datum (Datum.int b2)], DataOp.source [[]], DataOp.project [ColExpr.datum (Datum.int a3), ColExpr.datum (Datum.int b3)], DataOp.source [[]], DataOp.project [ColExpr.datum (Datum.int a4), ColExpr.datum (Datum.int b4)], DataOp.source [[]], DataOp.project [ColExpr.datum (Datum.int a5), ColExpr.datum (Datum.int b5)], DataOp.source [[]], DataOp.project [ColExpr.datum (Datum.int a6), ColExpr.datum (Datum.int b6)], DataOp.source [[]], DataOp.project [ColExpr.datum (Datum.int a7), ColExpr.datum (Datum.int b7)], DataOp.source [[]], DataOp.project [ColExpr.datum (Datum.int a8), ColExpr.datum (Datum.int b8)], DataOp.source [[]], DataOp.project [ColExpr.datum (Datum.int 1)], DataOp.select [], DataOp.select [], DataOp.source [[]], DataOp.join [] [] [] [], DataOp.join [0] [] [0] [], DataOp.project [ColExpr.var 2]], outputs := [[(21, 0)], [(20, 0), (18446744073709551615, 0)], [(3, 0)], [(0, 0)], [(5, 0)], [(0, 0)], [(7, 0)], [(0, 0)], [(9, 0)], [(0, 0)], [(11, 0)], [(0, 0)], [(13, 0)], [(0, 0)], [(15, 0)], [(0, 0)], [(17, 0)], [(0, 0)], [(19, 0)], [(1, 0)], [(23, 1)], [(24, 1)], [(23, 0)], [(24, 0)], [(25, 0)], [(1, 0)]], inboxes := [[([Datum.int a1, Datum.int b1], 0)], [], [], [], [], [], [], [], [], [], [], [], [], [], [], [], [], [], [], [], [], [], [], [], [], []], schedule := { order := [4, 5, 6, 7, 8, 9, 10, 11, 12, 13, 14, 15, 16, 17, 18, 19, 20, 21, 22, 23, 24, 25, 0], members := [0, 25, 24, 23, 22, 21, 20, 19, 18, 17, 16, 15, 14, 13, 12, 11, 10, 9, 8, 7, 6, 5, 4] }, outbox := [] } : DF)) := by rfl
  have hs5 : DF.step ({ operators := [DataOp.distinct [], DataOp.distinct [], DataOp.source [], DataOp.project [ColExpr.datum (Datum.int a1), ColExpr.datum (Datum.int b1)], DataOp.source [[]], DataOp.project [ColExpr.datum (Datum.int a2), ColExpr.datum (Datum.int b2)], DataOp.source [[]], DataOp.project [ColExpr.datum (Datum.int a3), ColExpr.datum (Datum.int b3)], DataOp.source [[]], DataOp.project [ColExpr.datum (Datum.int a4), ColExpr.datum (Datum.int b4)], DataOp.source [[]], DataOp.project [ColExpr.datum (Datum.int a5), ColExpr.datum (Datum.int b5)], DataOp.source [[]], DataOp.project [ColExpr.datum (Datum.int a6), ColExpr.datum (Datum.int b6)], DataOp.source [[]], DataOp.project [ColExpr.datum (Datum.int a7), ColExpr.datum (Datum.int b7)], DataOp.source [[]], DataOp.project [ColExpr.datum (Datum.int a8), ColExpr.datum (Datum.int b8)], DataOp.source [[]], DataOp.project [ColExpr.datum (Datum.int 1)], DataOp.select [], DataOp.select [], DataOp.source [[]], DataOp.join [] [] [] [], DataOp.join [0] [] [0] [], DataOp.project [ColExpr.var 2]], outputs := [[(21, 0)], [(20, 0), (18446744073709551615, 0)], [(3, 0)], [(0, 0)], [(5, 0)], [(0, 0)], [(7, 0)], [(0, 0)], [(9, 0)], [(0, 0)], [(11, 0)], [(0, 0)], [(13, 0)], [(0, 0)], [(15, 0)], [(0, 0)], [(17, 0)], [(0, 0)], [(19, 0)], [(1, 0)], [(23, 1)], [(24, 1)], [(23, 0)], [(24, 0)], [(25, 0)], [(1, 0)]], inboxes := [[([Datum.int a1, Datum.int b1], 0)], [], [], [], [], [], [], [], [], [], [], [], [], [], [], [], [], [], [], [], [], [], [], [], [], []], schedule := { order := [4, 5, 6, 7, 8, 9, 10, 11, 12, 13, 14, 15, 16, 17, 18, 19, 20, 21, 22, 23, 24, 25, 0], members := [0, 25, 24, 23, 22, 21, 20, 19, 18, 17, 16, 15, 14, 13, 12, 11, 10, 9, 8, 7, 6, 5, 4] }, outbox := [] } : DF) = .ok (some ({ operators := [DataOp.distinct [], DataOp.distinct [], DataOp.source [], DataOp.project [ColExpr.datum (Datum.int a1), ColExpr.datum (Datum.int b1)], DataOp.source [], DataOp.project [ColExpr.datum (Datum.int a2), ColExpr.datum (Datum.int b2)], DataOp.source [[]], DataOp.project [ColExpr.datum (Datum.int a3), ColExpr.datum (Datum.int b3)], DataOp.source [[]], DataOp.project [ColExpr.datum (Datum.int a4), ColExpr.datum (Datum.int b4)], DataOp.source [[]], DataOp.project [ColExpr.datum (Datum.int a5), ColExpr.datum (Datum.int b5)], DataOp.source [[]], DataOp.project [ColExpr.datum (Datum.int a6), ColExpr.datum (Datum.int b6)], DataOp.source [[]], DataOp.project [ColExpr.datum (Datum.int a7), ColExpr.datum (Datum.int b7)], DataOp.source [[]], DataOp.project [ColExpr.datum (Datum.int a8), ColExpr.datum (Datum.int b8)], DataOp.source [[]], DataOp.project [ColExpr.datum (Datum.int 1)], DataOp.select [], DataOp.select [], DataOp.source [[]], DataOp.join [] [] [] [], DataOp.join [0] [] [0] [], DataOp.project [ColExpr.var 2]], outputs := [[(21, 0)], [(20, 0), (18446744073709551615, 0)], [(3, 0)], [(0, 0)], [(5, 0)], [(0, 0)], [(7, 0)], [(0, 0)], [(9, 0)], [(0, 0)], [(11, 0)], [(0, 0)], [(13, 0)], [(0, 0)], [(15, 0)], [(0, 0)], [(17, 0)], [(0, 0)], [(19, 0)], [(1, 0)], [(23, 1)], [(24, 1)], [(23, 0)], [(24, 0)], [(25, 0)], [(1, 0)]], inboxes := [[([Datum.int a1, Datum.int b1], 0)], [], [], [], [], [([], 0)], [], [], [], [], [], [], [], [], [], [], [], [], [], [], [], [], [], [], [], []], schedule := { order := [5, 6, 7, 8, 9, 10, 11, 12, 13, 14, 15, 16, 17, 18, 19, 20, 21, 22, 23, 24, 25, 0], members := [0, 25, 24, 23, 22, 21, 20, 19, 18, 17, 16, 15, 14, 13, 12, 11, 10, 9, 8, 7, 6, 5] }, outbox := [] } : DF)) := by rfl
  have hs6 : DF.step ({ operators := [DataOp.distinct [], DataOp.distinct [], DataOp.source [], DataOp.project [ColExpr.datum (Datum.int a1), ColExpr.datum (Datum.int b1)], DataOp.source [], DataOp.project [ColExpr.datum (Datum.int a2), ColExpr.datum (Datum.int b2)], DataOp.source [[]], DataOp.project [ColExpr.datum (Datum.int a3), ColExpr.datum (Datum.int b3)], DataOp.source [[]], DataOp.project [ColExpr.datum (Datum.int a4), ColExpr.datum (Datum.int b4)], DataOp.source [[]], DataOp.project [ColExpr.datum (Datum.int a5), ColExpr.datum (Datum.int b5)], DataOp.source [[]], DataOp.project [ColExpr.datum (Datum.int a6), ColExpr.datum (Datum.int b6)], DataOp.source [[]], DataOp.project [ColExpr.datum (Datum.int a7), ColExpr.datum (Datum.int b7)], DataOp.source [[]], DataOp.project [ColExpr.datum (Datum.int a8), ColExpr.datum (Datum.int b8)], DataOp.source [[]], DataOp.project [ColExpr.datum (Datum.int 1)], DataOp.select [], DataOp.select [], DataOp.source [[]], DataOp.join [] [] [] [], DataOp.join [0] [] [0] [], DataOp.project [ColExpr.var 2]], outputs := [[(21, 0)], [(20, 0), (18446744073709551615, 0)], [(3, 0)], [(0, 0)], [(5, 0)], [(0, 0)], [(7, 0)], [(0, 0)], [(9, 0)], [(0, 0)], [(11, 0)], [(0, 0)], [(13, 0)], [(0, 0)], [(15, 0)], [(0, 0)], [(17, 0)], [(0, 0)], [(19, 0)], [(1, 0)], [(23, 1)], [(24, 1)], [(23, 0)], [(24, 0)], [(25, 0)], [(1, 0)]], inboxes := [[([Datum.int a1, Datum.int b1], 0)], [], [], [], [], [([], 0)], [], [], [], [], [], [], [], [], [], [], [], [], [], [], [], [], [], [], [], []], schedule := { order := [5, 6, 7, 8, 9, 10, 11, 12, 13, 14, 15, 16, 17, 18, 19, 20, 21, 22, 23, 24, 25, 0], members := [0, 25, 24, 23, 22, 21, 20, 19, 18, 17, 16, 15, 14, 13, 12, 11, 10, 9, 8, 7, 6, 5] }, outbox := [] } : DF) = .ok (some ({ operators := [DataOp.distinct [], DataOp.distinct [], DataOp.source [], DataOp.project [ColExpr.datum (Datum.int a1), ColExpr.datum (Datum.int b1)], DataOp.source [], DataOp.project [ColExpr.datum (Datum.int a2), ColExpr.datum (Datum.int b2)], DataOp.source [[]], DataOp.project [ColExpr.datum (Datum.int a3), ColExpr.datum (Datum.int b3)], DataOp.source [[]], DataOp.project [ColExpr.datum (Datum.int a4), ColExpr.datum (Datum.int b4)], DataOp.source [[]], DataOp.project [ColExpr.datum (Datum.int a5), ColExpr.datum (Datum.int b5)], DataOp.source [[]], DataOp.project [ColExpr.datum (Datum.int a6), ColExpr.datum (Datum.int b6)], DataOp.source [[]], DataOp.project [ColExpr.datum (Datum.int a7), ColExpr.datum (Datum.int b7)], DataOp.source [[]], DataOp.project [ColExpr.datum (Datum.int a8), ColExpr.datum (Datum.int b8)], DataOp.source [[]], DataOp.project [ColExpr.datum (Datum.int 1)], DataOp.select [], DataOp.select [], DataOp.source [[]], DataOp.join [] [] [] [], DataOp.join [0] [] [0] [], DataOp.project [ColExpr.var 2]], outputs := [[(21, 0)], [(20, 0), (18446744073709551615, 0)], [(3, 0)], [(0, 0)], [(5, 0)], [(0, 0)], [(7, 0)], [(0, 0)], [(9, 0)], [(0, 0)], [(11, 0)], [(0, 0)], [(13, 0)], [(0, 0)], [(15, 0)], [(0, 0)], [(17, 0)], [(0, 0)], [(19, 0)], [(1, 0)], [(23, 1)], [(24, 1)], [(23, 0)], [(24, 0)], [(25, 0)], [(1, 0)]], inboxes := [[([Datum.int a1, Datum.int b1], 0), ([Datum.int a2, Datum.int b2], 0)], [], [], [], [], [], [], [], [], [], [], [], [], [], [], [], [], [], [], [], [], [], [], [], [], []], schedule := { order := [6, 7, 8, 9, 10, 11, 12, 13, 14, 15, 16, 17, 18, 19, 20, 21, 22, 23, 24, 25, 0], members := [0, 25, 24, 23, 22, 21, 20, 19, 18, 17, 16, 15, 14, 13, 12, 11, 10, 9, 8, 7, 6] }, outbox := [] } : DF)) := by rfl
  have hs7 : DF.step ({ operators := [DataOp.distinct [], DataOp.distinct [], DataOp.source [], DataOp.project [ColExpr.datum (Datum.int a1), ColExpr.datum (Datum.int b1)], DataOp.source [], DataOp.project [ColExpr.datum (Datum.int a2), ColExpr.datum (Datum.int b2)], DataOp.source [[]], DataOp.project [ColExpr.datum (Datum.int a3), ColExpr.datum (Datum.int b3)], DataOp.source [[]], DataOp.project [ColExpr.datum (Datum.int a4), ColExpr.datum (Datum.int b4)], DataOp.source [[]], DataOp.project [ColExpr.datum (Datum.int a5), ColExpr.datum (Datum.int b5)], DataOp.source [[]], DataOp.project [ColExpr.datum (Datum.int a6), ColExpr.datum (Datum.int b6)], DataOp.source [[]], DataOp.project [ColExpr.datum (Datum.int a7), ColExpr.datum (Datum.int b7)], DataOp.source [[]], DataOp.project [ColExpr.datum (Datum.int a8), ColExpr.datum (Datum.int b8)], DataOp.source [[]], DataOp.project [ColExpr.datum (Datum.int 1)], DataOp.select [], DataOp.select [], DataOp.source [[]], DataOp.join [] [] [] [], DataOp.join [0] [] [0] [], DataOp.project [ColExpr.var 2]], outputs := [[(21, 0)], [(20, 0), (18446744073709551615, 0)], [(3, 0)], [(0, 0)], [(5, 0)], [(0, 0)], [(7, 0)], [(0, 0)], [(9, 0)], [(0, 0)], [(11, 0)], [(0, 0)], [(13, 0)], [(0, 0)], [(15, 0)], [(0, 0)], [(17, 0)], [(0, 0)], [(19, 0)], [(1, 0)], [(23, 1)], [(24, 1)], [(23, 0)], [(24, 0)], [(25, 0)], [(1, 0)]], inboxes := [[([Datum.int a1, Datum.int b1], 0), ([Datum.int a2, Datum.int b2], 0)], [], [], [], [], [], [], [], [], [], [], [], [], [], [], [], [], [], [], [], [], [], [], [], [], []], schedule := { order := [6, 7, 8, 9, 10, 11, 12, 13, 14, 15, 16, 17, 18, 19, 20, 21, 22, 23, 24, 25, 0], members := [0, 25, 24, 23, 22, 21, 20, 19, 18, 17, 16, 15, 14, 13, 12, 11, 10, 9, 8, 7, 6] }, outbox := [] } : DF) = .ok (some ({ operators := [DataOp.distinct [], DataOp.distinct [], DataOp.source [], DataOp.project [ColExpr.datum (Datum.int a1), ColExpr.datum (Datum.int b1)], DataOp.source [], DataOp.project [ColExpr.datum (Datum.int a2), ColExpr.datum (Datum.int b2)], DataOp.source [], DataOp.project [ColExpr.datum (Datum.int a3), ColExpr.datum (Datum.int b3)], DataOp.source [[]], DataOp.project [ColExpr.datum (Datum.int a4), ColExpr.datum (Datum.int b4)], DataOp.source [[]], DataOp.project [ColExpr.datum (Datum.int a5), ColExpr.datum (Datum.int b5)], DataOp.source [[]], DataOp.project [ColExpr.datum (Datum.int a6), ColExpr.datum (Datum.int b6)], DataOp.source [[]], DataOp.project [ColExpr.datum (Datum.int a7), ColExpr.datum (Datum.int b7)], DataOp.source [[]], DataOp.project [ColExpr.datum (Datum.int a8), ColExpr.datum (Datum.int b8)], DataOp.source [[]], DataOp.project [ColExpr.datum (Datum.int 1)], DataOp.select [], DataOp.select [], DataOp.source [[]], DataOp.join [] [] [] [], DataOp.join [0] [] [0] [], DataOp.project [ColExpr.var 2]], outputs := [[(21, 0)], [(20, 0), (18446744073709551615, 0)], [(3, 0)], [(0, 0)], [(5, 0)], [(0, 0)], [(7, 0)], [(0, 0)], [(9, 0)], [(0, 0)], [(11, 0)], [(0, 0)], [(13, 0)], [(0, 0)], [(15, 0)], [(0, 0)], [(17, 0)], [(0, 0)], [(19, 0)], [(1, 0)], [(23, 1)], [(24, 1)], [(23, 0)], [(24, 0)], [(25, 0)], [(1, 0)]], inboxes := [[([Datum.int a1, Datum.int b1], 0), ([Datum.int a2, Datum.int b2], 0)], [], [], [], [], [], [], [([], 0)], [], [], [], [], [], [], [], [], [], [], [], [], [], [], [], [], [], []], schedule := { order := [7, 8, 9, 10, 11, 12, 13, 14, 15, 16, 17, 18, 19, 20, 21, 22, 23, 24, 25, 0], members := [0, 25, 24, 23, 22, 21, 20, 19, 18, 17, 16, 15, 14, 13, 12, 11, 10, 9, 8, 7] }, outbox := [] } : DF)) := by rfl
  have hs8 : DF.step ({ operators := [DataOp.distinct [], DataOp.distinct [], DataOp.source [], DataOp.project [ColExpr.datum (Datum.int a1), ColExpr.datum (Datum.int b1)], DataOp.source [], DataOp.project [ColExpr.datum (Datum.int a2), ColExpr.datum (Datum.int b2)], DataOp.source [], DataOp.project [ColExpr.datum (Datum.int a3), ColExpr.datum (Datum.int b3)], DataOp.source [[]], DataOp.project [ColExpr.datum (Datum.int a4), ColExpr.datum (Datum.int b4)], DataOp.source [[]], DataOp.project [ColExpr.datum (Datum.int a5), ColExpr.datum (Datum.int b5)], DataOp.source [[]], DataOp.project [ColExpr.datum (Datum.int a6), ColExpr.datum (Datum.int b6)], DataOp.source [[]], DataOp.project [ColExpr.datum (Datum.int a7), ColExpr.datum (Datum.int b7)], DataOp.source [[]], DataOp.project [ColExpr.datum (Datum.int a8), ColExpr.datum (Datum.int b8)], DataOp.source [[]], DataOp.project [ColExpr.datum (Datum.int 1)], DataOp.select [], DataOp.select [], DataOp.source [[]], DataOp.join [] [] [] [], DataOp.join [0] [] [0] [], DataOp.project [ColExpr.var 2]], outputs := [[(21, 0)], [(20, 0), (18446744073709551615, 0)], [(3, 0)], [(0, 0)], [(5, 0)], [(0, 0)], [(7, 0)], [(0, 0)], [(9, 0)], [(0, 0)], [(11, 0)], [(0, 0)], [(13, 0)], [(0, 0)], [(15, 0)], [(0, 0)], [(17, 0)], [(0, 0)], [(19, 0)], [(1, 0)], [(23, 1)], [(24, 1)], [(23, 0)], [(24, 0)], [(25, 0)], [(1, 0)]], inboxes := [[([Datum.int a1, Datum.int b1], 0), ([Datum.int a2, Datum.int b2], 0)], [], [], [], [], [], [], [([], 0)], [], [], [], [], [], [], [], [], [], [], [], [], [], [], [], [], [], []], schedule := { order := [7, 8, 9, 10, 11, 12, 13, 14, 15, 16, 17, 18, 19, 20, 21, 22, 23, 24, 25, 0], members := [0, 25, 24, 23, 22, 21, 20, 19, 18, 17, 16, 15, 14, 13, 12, 11, 10, 9, 8, 7] }, outbox := [] } : DF) = .ok (some ({ operators := [DataOp.distinct [], DataOp.distinct [], DataOp.source [], DataOp.project [ColExpr.datum (Datum.int a1), ColExpr.datum (Datum.int b1)], DataOp.source [], DataOp.project [ColExpr.datum (Datum.int a2), ColExpr.datum (Datum.int b2)], DataOp.source [], DataOp.project [ColExpr.datum (Datum.int a3), ColExpr.datum (Datum.int b3)], DataOp.source [[]], DataOp.project [ColExpr.datum (Datum.int a4), ColExpr.datum (Datum.int b4)], DataOp.source [[]], DataOp.project [ColExpr.datum (Datum.int a5), ColExpr.datum (Datum.int b5)], DataOp.source [[]], DataOp.project [ColExpr.datum (Datum.int a6), ColExpr.datum (Datum.int b6)], DataOp.source [[]], DataOp.project [ColExpr.datum (Datum.int a7), ColExpr.datum (Datum.int b7)], DataOp.source [[]], DataOp.project [ColExpr.datum (Datum.int a8), ColExpr.datum (Datum.int b8)], DataOp.source [[]], DataOp.project [ColExpr.datum (Datum.int 1)], DataOp.select [], DataOp.select [], DataOp.source [[]], DataOp.join [] [] [] [], DataOp.join [0] [] [0] [], DataOp.project [ColExpr.var 2]], outputs := [[(21, 0)], [(20, 0), (18446744073709551615, 0)], [(3, 0)], [(0, 0)], [(5, 0)], [(0, 0)], [(7, 0)], [(0, 0)], [(9, 0)], [(0, 0)], [(11, 0)], [(0, 0)], [(13, 0)], [(0, 0)], [(15, 0)], [(0, 0)], [(17, 0)], [(0, 0)], [(19, 0)], [(1, 0)], [(23, 1)], [(24, 1)], [(23, 0)], [(24, 0)], [(25, 0)], [(1, 0)]], inboxes := [[([Datum.int a1, Datum.int b1], 0), ([Datum.int a2, Datum.int b2], 0), ([Datum.int a3, Datum.int b3], 0)], [], [], [], [], [], [], [], [], [], [], [], [], [], [], [], [], [], [], [], [], [], [], [], [], []], schedule := { order := [8, 9, 10, 11, 12, 13, 14, 15, 16, 17, 18, 19, 20, 21, 22, 23, 24, 25, 0], members := [0, 25, 24, 23, 22, 21, 20, 19, 18, 17, 16, 15, 14, 13, 12, 11, 10, 9, 8] }, outbox := [] } : DF)) := by rfl
  have hs9 : DF.step ({ operators := [DataOp.distinct [], DataOp.distinct [], DataOp.source [], DataOp.project [ColExpr.datum (Datum.int a1), ColExpr.datum (Datum.int b1)], DataOp.source [], DataOp.project [ColExpr.datum (Datum.int a2), ColExpr.datum (Datum.int b2)], DataOp.source [], DataOp.project [ColExpr.datum (Datum.int a3), ColExpr.datum (Datum.int b3)], DataOp.source [[]], DataOp.project [ColExpr.datum (Datum.int a4), ColExpr.datum (Datum.int b4)], DataOp.source [[]], DataOp.project [ColExpr.datum (Datum.int a5), ColExpr.datum (Datum.int b5)], DataOp.source [[]], DataOp.project [ColExpr.datum (Datum.int a6), ColExpr.datum (Datum.int b6)], DataOp.source [[]], DataOp.project [ColExpr.datum (Datum.int a7), ColExpr.datum (Datum.int b7)], DataOp.source [[]], DataOp.project [ColExpr.datum (Datum.int a8), ColExpr.datum (Datum.int b8)], DataOp.source [[]], DataOp.project [ColExpr.datum (Datum.int 1)], DataOp.select [], DataOp.select [], DataOp.source [[]], DataOp.join [] [] [] [], DataOp.join [0] [] [0] [], DataOp.project [ColExpr.var 2]], outputs := [[(21, 0)], [(20, 0), (18446744073709551615, 0)], [(3, 0)], [(0, 0)], [(5, 0)], [(0, 0)], [(7, 0)], [(0, 0)], [(9, 0)], [(0, 0)], [(11, 0)], [(0, 0)], [(13, 0)], [(0, 0)], [(15, 0)], [(0, 0)], [(17, 0)], [(0, 0)], [(19, 0)], [(1, 0)], [(23, 1)], [(24, 1)], [(23, 0)], [(24, 0)], [(25, 0)], [(1, 0)]], inboxes := [[([Datum.int a1, Datum.int b1], 0), ([Datum.int a2, Datum.int b2], 0), ([Datum.int a3, Datum.int b3], 0)], [], [], [], [], [], [], [], [], [], [], [], [], [], [], [], [], [], [], [], [], [], [], [], [], []], schedule := { order := [8, 9, 10, 11, 12, 13, 14, 15, 16, 17, 18, 19, 20, 21, 22, 23, 24, 25, 0], members := [0, 25, 24, 23, 22, 21, 20, 19, 18, 17, 16, 15, 14, 13, 12, 11, 10, 9, 8] }, outbox := [] } : DF) = .ok (some ({ operators := [DataOp.distinct [], DataOp.distinct [], DataOp.source [], DataOp.project [ColExpr.datum (Datum.int a1), ColExpr.datum (Datum.int b1)], DataOp.source [], DataOp.project [ColExpr.datum (Datum.int a2), ColExpr.datum (Datum.int b2)], DataOp.source [], DataOp.project [ColExpr.datum (Datum.int a3), ColExpr.datum (Datum.int b3)], DataOp.source [], DataOp.project [ColExpr.datum (Datum.int a4), ColExpr.datum (Datum.int b4)], DataOp.source [[]], DataOp.project [ColExpr.datum (Datum.int a5), ColExpr.datum (Datum.int b5)], DataOp.source [[]], DataOp.project [ColExpr.datum (Datum.int a6), ColExpr.datum (Datum.int b6)], DataOp.source [[]], DataOp.project [ColExpr.datum (Datum.int a7), ColExpr.datum (Datum.int b7)], DataOp.source [[]], DataOp.project [ColExpr.datum (Datum.int a8), ColExpr.datum (Datum.int b8)], DataOp.source [[]], DataOp.project [ColExpr.datum (Datum.int 1)], DataOp.select [], DataOp.select [], DataOp.source [[]], DataOp.join [] [] [] [], DataOp.join [0] [] [0] [], DataOp.project [ColExpr.var 2]], outputs := [[(21, 0)], [(20, 0), (18446744073709551615, 0)], [(3, 0)], [(0, 0)], [(5, 0)], [(0, 0)], [(7, 0)], [(0, 0)], [(9, 0)], [(0, 0)], [(11, 0)], [(0, 0)], [(13, 0)], [(0, 0)], [(15, 0)], [(0, 0)], [(17, 0)], [(0, 0)], [(19, 0)], [(1, 0)], [(23, 1)], [(24, 1)], [(23, 0)], [(24, 0)], [(25, 0)], [(1, 0)]], inboxes := [[([Datum.int a1, Datum.int b1], 0), ([Datum.int a2, Datum.int b2], 0), ([Datum.int a3, Datum.int b3], 0)], [], [], [], [], [], [], [], [], [([], 0)], [], [], [], [], [], [], [], [], [], [], [], [], [], [], [], []], schedule := { order := [9, 10, 11, 12, 13, 14, 15, 16, 17, 18, 19, 20, 21, 22, 23, 24, 25, 0], members := [0, 25, 24, 23, 22, 21, 20, 19, 18, 17, 16, 15, 14, 13, 12, 11, 10, 9] }, outbox := [] } : DF)) := by rfl
  have hs10 : DF.step ({ operators := [DataOp.distinct [], DataOp.distinct [], DataOp.source [], DataOp.project [ColExpr.datum (Datum.int a1), ColExpr.datum (Datum.int b1)], DataOp.source [], DataOp.project [ColExpr.datum (Datum.int a2), ColExpr.datum (Datum.int b2)], DataOp.source [], DataOp.project [ColExpr.datum (Datum.int a3), ColExpr.datum (Datum.int b3)], DataOp.source [], DataOp.project [ColExpr.datum (Datum.int a4), ColExpr.datum (Datum.int b4)], DataOp.source [[]], DataOp.project [ColExpr.datum (Datum.int a5), ColExpr.datum (Datum.int b5)], DataOp.source [[]], DataOp.project [ColExpr.datum (Datum.int a6), ColExpr.datum (Datum.int b6)], DataOp.source [[]], DataOp.project [ColExpr.datum (Datum.int a7), ColExpr.datum (Datum.int b7)], DataOp.source [[]], DataOp.project [ColExpr.datum (Datum.int a8), ColExpr.datum (Datum.int b8)], DataOp.source [[]], DataOp.project [ColExpr.datum (Datum.int 1)], DataOp.select [], DataOp.select [], DataOp.source [[]], DataOp.join [] [] [] [], DataOp.join [0] [] [0] [], DataOp.project [ColExpr.var 2]], outputs := [[(21, 0)], [(20, 0), (18446744073709551615, 0)], [(3, 0)], [(0, 0)], [(5, 0)], [(0, 0)], [(7, 0)], [(0, 0)], [(9, 0)], [(0, 0)], [(11, 0)], [(0, 0)], [(13, 0)], [(0, 0)], [(15, 0)], [(0, 0)], [(17, 0)], [(0, 0)], [(19, 0)], [(1, 0)], [(23, 1)], [(24, 1)], [(23, 0)], [(24, 0)], [(25, 0)], [(1, 0)]], inboxes := [[([Datum.int a1, Datum.int b1], 0), ([Datum.int a2, Datum.int b2], 0), ([Datum.int a3, Datum.int b3], 0)], [], [], [], [], [], [], [], [], [([], 0)], [], [], [], [], [], [], [], [], [], [], [], [], [], [], [], []], schedule := { order := [9, 10, 11, 12, 13, 14, 15, 16, 17, 18, 19, 20, 21, 22, 23, 24, 25, 0], members := [0, 25, 24, 23, 22, 21, 20, 19, 18, 17, 16, 15, 14, 13, 12, 11, 10, 9] }, outbox := [] } : DF) = .ok (some ({ operators := [DataOp.distinct [], DataOp.distinct [], DataOp.source [], DataOp.project [ColExpr.datum (Datum.int a1), ColExpr.datum (Datum.int b1)], DataOp.source [], DataOp.project [ColExpr.datum (Datum.int a2), ColExpr.datum (Datum.int b2)], DataOp.source [], DataOp.project [ColExpr.datum (Datum.int a3), ColExpr.datum (Datum.int b3)], DataOp.source [], DataOp.project [ColExpr.datum (Datum.int a4), ColExpr.datum (Datum.int b4)], DataOp.source [[]], DataOp.project [ColExpr.datum (Datum.int a5), ColExpr.datum (Datum.int b5)], DataOp.source [[]], DataOp.project [ColExpr.datum (Datum.int a6), ColExpr.datum (Datum.int b6)], DataOp.source [[]], DataOp.project [ColExpr.datum (Datum.int a7), ColExpr.datum (Datum.int b7)], DataOp.source [[]], DataOp.project [ColExpr.datum (Datum.int a8), ColExpr.datum (Datum.int b8)], DataOp.source [[]], DataOp.project [ColExpr.datum (Datum.int 1)], DataOp.select [], DataOp.select [], DataOp.source [[]], DataOp.join [] [] [] [], DataOp.join [0] [] [0] [], DataOp.project [ColExpr.var 2]], outputs := [[(21, 0)], [(20, 0), (18446744073709551615, 0)], [(3, 0)], [(0, 0)], [(5, 0)], [(0, 0)], [(7, 0)], [(0, 0)], [(9, 0)], [(0, 0)], [(11, 0)], [(0, 0)], [(13, 0)], [(0, 0)], [(15, 0)], [(0, 0)], [(17, 0)], [(0, 0)], [(19, 0)], [(1, 0)], [(23, 1)], [(24, 1)], [(23, 0)], [(24, 0)], [(25, 0)], [(1, 0)]], inboxes := [[([Datum.int a1, Datum.int b1], 0), ([Datum.int a2, Datum.int b2], 0), ([Datum.int a3, Datum.int b3], 0), ([Datum.int a4, Datum.int b4], 0)], [], [], [], [], [], [], [], [], [], [], [], [], [], [], [], [], [], [], [], [], [], [], [], [], []], schedule := { order := [10, 11, 12, 13, 14, 15, 16, 17, 18, 19, 20, 21, 22, 23, 24, 25, 0], members := [0, 25, 24, 23, 22, 21, 20, 19, 18, 17, 16, 15, 14, 13, 12, 11, 10] }, outbox := [] } : DF)) := by rfl
  have hs11 : DF.step ({ operators := [DataOp.distinct [], DataOp.distinct [], DataOp.source [], DataOp.project [ColExpr.datum (Datum.int a1), ColExpr.datum (Datum.int b1)], DataOp.source [], DataOp.project [ColExpr.datum (Datum.int a2), ColExpr.datum (Datum.int b2)], DataOp.source [], DataOp.project [ColExpr.datum (Datum.int a3), ColExpr.datum (Datum.int b3)], DataOp.source [], DataOp.project [ColExpr.datum (Datum.int a4), ColExpr.datum (Datum.int b4)], DataOp.source [[]], DataOp.project [ColExpr.datum (Datum.int a5), ColExpr.datum (Datum.int b5)], DataOp.source [[]], DataOp.project [ColExpr.datum (Datum.int a6), ColExpr.datum (Datum.int b6)], DataOp.source [[]], DataOp.project [ColExpr.datum (Datum.int a7), ColExpr.datum (Datum.int b7)], DataOp.source [[]], DataOp.project [ColExpr.datum (Datum.int a8), ColExpr.datum (Datum.int b8)], DataOp.source [[]], DataOp.project [ColExpr.datum (Datum.int 1)], DataOp.select [], DataOp.select [], DataOp.source [[]], DataOp.join [] [] [] [], DataOp.join [0] [] [0] [], DataOp.project [ColExpr.var 2]], outputs := [[(21, 0)], [(20, 0), (18446744073709551615, 0)], [(3, 0)], [(0, 0)], [(5, 0)], [(0, 0)], [(7, 0)], [(0, 0)], [(9, 0)], [(0, 0)], [(11, 0)], [(0, 0)], [(13, 0)], [(0, 0)], [(15, 0)], [(0, 0)], [(17, 0)], [(0, 0)], [(19, 0)], [(1, 0)], [(23, 1)], [(24, 1)], [(23, 0)], [(24, 0)], [(25, 0)], [(1, 0)]], inboxes := [[([Datum.int a1, Datum.int b1], 0), ([Datum.int a2, Datum.int b2], 0), ([Datum.int a3, Datum.int b3], 0), ([Datum.int a4, Datum.int b4], 0)], [], [], [], [], [], [], [], [], [], [], [], [], [], [], [], [], [], [], [], [], [], [], [], [], []], schedule := { order := [10, 11, 12, 13, 14, 15, 16, 17, 18, 19, 20, 21, 22, 23, 24, 25, 0], members := [0, 25, 24, 23, 22, 21, 20, 19, 18, 17, 16, 15, 14, 13, 12, 11, 10] }, outbox := [] } : DF) = .ok (some ({ operators := [DataOp.distinct [], DataOp.distinct [], DataOp.source [], DataOp.project [ColExpr.datum (Datum.int a1), ColExpr.datum (Datum.int b1)], DataOp.source [], DataOp.project [ColExpr.datum (Datum.int a2), ColExpr.datum (Datum.int b2)], DataOp.source [], DataOp.project [ColExpr.datum (Datum.int a3), ColExpr.datum (Datum.int b3)], DataOp.source [], DataOp.project [ColExpr.datum (Datum.int a4), ColExpr.datum (Datum.int b4)], DataOp.source [], DataOp.project [ColExpr.datum (Datum.int a5), ColExpr.datum (Datum.int b5)], DataOp.source [[]], DataOp.project [ColExpr.datum (Datum.int a6), ColExpr.datum (Datum.int b6)], DataOp.source [[]], DataOp.project [ColExpr.datum (Datum.int a7), ColExpr.datum (Datum.int b7)], DataOp.source [[]], DataOp.project [ColExpr.datum (Datum.int a8), ColExpr.datum (Datum.int b8)], DataOp.source [[]], DataOp.project [ColExpr.datum (Datum.int 1)], DataOp.select [], DataOp.select [], DataOp.source [[]], DataOp.join [] [] [] [], DataOp.join [0] [] [0] [], DataOp.project [ColExpr.var 2]], outputs := [[(21, 0)], [(20, 0), (18446744073709551615, 0)], [(3, 0)], [(0, 0)], [(5, 0)], [(0, 0)], [(7, 0)], [(0, 0)], [(9, 0)], [(0, 0)], [(11, 0)], [(0, 0)], [(13, 0)], [(0, 0)], [(15, 0)], [(0, 0)], [(17, 0)], [(0, 0)], [(19, 0)], [(1, 0)], [(23, 1)], [(24, 1)], [(23, 0)], [(24, 0)], [(25, 0)], [(1, 0)]], inboxes := [[([Datum.int a1, Datum.int b1], 0), ([Datum.int a2, Datum.int b2], 0), ([Datum.int a3, Datum.int b3], 0), ([Datum.int a4, Datum.int b4], 0)], [], [], [], [], [], [], [], [], [], [], [([], 0)], [], [], [], [], [], [], [], [], [], [], [], [], [], []], schedule := { order := [11, 12, 13, 14, 15, 16, 17, 18, 19, 20, 21, 22, 23, 24, 25, 0], members := [0, 25, 24, 23, 22, 21, 20, 19, 18, 17, 16, 15, 14, 13, 12, 11] }, outbox := [] } : DF)) := by rfl
  have hs12 : DF.step ({ operators := [DataOp.distinct [], DataOp.distinct [], DataOp.source [], DataOp.project [ColExpr.datum (Datum.int a1), ColExpr.datum (Datum.int b1)], DataOp.source [], DataOp.project [ColExpr.datum (Datum.int a2), ColExpr.datum (Datum.int b2)], DataOp.source [], DataOp.project [ColExpr.datum (Datum.int a3), ColExpr.datum (Datum.int b3)], DataOp.source [], DataOp.project [ColExpr.datum (Datum.int a4), ColExpr.datum (Datum.int b4)], DataOp.source [], DataOp.project [ColExpr.datum (Datum.int a5), ColExpr.datum (Datum.int b5)], DataOp.source [[]], DataOp.project [ColExpr.datum (Datum.int a6), ColExpr.datum (Datum.int b6)], DataOp.source [[]], DataOp.project [ColExpr.datum (Datum.int a7), ColExpr.datum (Datum.int b7)], DataOp.source [[]], DataOp.project [ColExpr.datum (Datum.int a8), ColExpr.datum (Datum.int b8)], DataOp.source [[]], DataOp.project [ColExpr.datum (Datum.int 1)], DataOp.select [], DataOp.select [], DataOp.source [[]], DataOp.join [] [] [] [], DataOp.join [0] [] [0] [], DataOp.project [ColExpr.var 2]], outputs := [[(21, 0)], [(20, 0), (18446744073709551615, 0)], [(3, 0)], [(0, 0)], [(5, 0)], [(0, 0)], [(7, 0)], [(0, 0)], [(9, 0)], [(0, 0)], [(11, 0)], [(0, 0)], [(13, 0)], [(0, 0)], [(15, 0)], [(0, 0)], [(17, 0)], [(0, 0)], [(19, 0)], [(1, 0)], [(23, 1)], [(24, 1)], [(23, 0)], [(24, 0)], [(25, 0)], [(1, 0)]], inboxes := [[([Datum.int a1, Datum.int b1], 0), ([Datum.int a2, Datum.int b2], 0), ([Datum.int a3, Datum.int b3], 0), ([Datum.int a4, Datum.int b4], 0)], [], [], [], [], [], [], [], [], [], [], [([], 0)], [], [], [], [], [], [], [], [], [], [], [], [], [], []], schedule := { order := [11, 12, 13, 14, 15, 16, 17, 18, 19, 20, 21, 22, 23, 24, 25, 0], members := [0, 25, 24, 23, 22, 21, 20, 19, 18, 17, 16, 15, 14, 13, 12, 11] }, outbox := [] } : DF) = .ok (some ({ operators := [DataOp.distinct [], DataOp.distinct [], DataOp.source [], DataOp.project [ColExpr.datum (Datum.int a1), ColExpr.datum (Datum.int b1)], DataOp.source [], DataOp.project [ColExpr.datum (Datum.int a2), ColExpr.datum (Datum.int b2)], DataOp.source [], DataOp.project [ColExpr.datum (Datum.int a3), ColExpr.datum (Datum.int b3)], DataOp.source [], DataOp.project [ColExpr.datum (Datum.int a4), ColExpr.datum (Datum.int b4)], DataOp.source [], DataOp.project [ColExpr.datum (Datum.int a5), ColExpr.datum (Datum.int b5)], DataOp.source [[]], DataOp.project [ColExpr.datum (Datum.int a6), ColExpr.datum (Datum.int b6)], DataOp.source [[]], DataOp.project [ColExpr.datum (Datum.int a7), ColExpr.datum (Datum.int b7)], DataOp.source [[]], DataOp.project [ColExpr.datum (Datum.int a8), ColExpr.datum (Datum.int b8)], DataOp.source [[]], DataOp.project [ColExpr.datum (Datum.int 1)], DataOp.select [], DataOp.select [], DataOp.source [[]], DataOp.join [] [] [] [], DataOp.join [0] [] [0] [], DataOp.project [ColExpr.var 2]], outputs := [[(21, 0)], [(20, 0), (18446744073709551615, 0)], [(3, 0)], [(0, 0)], [(5, 0)], [(0, 0)], [(7, 0)], [(0, 0)], [(9, 0)], [(0, 0)], [(11, 0)], [(0, 0)], [(13, 0)], [(0, 0)], [(15, 0)], [(0, 0)], [(17, 0)], [(0, 0)], [(19, 0)], [(1, 0)], [(23, 1)], [(24, 1)], [(23, 0)], [(24, 0)], [(25, 0)], [(1, 0)]], inboxes := [[([Datum.int a1, Datum.int b1], 0), ([Datum.int a2, Datum.int b2], 0), ([Datum.int a3, Datum.int b3], 0), ([Datum.int a4, Datum.int b4], 0), ([Datum.int a5, Datum.int b5], 0)], [], [], [], [], [], [], [], [], [], [], [], [], [], [], [], [], [], [], [], [], [], [], [], [], []], schedule := { order := [12, 13, 14, 15, 16, 17, 18, 19, 20, 21, 22, 23, 24, 25, 0], members := [0, 25, 24, 23, 22, 21, 20, 19, 18, 17, 16, 15, 14, 13, 12] }, outbox := [] } : DF)) := by rfl
  have hs13 : DF.step ({ operators := [DataOp.distinct [], DataOp.distinct [], DataOp.source [], DataOp.project [ColExpr.datum (Datum.int a1), ColExpr.datum (Datum.int b1)], DataOp.source [], DataOp.project [ColExpr.datum (Datum.int a2), ColExpr.datum (Datum.int b2)], DataOp.source [], DataOp.project [ColExpr.datum (Datum.int a3), ColExpr.datum (Datum.int b3)], DataOp.source [], DataOp.project [ColExpr.datum (Datum.int a4), ColExpr.datum (Datum.int b4)], DataOp.source [], DataOp.project [ColExpr.datum (Datum.int a5), ColExpr.datum (Datum.int b5)], DataOp.source [[]], DataOp.project [ColExpr.datum (Datum.int a6), ColExpr.datum (Datum.int b6)], DataOp.source [[]], DataOp.project [ColExpr.datum (Datum.int a7), ColExpr.datum (Datum.int b7)], DataOp.source [[]], DataOp.project [ColExpr.datum (Datum.int a8), ColExpr.datum (Datum.int b8)], DataOp.source [[]], DataOp.project [ColExpr.datum (Datum.int 1)], DataOp.select [], DataOp.select [], DataOp.source [[]], DataOp.join [] [] [] [], DataOp.join [0] [] [0] [], DataOp.project [ColExpr.var 2]], outputs := [[(21, 0)], [(20, 0), (18446744073709551615, 0)], [(3, 0)], [(0, 0)], [(5, 0)], [(0, 0)], [(7, 0)], [(0, 0)], [(9, 0)], [(0, 0)], [(11, 0)], [(0, 0)], [(13, 0)], [(0, 0)], [(15, 0)], [(0, 0)], [(17, 0)], [(0, 0)], [(19, 0)], [(1, 0)], [(23, 1)], [(24, 1)], [(23, 0)], [(24, 0)], [(25, 0)], [(1, 0)]], inboxes := [[([Datum.int a1, Datum.int b1], 0), ([Datum.int a2, Datum.int b2], 0), ([Datum.int a3, Datum.int b3], 0), ([Datum.int a4, Datum.int b4], 0), ([Datum.int a5, Datum.int b5], 0)], [], [], [], [], [], [], [], [], [], [], [], [], [], [], [], [], [], [], [], [], [], [], [], [], []], schedule := { order := [12, 13, 14, 15, 16, 17, 18, 19, 20, 21, 22, 23, 24, 25, 0], members := [0, 25, 24, 23, 22, 21, 20, 19, 18, 17, 16, 15, 14, 13, 12] }, outbox := [] } : DF) = .ok (some ({ operators := [DataOp.distinct [], DataOp.distinct [], DataOp.source [], DataOp.project [ColExpr.datum (Datum.int a1), ColExpr.datum (Datum.int b1)], DataOp.source [], DataOp.project [ColExpr.datum (Datum.int a2), ColExpr.datum (Datum.int b2)], DataOp.source [], DataOp.project [ColExpr.datum (Datum.int a3), ColExpr.datum (Datum.int b3)], DataOp.source [], DataOp.project [ColExpr.datum (Datum.int a4), ColExpr.datum (Datum.int b4)], DataOp.source [], DataOp.project [ColExpr.datum (Datum.int a5), ColExpr.datum (Datum.int b5)], DataOp.source [], DataOp.project [ColExpr.datum (Datum.int a6), ColExpr.datum (Datum.int b6)], DataOp.source [[]], DataOp.project [ColExpr.datum (Datum.int a7), ColExpr.datum (Datum.int b7)], DataOp.source [[]], DataOp.project [ColExpr.datum (Datum.int a8), ColExpr.datum (Datum.int b8)], DataOp.source [[]], DataOp.project [ColExpr.datum (Datum.int 1)], DataOp.select [], DataOp.select [], DataOp.source [[]], DataOp.join [] [] [] [], DataOp.join [0] [] [0] [], DataOp.project [ColExpr.var 2]], outputs := [[(21, 0)], [(20, 0), (18446744073709551615, 0)], [(3, 0)], [(0, 0)], [(5, 0)], [(0, 0)], [(7, 0)], [(0, 0)], [(9, 0)], [(0, 0)], [(11, 0)], [(0, 0)], [(13, 0)], [(0, 0)], [(15, 0)], [(0, 0)], [(17, 0)], [(0, 0)], [(19, 0)], [(1, 0)], [(23, 1)], [(24, 1)], [(23, 0)], [(24, 0)], [(25, 0)], [(1, 0)]], inboxes := [[([Datum.int a1, Datum.int b1], 0), ([Datum.int a2, Datum.int b2], 0), ([Datum.int a3, Datum.int b3], 0), ([Datum.int a4, Datum.int b4], 0), ([Datum.int a5, Datum.int b5], 0)], [], [], [], [], [], [], [], [], [], [], [], [], [([], 0)], [], [], [], [], [], [], [], [], [], [], [], []], schedule := { order := [13, 14, 15, 16, 17, 18, 19, 20, 21, 22, 23, 24, 25, 0], members := [0, 25, 24, 23, 22, 21, 20, 19, 18, 17, 16, 15, 14, 13] }, outbox := [] } : DF)) := by rfl
  have hs14 : DF.step ({ operators := [DataOp.distinct [], DataOp.distinct [], DataOp.source [], DataOp.project [ColExpr.datum (Datum.int a1), ColExpr.datum (Datum.int b1)], DataOp.source [], DataOp.project [ColExpr.datum (Datum.int a2), ColExpr.datum (Datum.int b2)], DataOp.source [], DataOp.project [ColExpr.datum (Datum.int a3), ColExpr.datum (Datum.int b3)], DataOp.source [], DataOp.project [ColExpr.datum (Datum.int a4), ColExpr.datum (Datum.int b4)], DataOp.source [], DataOp.project [ColExpr.datum (Datum.int a5), ColExpr.datum (Datum.int b5)], DataOp.source [], DataOp.project [ColExpr.datum (Datum.int a6), ColExpr.datum (Datum.int b6)], DataOp.source [[]], DataOp.project [ColExpr.datum (Datum.int a7), ColExpr.datum (Datum.int b7)], DataOp.source [[]], DataOp.project [ColExpr.datum (Datum.int a8), ColExpr.datum (Datum.int b8)], DataOp.source [[]], DataOp.project [ColExpr.datum (Datum.int 1)], DataOp.select [], DataOp.select [], DataOp.source [[]], DataOp.join [] [] [] [], DataOp.join [0] [] [0] [], DataOp.project [ColExpr.var 2]], outputs := [[(21, 0)], [(20, 0), (18446744073709551615, 0)], [(3, 0)], [(0, 0)], [(5, 0)], [(0, 0)], [(7, 0)], [(0, 0)], [(9, 0)], [(0, 0)], [(11, 0)], [(0, 0)], [(13, 0)], [(0, 0)], [(15, 0)], [(0, 0)], [(17, 0)], [(0, 0)], [(19, 0)], [(1, 0)], [(23, 1)], [(24, 1)], [(23, 0)], [(24, 0)], [(25, 0)], [(1, 0)]], inboxes := [[([Datum.int a1, Datum.int b1], 0), ([Datum.int a2, Datum.int b2], 0), ([Datum.int a3, Datum.int b3], 0), ([Datum.int a4, Datum.int b4], 0), ([Datum.int a5, Datum.int b5], 0)], [], [], [], [], [], [], [], [], [], [], [], [], [([], 0)], [], [], [], [], [], [], [], [], [], [], [], []], schedule := { order := [13, 14, 15, 16, 17, 18, 19, 20, 21, 22, 23, 24, 25, 0], members := [0, 25, 24, 23, 22, 21, 20, 19, 18, 17, 16, 15, 14, 13] }, outbox := [] } : DF) = .ok (some ({ operators := [DataOp.distinct [], DataOp.distinct [], DataOp.source [], DataOp.project [ColExpr.datum (Datum.int a1), ColExpr.datum (Datum.int b1)], DataOp.source [], DataOp.project [ColExpr.datum (Datum.int a2), ColExpr.datum (Datum.int b2)], DataOp.source [], DataOp.project [ColExpr.datum (Datum.int a3), ColExpr.datum (Datum.int b3)], DataOp.source [], DataOp.project [ColExpr.datum (Datum.int a4), ColExpr.datum (Datum.int b4)], DataOp.source [], DataOp.project [ColExpr.datum (Datum.int a5), ColExpr.datum (Datum.int b5)], DataOp.source [], DataOp.project [ColExpr.datum (Datum.int a6), ColExpr.datum (Datum.int b6)], DataOp.source [[]], DataOp.project [ColExpr.datum (Datum.int a7), ColExpr.datum (Datum.int b7)], DataOp.source [[]], DataOp.project [ColExpr.datum (Datum.int a8), ColExpr.datum (Datum.int b8)], DataOp.source [[]], DataOp.project [ColExpr.datum (Datum.int 1)], DataOp.select [], DataOp.select [], DataOp.source [[]], DataOp.join [] [] [] [], DataOp.join [0] [] [0] [], DataOp.project [ColExpr.var 2]], outputs := [[(21, 0)], [(20, 0), (18446744073709551615, 0)], [(3, 0)], [(0, 0)], [(5, 0)], [(0, 0)], [(7, 0)], [(0, 0)], [(9, 0)], [(0, 0)], [(11, 0)], [(0, 0)], [(13, 0)], [(0, 0)], [(15, 0)], [(0, 0)], [(17, 0)], [(0, 0)], [(19, 0)], [(1, 0)], [(23, 1)], [(24, 1)], [(23, 0)], [(24, 0)], [(25, 0)], [(1, 0)]], inboxes := [[([Datum.int a1, Datum.int b1], 0), ([Datum.int a2, Datum.int b2], 0), ([Datum.int a3, Datum.int b3], 0), ([Datum.int a4, Datum.int b4], 0), ([Datum.int a5, Datum.int b5], 0), ([Datum.int a6, Datum.int b6], 0)], [], [], [], [], [], [], [], [], [], [], [], [], [], [], [], [], [], [], [], [], [], [], [], [], []], schedule := { order := [14, 15, 16, 17, 18, 19, 20, 21, 22, 23, 24, 25, 0], members := [0, 25, 24, 23, 22, 21, 20, 19, 18, 17, 16, 15, 14] }, outbox := [] } : DF)) := by rfl
  have hs15 : DF.step ({ operators := [DataOp.distinct [], DataOp.distinct [], DataOp.source [], DataOp.project [ColExpr.datum (Datum.int a1), ColExpr.datum (Datum.int b1)], DataOp.source [], DataOp.project [ColExpr.datum (Datum.int a2), ColExpr.datum (Datum.int b2)], DataOp.source [], DataOp.project [ColExpr.datum (Datum.int a3), ColExpr.datum (Datum.int b3)], DataOp.source [], DataOp.project [ColExpr.datum (Datum.int a4), ColExpr.datum (Datum.int b4)], DataOp.source [], DataOp.project [ColExpr.datum (Datum.int a5), ColExpr.datum (Datum.int b5)], DataOp.source [], DataOp.project [ColExpr.datum (Datum.int a6), ColExpr.datum (Datum.int b6)], DataOp.source [[]], DataOp.project [ColExpr.datum (Datum.int a7), ColExpr.datum (Datum.int b7)], DataOp.source [[]], DataOp.project [ColExpr.datum (Datum.int a8), ColExpr.datum (Datum.int b8)], DataOp.source [[]], DataOp.project [ColExpr.datum (Datum.int 1)], DataOp.select [], DataOp.select [], DataOp.source [[]], DataOp.join [] [] [] [], DataOp.join [0] [] [0] [], DataOp.project [ColExpr.var 2]], outputs := [[(21, 0)], [(20, 0), (18446744073709551615, 0)], [(3, 0)], [(0, 0)], [(5, 0)], [(0, 0)], [(7, 0)], [(0, 0)], [(9, 0)], [(0, 0)], [(11, 0)], [(0, 0)], [(13, 0)], [(0, 0)], [(15, 0)], [(0, 0)], [(17, 0)], [(0, 0)], [(19, 0)], [(1, 0)], [(23, 1)], [(24, 1)], [(23, 0)], [(24, 0)], [(25, 0)], [(1, 0)]], inboxes := [[([Datum.int a1, Datum.int b1], 0), ([Datum.int a2, Datum.int b2], 0), ([Datum.int a3, Datum.int b3], 0), ([Datum.int a4, Datum.int b4], 0), ([Datum.int a5, Datum.int b5], 0), ([Datum.int a6, Datum.int b6], 0)], [], [], [], [], [], [], [], [], [], [], [], [], [], [], [], [], [], [], [], [], [], [], [], [], []], schedule := { order := [14, 15, 16, 17, 18, 19, 20, 21, 22, 23, 24, 25, 0], members := [0, 25, 24, 23, 22, 21, 20, 19, 18, 17, 16, 15, 14] }, outbox := [] } : DF) = .ok (some ({ operators := [DataOp.distinct [], DataOp.distinct [], DataOp.source [], DataOp.project [ColExpr.datum (Datum.int a1), ColExpr.datum (Datum.int b1)], DataOp.source [], DataOp.project [ColExpr.datum (Datum.int a2), ColExpr.datum (Datum.int b2)], DataOp.source [], DataOp.project [ColExpr.datum (Datum.int a3), ColExpr.datum (Datum.int b3)], DataOp.source [], DataOp.project [ColExpr.datum (Datum.int a4), ColExpr.datum (Datum.int b4)], DataOp.source [], DataOp.project [ColExpr.datum (Datum.int a5), ColExpr.datum (Datum.int b5)], DataOp.source [], DataOp.project [ColExpr.datum (Datum.int a6), ColExpr.datum (Datum.int b6)], DataOp.source [], DataOp.project [ColExpr.datum (Datum.int a7), ColExpr.datum (Datum.int b7)], DataOp.source [[]], DataOp.project [ColExpr.datum (Datum.int a8), ColExpr.datum (Datum.int b8)], DataOp.source [[]], DataOp.project [ColExpr.datum (Datum.int 1)], DataOp.select [], DataOp.select [], DataOp.source [[]], DataOp.join [] [] [] [], DataOp.join [0] [] [0] [], DataOp.project [ColExpr.var 2]], outputs := [[(21, 0)], [(20, 0), (18446744073709551615, 0)], [(3, 0)], [(0, 0)], [(5, 0)], [(0, 0)], [(7, 0)], [(0, 0)], [(9, 0)], [(0, 0)], [(11, 0)], [(0, 0)], [(13, 0)], [(0, 0)], [(15, 0)], [(0, 0)], [(17, 0)], [(0, 0)], [(19, 0)], [(1, 0)], [(23, 1)], [(24, 1)], [(23, 0)], [(24, 0)], [(25, 0)], [(1, 0)]], inboxes := [[([Datum.int a1, Datum.int b1], 0), ([Datum.int a2, Datum.int b2], 0), ([Datum.int a3, Datum.int b3], 0), ([Datum.int a4, Datum.int b4], 0), ([Datum.int a5, Datum.int b5], 0), ([Datum.int a6, Datum.int b6], 0)], [], [], [], [], [], [], [], [], [], [], [], [], [], [], [([], 0)], [], [], [], [], [], [], [], [], [], []], schedule := { order := [15, 16, 17, 18, 19, 20, 21, 22, 23, 24, 25, 0], members := [0, 25, 24, 23, 22, 21, 20, 19, 18, 17, 16, 15] }, outbox := [] } : DF)) := by rfl
  have hs16 : DF.step ({ operators := [DataOp.distinct [], DataOp.distinct [], DataOp.source [], DataOp.project [ColExpr.datum (Datum.int a1), ColExpr.datum (Datum.int b1)], DataOp.source [], DataOp.project [ColExpr.datum (Datum.int a2), ColExpr.datum (Datum.int b2)], DataOp.source [], DataOp.project [ColExpr.datum (Datum.int a3), ColExpr.datum (Datum.int b3)], DataOp.source [], DataOp.project [ColExpr.datum (Datum.int a4), ColExpr.datum (Datum.int b4)], DataOp.source [], DataOp.project [ColExpr.datum (Datum.int a5), ColExpr.datum (Datum.int b5)], DataOp.source [], DataOp.project [ColExpr.datum (Datum.int a6), ColExpr.datum (Datum.int b6)], DataOp.source [], DataOp.project [ColExpr.datum (Datum.int a7), ColExpr.datum (Datum.int b7)], DataOp.source [[]], DataOp.project [ColExpr.datum (Datum.int a8), ColExpr.datum (Datum.int b8)], DataOp.source [[]], DataOp.project [ColExpr.datum (Datum.int 1)], DataOp.select [], DataOp.select [], DataOp.source [[]], DataOp.join [] [] [] [], DataOp.join [0] [] [0] [], DataOp.project [ColExpr.var 2]], outputs := [[(21, 0)], [(20, 0), (18446744073709551615, 0)], [(3, 0)], [(0, 0)], [(5, 0)], [(0, 0)], [(7, 0)], [(0, 0)], [(9, 0)], [(0, 0)], [(11, 0)], [(0, 0)], [(13, 0)], [(0, 0)], [(15, 0)], [(0, 0)], [(17, 0)], [(0, 0)], [(19, 0)], [(1, 0)], [(23, 1)], [(24, 1)], [(23, 0)], [(24, 0)], [(25, 0)], [(1, 0)]], inboxes := [[([Datum.int a1, Datum.int b1], 0), ([Datum.int a2, Datum.int b2], 0), ([Datum.int a3, Datum.int b3], 0), ([Datum.int a4, Datum.int b4], 0), ([Datum.int a5, Datum.int b5], 0), ([Datum.int a6, Datum.int b6], 0)], [], [], [], [], [], [], [], [], [], [], [], [], [], [], [([], 0)], [], [], [], [], [], [], [], [], [], []], schedule := { order := [15, 16, 17, 18, 19, 20, 21, 22, 23, 24, 25, 0], members := [0, 25, 24, 23, 22, 21, 20, 19, 18, 17, 16, 15] }, outbox := [] } : DF) = .ok (some ({ operators := [DataOp.distinct [], DataOp.distinct [], DataOp.source [], DataOp.project [ColExpr.datum (Datum.int a1), ColExpr.datum (Datum.int b1)], DataOp.source [], DataOp.project [ColExpr.datum (Datum.int a2), ColExpr.datum (Datum.int b2)], DataOp.source [], DataOp.project [ColExpr.datum (Datum.int a3), ColExpr.datum (Datum.int b3)], DataOp.source [], DataOp.project [ColExpr.datum (Datum.int a4), ColExpr.datum (Datum.int b4)], DataOp.source [], DataOp.project [ColExpr.datum (Datum.int a5), ColExpr.datum (Datum.int b5)], DataOp.source [], DataOp.project [ColExpr.datum (Datum.int a6), ColExpr.datum (Datum.int b6)], DataOp.source [], DataOp.project [ColExpr.datum (Datum.int a7), ColExpr.datum (Datum.int b7)], DataOp.source [[]], DataOp.project [ColExpr.datum (Datum.int a8), ColExpr.datum (Datum.int b8)], DataOp.source [[]], DataOp.project [ColExpr.datum (Datum.int 1)], DataOp.select [], DataOp.select [], DataOp.source [[]], DataOp.join [] [] [] [], DataOp.join [0] [] [0] [], DataOp.project [ColExpr.var 2]], outputs := [[(21, 0)], [(20, 0), (18446744073709551615, 0)], [(3, 0)], [(0, 0)], [(5, 0)], [(0, 0)], [(7, 0)], [(0, 0)], [(9, 0)], [(0, 0)], [(11, 0)], [(0, 0)], [(13, 0)], [(0, 0)], [(15, 0)], [(0, 0)], [(17, 0)], [(0, 0)], [(19, 0)], [(1, 0)], [(23, 1)], [(24, 1)], [(23, 0)], [(24, 0)], [(25, 0)], [(1, 0)]], inboxes := [[([Datum.int a1, Datum.int b1], 0), ([Datum.int a2, Datum.int b2], 0), ([Datum.int a3, Datum.int b3], 0), ([Datum.int a4, Datum.int b4], 0), ([Datum.int a5, Datum.int b5], 0), ([Datum.int a6, Datum.int b6], 0), ([Datum.int a7, Datum.int b7], 0)], [], [], [], [], [], [], [], [], [], [], [], [], [], [], [], [], [], [], [], [], [], [], [], [], []], schedule := { order := [16, 17, 18, 19, 20, 21, 22, 23, 24, 25, 0], members := [0, 25, 24, 23, 22, 21, 20, 19, 18, 17, 16] }, outbox := [] } : DF)) := by rfl
  have hs17 : DF.step ({ operators := [DataOp.distinct [], DataOp.distinct [], DataOp.source [], DataOp.project [ColExpr.datum (Datum.int a1), ColExpr.datum (Datum.int b1)], DataOp.source [], DataOp.project [ColExpr.datum (Datum.int a2), ColExpr.datum (Datum.int b2)], DataOp.source [], DataOp.project [ColExpr.datum (Datum.int a3), ColExpr.datum (Datum.int b3)], DataOp.source [], DataOp.project [ColExpr.datum (Datum.int a4), ColExpr.datum (Datum.int b4)], DataOp.source [], DataOp.project [ColExpr.datum (Datum.int a5), ColExpr.datum (Datum.int b5)], DataOp.source [], DataOp.project [ColExpr.datum (Datum.int a6), ColExpr.datum (Datum.int b6)], DataOp.source [], DataOp.project [ColExpr.datum (Datum.int a7), ColExpr.datum (Datum.int b7)], DataOp.source [[]], DataOp.project [ColExpr.datum (Datum.int a8), ColExpr.datum (Datum.int b8)], DataOp.source [[]], DataOp.project [ColExpr.datum (Datum.int 1)], DataOp.select [], DataOp.select [], DataOp.source [[]], DataOp.join [] [] [] [], DataOp.join [0] [] [0] [], DataOp.project [ColExpr.var 2]], outputs := [[(21, 0)], [(20, 0), (18446744073709551615, 0)], [(3, 0)], [(0, 0)], [(5, 0)], [(0, 0)], [(7, 0)], [(0, 0)], [(9, 0)], [(0, 0)], [(11, 0)], [(0, 0)], [(13, 0)], [(0, 0)], [(15, 0)], [(0, 0)], [(17, 0)], [(0, 0)], [(19, 0)], [(1, 0)], [(23, 1)], [(24, 1)], [(23, 0)], [(24, 0)], [(25, 0)], [(1, 0)]], inboxes := [[([Datum.int a1, Datum.int b1], 0), ([Datum.int a2, Datum.int b2], 0), ([Datum.int a3, Datum.int b3], 0), ([Datum.int a4, Datum.int b4], 0), ([Datum.int a5, Datum.int b5], 0), ([Datum.int a6, Datum.int b6], 0), ([Datum.int a7, Datum.int b7], 0)], [], [], [], [], [], [], [], [], [], [], [], [], [], [], [], [], [], [], [], [], [], [], [], [], []], schedule := { order := [16, 17, 18, 19, 20, 21, 22, 23, 24, 25, 0], members := [0, 25, 24, 23, 22, 21, 20, 19, 18, 17, 16] }, outbox := [] } : DF) = .ok (some ({ operators := [DataOp.distinct [], DataOp.distinct [], DataOp.source [], DataOp.project [ColExpr.datum (Datum.int a1), ColExpr.datum (Datum.int b1)], DataOp.source [], DataOp.project [ColExpr.datum (Datum.int a2), ColExpr.datum (Datum.int b2)], DataOp.source [], DataOp.project [ColExpr.datum (Datum.int a3), ColExpr.datum (Datum.int b3)], DataOp.source [], DataOp.project [ColExpr.datum (Datum.int a4), ColExpr.datum (Datum.int b4)], DataOp.source [], DataOp.project [ColExpr.datum (Datum.int a5), ColExpr.datum (Datum.int b5)], DataOp.source [], DataOp.project [ColExpr.datum (Datum.int a6), ColExpr.datum (Datum.int b6)], DataOp.source [], DataOp.project [ColExpr.datum (Datum.int a7), ColExpr.datum (Datum.int b7)], DataOp.source [], DataOp.project [ColExpr.datum (Datum.int a8), ColExpr.datum (Datum.int b8)], DataOp.source [[]], DataOp.project [ColExpr.datum (Datum.int 1)], DataOp.select [], DataOp.select [], DataOp.source [[]], DataOp.join [] [] [] [], DataOp.join [0] [] [0] [], DataOp.project [ColExpr.var 2]], outputs := [[(21, 0)], [(20, 0), (18446744073709551615, 0)], [(3, 0)], [(0, 0)], [(5, 0)], [(0, 0)], [(7, 0)], [(0, 0)], [(9, 0)], [(0, 0)], [(11, 0)], [(0, 0)], [(13, 0)], [(0, 0)], [(15, 0)], [(0, 0)], [(17, 0)], [(0, 0)], [(19, 0)], [(1, 0)], [(23, 1)], [(24, 1)], [(23, 0)], [(24, 0)], [(25, 0)], [(1, 0)]], inboxes := [[([Datum.int a1, Datum.int b1], 0), ([Datum.int a2, Datum.int b2], 0), ([Datum.int a3, Datum.int b3], 0), ([Datum.int a4, Datum.int b4], 0), ([Datum.int a5, Datum.int b5], 0), ([Datum.int a6, Datum.int b6], 0), ([Datum.int a7, Datum.int b7], 0)], [], [], [], [], [], [], [], [], [], [], [], [], [], [], [], [], [([], 0)], [], [], [], [], [], [], [], []], schedule := { order := [17, 18, 19, 20, 21, 22, 23, 24, 25, 0], members := [0, 25, 24, 23, 22, 21, 20, 19, 18, 17] }, outbox := [] } : DF)) := by rfl
  have hs18 : DF.step ({ operators := [DataOp.distinct [], DataOp.distinct [], DataOp.source [], DataOp.project [ColExpr.datum (Datum.int a1), ColExpr.datum (Datum.int b1)], DataOp.source [], DataOp.project [ColExpr.datum (Datum.int a2), ColExpr.datum (Datum.int b2)], DataOp.source [], DataOp.project [ColExpr.datum (Datum.int a3), ColExpr.datum (Datum.int b3)], DataOp.source [], DataOp.project [ColExpr.datum (Datum.int a4), ColExpr.datum (Datum.int b4)], DataOp.source [], DataOp.project [ColExpr.datum (Datum.int a5), ColExpr.datum (Datum.int b5)], DataOp.source [], DataOp.project [ColExpr.datum (Datum.int a6), ColExpr.datum (Datum.int b6)], DataOp.source [], DataOp.project [ColExpr.datum (Datum.int a7), ColExpr.datum (Datum.int b7)], DataOp.source [], DataOp.project [ColExpr.datum (Datum.int a8), ColExpr.datum (Datum.int b8)], DataOp.source [[]], DataOp.project [ColExpr.datum (Datum.int 1)], DataOp.select [], DataOp.select [], DataOp.source [[]], DataOp.join [] [] [] [], DataOp.join [0] [] [0] [], DataOp.project [ColExpr.var 2]], outputs := [[(21, 0)], [(20, 0), (18446744073709551615, 0)], [(3, 0)], [(0, 0)], [(5, 0)], [(0, 0)], [(7, 0)], [(0, 0)], [(9, 0)], [(0, 0)], [(11, 0)], [(0, 0)], [(13, 0)], [(0, 0)], [(15, 0)], [(0, 0)], [(17, 0)], [(0, 0)], [(19, 0)], [(1, 0)], [(23, 1)], [(24, 1)], [(23, 0)], [(24, 0)], [(25, 0)], [(1, 0)]], inboxes := [[([Datum.int a1, Datum.int b1], 0), ([Datum.int a2, Datum.int b2], 0), ([Datum.int a3, Datum.int b3], 0), ([Datum.int a4, Datum.int b4], 0), ([Datum.int a5, Datum.int b5], 0), ([Datum.int a6, Datum.int b6], 0), ([Datum.int a7, Datum.int b7], 0)], [], [], [], [], [], [], [], [], [], [], [], [], [], [], [], [], [([], 0)], [], [], [], [], [], [], [], []], schedule := { order := [17, 18, 19, 20, 21, 22, 23, 24, 25, 0], members := [0, 25, 24, 23, 22, 21, 20, 19, 18, 17] }, outbox := [] } : DF) = .ok (some ({ operators := [DataOp.distinct [], DataOp.distinct [], DataOp.source [], DataOp.project [ColExpr.datum (Datum.int a1), ColExpr.datum (Datum.int b1)], DataOp.source [], DataOp.project [ColExpr.datum (Datum.int a2), ColExpr.datum (Datum.int b2)], DataOp.source [], DataOp.project [ColExpr.datum (Datum.int a3), ColExpr.datum (Datum.int b3)], DataOp.source [], DataOp.project [ColExpr.datum (Datum.int a4), ColExpr.datum (Datum.int b4)], DataOp.source [], DataOp.project [ColExpr.datum (Datum.int a5), ColExpr.datum (Datum.int b5)], DataOp.source [], DataOp.project [ColExpr.datum (Datum.int a6), ColExpr.datum (Datum.int b6)], DataOp.source [], DataOp.project [ColExpr.datum (Datum.int a7), ColExpr.datum (Datum.int b7)], DataOp.source [], DataOp.project [ColExpr.datum (Datum.int a8), ColExpr.datum (Datum.int b8)], DataOp.source [[]], DataOp.project [ColExpr.datum (Datum.int 1)], DataOp.select [], DataOp.select [], DataOp.source [[]], DataOp.join [] [] [] [], DataOp.join [0] [] [0] [], DataOp.project [ColExpr.var 2]], outputs := [[(21, 0)], [(20, 0), (18446744073709551615, 0)], [(3, 0)], [(0, 0)], [(5, 0)], [(0, 0)], [(7, 0)], [(0, 0)], [(9, 0)], [(0, 0)], [(11, 0)], [(0, 0)], [(13, 0)], [(0, 0)], [(15, 0)], [(0, 0)], [(17, 0)], [(0, 0)], [(19, 0)], [(1, 0)], [(23, 1)], [(24, 1)], [(23, 0)], [(24, 0)], [(25, 0)], [(1, 0)]], inboxes := [[([Datum.int a1, Datum.int b1], 0), ([Datum.int a2, Datum.int b2], 0), ([Datum.int a3, Datum.int b3], 0), ([Datum.int a4, Datum.int b4], 0), ([Datum.int a5, Datum.int b5], 0), ([Datum.int a6, Datum.int b6], 0), ([Datum.int a7, Datum.int b7], 0), ([Datum.int a8, Datum.int b8], 0)], [], [], [], [], [], [], [], [], [], [], [], [], [], [], [], [], [], [], [], [], [], [], [], [], []], schedule := { order := [18, 19, 20, 21, 22, 23, 24, 25, 0], members := [0, 25, 24, 23, 22, 21, 20, 19, 18] }, outbox := [] } : DF)) := by rfl
  have hs19 : DF.step ({ operators := [DataOp.distinct [], DataOp.distinct [], DataOp.source [], DataOp.project [ColExpr.datum (Datum.int a1), ColExpr.datum (Datum.int b1)], DataOp.source [], DataOp.project [ColExpr.datum (Datum.int a2), ColExpr.datum (Datum.int b2)], DataOp.source [], DataOp.project [ColExpr.datum (Datum.int a3), ColExpr.datum (Datum.int b3)], DataOp.source [], DataOp.project [ColExpr.datum (Datum.int a4), ColExpr.datum (Datum.int b4)], DataOp.source [], DataOp.project [ColExpr.datum (Datum.int a5), ColExpr.datum (Datum.int b5)], DataOp.source [], DataOp.project [ColExpr.datum (Datum.int a6), ColExpr.datum (Datum.int b6)], DataOp.source [], DataOp.project [ColExpr.datum (Datum.int a7), ColExpr.datum (Datum.int b7)], DataOp.source [], DataOp.project [ColExpr.datum (Datum.int a8), ColExpr.datum (Datum.int b8)], DataOp.source [[]], DataOp.project [ColExpr.datum (Datum.int 1)], DataOp.select [], DataOp.select [], DataOp.source [[]], DataOp.join [] [] [] [], DataOp.join [0] [] [0] [], DataOp.project [ColExpr.var 2]], outputs := [[(21, 0)], [(20, 0), (18446744073709551615, 0)], [(3, 0)], [(0, 0)], [(5, 0)], [(0, 0)], [(7, 0)], [(0, 0)], [(9, 0)], [(0, 0)], [(11, 0)], [(0, 0)], [(13, 0)], [(0, 0)], [(15, 0)], [(0, 0)], [(17, 0)], [(0, 0)], [(19, 0)], [(1, 0)], [(23, 1)], [(24, 1)], [(23, 0)], [(24, 0)], [(25, 0)], [(1, 0)]], inboxes := [[([Datum.int a1, Datum.int b1], 0), ([Datum.int a2, Datum.int b2], 0), ([Datum.int a3, Datum.int b3], 0), ([Datum.int a4, Datum.int b4], 0), ([Datum.int a5, Datum.int b5], 0), ([Datum.int a6, Datum.int b6], 0), ([Datum.int a7, Datum.int b7], 0), ([Datum.int a8, Datum.int b8], 0)], [], [], [], [], [], [], [], [], [], [], [], [], [], [], [], [], [], [], [], [], [], [], [], [], []], schedule := { order := [18, 19, 20, 21, 22, 23, 24, 25, 0], members := [0, 25, 24, 23, 22, 21, 20, 19, 18] }, outbox := [] } : DF) = .ok (some ({ operators := [DataOp.distinct [], DataOp.distinct [], DataOp.source [], DataOp.project [ColExpr.datum (Datum.int a1), ColExpr.datum (Datum.int b1)], DataOp.source [], DataOp.project [ColExpr.datum (Datum.int a2), ColExpr.datum (Datum.int b2)], DataOp.source [], DataOp.project [ColExpr.datum (Datum.int a3), ColExpr.datum (Datum.int b3)], DataOp.source [], DataOp.project [ColExpr.datum (Datum.int a4), ColExpr.datum (Datum.int b4)], DataOp.source [], DataOp.project [ColExpr.datum (Datum.int a5), ColExpr.datum (Datum.int b5)], DataOp.source [], DataOp.project [ColExpr.datum (Datum.int a6), ColExpr.datum (Datum.int b6)], DataOp.source [], DataOp.project [ColExpr.datum (Datum.int a7), ColExpr.datum (Datum.int b7)], DataOp.source [], DataOp.project [ColExpr.datum (Datum.int a8), ColExpr.datum (Datum.int b8)], DataOp.source [], DataOp.project [ColExpr.datum (Datum.int 1)], DataOp.select [], DataOp.select [], DataOp.source [[]], DataOp.join [] [] [] [], DataOp.join [0] [] [0] [], DataOp.project [ColExpr.var 2]], outputs := [[(21, 0)], [(20, 0), (18446744073709551615, 0)], [(3, 0)], [(0, 0)], [(5, 0)], [(0, 0)], [(7, 0)], [(0, 0)], [(9, 0)], [(0, 0)], [(11, 0)], [(0, 0)], [(13, 0)], [(0, 0)], [(15, 0)], [(0, 0)], [(17, 0)], [(0, 0)], [(19, 0)], [(1, 0)], [(23, 1)], [(24, 1)], [(23, 0)], [(24, 0)], [(25, 0)], [(1, 0)]], inboxes := [[([Datum.int a1, Datum.int b1], 0), ([Datum.int a2, Datum.int b2], 0), ([Datum.int a3, Datum.int b3], 0), ([Datum.int a4, Datum.int b4], 0), ([Datum.int a5, Datum.int b5], 0), ([Datum.int a6, Datum.int b6], 0), ([Datum.int a7, Datum.int b7], 0), ([Datum.int a8, Datum.int b8], 0)], [], [], [], [], [], [], [], [], [], [], [], [], [], [], [], [], [], [], [([], 0)], [], [], [], [], [], []], schedule := { order := [19, 20, 21, 22, 23, 24, 25, 0], members := [0, 25, 24, 23, 22, 21, 20, 19] }, outbox := [] } : DF)) := by rfl
  have hs20 : DF.step ({ operators := [DataOp.distinct [], DataOp.distinct [], DataOp.source [], DataOp.project [ColExpr.datum (Datum.int a1), ColExpr.datum (Datum.int b1)], DataOp.source [], DataOp.project [ColExpr.datum (Datum.int a2), ColExpr.datum (Datum.int b2)], DataOp.source [], DataOp.project [ColExpr.datum (Datum.int a3), ColExpr.datum (Datum.int b3)], DataOp.source [], DataOp.project [ColExpr.datum (Datum.int a4), ColExpr.datum (Datum.int b4)], DataOp.source [], DataOp.project [ColExpr.datum (Datum.int a5), ColExpr.datum (Datum.int b5)], DataOp.source [], DataOp.project [ColExpr.datum (Datum.int a6), ColExpr.datum (Datum.int b6)], DataOp.source [], DataOp.project [ColExpr.datum (Datum.int a7), ColExpr.datum (Datum.int b7)], DataOp.source [], DataOp.project [ColExpr.datum (Datum.int a8), ColExpr.datum (Datum.int b8)], DataOp.source [], DataOp.project [ColExpr.datum (Datum.int 1)], DataOp.select [], DataOp.select [], DataOp.source [[]], DataOp.join [] [] [] [], DataOp.join [0] [] [0] [], DataOp.project [ColExpr.var 2]], outputs := [[(21, 0)], [(20, 0), (18446744073709551615, 0)], [(3, 0)], [(0, 0)], [(5, 0)], [(0, 0)], [(7, 0)], [(0, 0)], [(9, 0)], [(0, 0)], [(11, 0)], [(0, 0)], [(13, 0)], [(0, 0)], [(15, 0)], [(0, 0)], [(17, 0)], [(0, 0)], [(19, 0)], [(1, 0)], [(23, 1)], [(24, 1)], [(23, 0)], [(24, 0)], [(25, 0)], [(1, 0)]], inboxes := [[([Datum.int a1, Datum.int b1], 0), ([Datum.int a2, Datum.int b2], 0), ([Datum.int a3, Datum.int b3], 0), ([Datum.int a4, Datum.int b4], 0), ([Datum.int a5, Datum.int b5], 0), ([Datum.int a6, Datum.int b6], 0), ([Datum.int a7, Datum.int b7], 0), ([Datum.int a8, Datum.int b8], 0)], [], [], [], [], [], [], [], [], [], [], [], [], [], [], [], [], [], [], [([], 0)], [], [], [], [], [], []], schedule := { order := [19, 20, 21, 22, 23, 24, 25, 0], members := [0, 25, 24, 23, 22, 21, 20, 19] }, outbox := [] } : DF) = .ok (some ({ operators := [DataOp.distinct [], DataOp.distinct [], DataOp.source [], DataOp.project [ColExpr.datum (Datum.int a1), ColExpr.datum (Datum.int b1)], DataOp.source [], DataOp.project [ColExpr.datum (Datum.int a2), ColExpr.datum (Datum.int b2)], DataOp.source [], DataOp.project [ColExpr.datum (Datum.int a3), ColExpr.datum (Datum.int b3)], DataOp.source [], DataOp.project [ColExpr.datum (Datum.int a4), ColExpr.datum (Datum.int b4)], DataOp.source [], DataOp.project [ColExpr.datum (Datum.int a5), ColExpr.datum (Datum.int b5)], DataOp.source [], DataOp.project [ColExpr.datum (Datum.int a6), ColExpr.datum (Datum.int b6)], DataOp.source [], DataOp.project [ColExpr.datum (Datum.int a7), ColExpr.datum (Datum.int b7)], DataOp.source [], DataOp.project [ColExpr.datum (Datum.int a8), ColExpr.datum (Datum.int b8)], DataOp.source [], DataOp.project [ColExpr.datum (Datum.int 1)], DataOp.select [], DataOp.select [], DataOp.source [[]], DataOp.join [] [] [] [], DataOp.join [0] [] [0] [], DataOp.project [ColExpr.var 2]], outputs := [[(21, 0)], [(20, 0), (18446744073709551615, 0)], [(3, 0)], [(0, 0)], [(5, 0)], [(0, 0)], [(7, 0)], [(0, 0)], [(9, 0)], [(0, 0)], [(11, 0)], [(0, 0)], [(13, 0)], [(0, 0)], [(15, 0)], [(0, 0)], [(17, 0)], [(0, 0)], [(19, 0)], [(1, 0)], [(23, 1)], [(24, 1)], [(23, 0)], [(24, 0)], [(25, 0)], [(1, 0)]], inboxes := [[([Datum.int a1, Datum.int b1], 0), ([Datum.int a2, Datum.int b2], 0), ([Datum.int a3, Datum.int b3], 0), ([Datum.int a4, Datum.int b4], 0), ([Datum.int a5, Datum.int b5], 0), ([Datum.int a6, Datum.int b6], 0), ([Datum.int a7, Datum.int b7], 0), ([Datum.int a8, Datum.int b8], 0)], [([Datum.int 1], 0)], [], [], [], [], [], [], [], [], [], [], [], [], [], [], [], [], [], [], [], [], [], [], [], []], schedule := { order := [20, 21, 22, 23, 24, 25, 0, 1], members := [1, 0, 25, 24, 23, 22, 21, 20] }, outbox := [] } : DF)) := by rfl
  have hs21 : DF.step ({ operators := [DataOp.distinct [], DataOp.distinct [], DataOp.source [], DataOp.project [ColExpr.datum (Datum.int a1), ColExpr.datum (Datum.int b1)], DataOp.source [], DataOp.project [ColExpr.datum (Datum.int a2), ColExpr.datum (Datum.int b2)], DataOp.source [], DataOp.project [ColExpr.datum (Datum.int a3), ColExpr.datum (Datum.int b3)], DataOp.source [], DataOp.project [ColExpr.datum (Datum.int a4), ColExpr.datum (Datum.int b4)], DataOp.source [], DataOp.project [ColExpr.datum (Datum.int a5), ColExpr.datum (Datum.int b5)], DataOp.source [], DataOp.project [ColExpr.datum (Datum.int a6), ColExpr.datum (Datum.int b6)], DataOp.source [], DataOp.project [ColExpr.datum (Datum.int a7), ColExpr.datum (Datum.int b7)], DataOp.source [], DataOp.project [ColExpr.datum (Datum.int a8), ColExpr.datum (Datum.int b8)], DataOp.source [], DataOp.project [ColExpr.datum (Datum.int 1)], DataOp.select [], DataOp.select [], DataOp.source [[]], DataOp.join [] [] [] [], DataOp.join [0] [] [0] [], DataOp.project [ColExpr.var 2]], outputs := [[(21, 0)], [(20, 0), (18446744073709551615, 0)], [(3, 0)], [(0, 0)], [(5, 0)], [(0, 0)], [(7, 0)], [(0, 0)], [(9, 0)], [(0, 0)], [(11, 0)], [(0, 0)], [(13, 0)], [(0, 0)], [(15, 0)], [(0, 0)], [(17, 0)], [(0, 0)], [(19, 0)], [(1, 0)], [(23, 1)], [(24, 1)], [(23, 0)], [(24, 0)], [(25, 0)], [(1, 0)]], inboxes := [[([Datum.int a1, Datum.int b1], 0), ([Datum.int a2, Datum.int b2], 0), ([Datum.int a3, Datum.int b3], 0), ([Datum.int a4, Datum.int b4], 0), ([Datum.int a5, Datum.int b5], 0), ([Datum.int a6, Datum.int b6], 0), ([Datum.int a7, Datum.int b7], 0), ([Datum.int a8, Datum.int b8], 0)], [([Datum.int 1], 0)], [], [], [], [], [], [], [], [], [], [], [], [], [], [], [], [], [], [], [], [], [], [], [], []], schedule := { order := [20, 21, 22, 23, 24, 25, 0, 1], members := [1, 0, 25, 24, 23, 22, 21, 20] }, outbox := [] } : DF) = .ok (some ({ operators := [DataOp.distinct [], DataOp.distinct [], DataOp.source [], DataOp.project [ColExpr.datum (Datum.int a1), ColExpr.datum (Datum.int b1)], DataOp.source [], DataOp.project [ColExpr.datum (Datum.int a2), ColExpr.datum (Datum.int b2)], DataOp.source [], DataOp.project [ColExpr.datum (Datum.int a3), ColExpr.datum (Datum.int b3)], DataOp.source [], DataOp.project [ColExpr.datum (Datum.int a4), ColExpr.datum (Datum.int b4)], DataOp.source [], DataOp.project [ColExpr.datum (Datum.int a5), ColExpr.datum (Datum.int b5)], DataOp.source [], DataOp.project [ColExpr.datum (Datum.int a6), ColExpr.datum (Datum.int b6)], DataOp.source [], DataOp.project [ColExpr.datum (Datum.int a7), ColExpr.datum (Datum.int b7)], DataOp.source [], DataOp.project [ColExpr.datum (Datum.int a8), ColExpr.datum (Datum.int b8)], DataOp.source [], DataOp.project [ColExpr.datum (Datum.int 1)], DataOp.select [], DataOp.select [], DataOp.source [[]], DataOp.join [] [] [] [], DataOp.join [0] [] [0] [], DataOp.project [ColExpr.var 2]], outputs := [[(21, 0)], [(20, 0), (18446744073709551615, 0)], [(3, 0)], [(0, 0)], [(5, 0)], [(0, 0)], [(7, 0)], [(0, 0)], [(9, 0)], [(0, 0)], [(11, 0)], [(0, 0)], [(13, 0)], [(0, 0)], [(15, 0)], [(0, 0)], [(17, 0)], [(0, 0)], [(19, 0)], [(1, 0)], [(23, 1)], [(24, 1)], [(23, 0)], [(24, 0)], [(25, 0)], [(1, 0)]], inboxes := [[([Datum.int a1, Datum.int b1], 0), ([Datum.int a2, Datum.int b2], 0), ([Datum.int a3, Datum.int b3], 0), ([Datum.int a4, Datum.int b4], 0), ([Datum.int a5, Datum.int b5], 0), ([Datum.int a6, Datum.int b6], 0), ([Datum.int a7, Datum.int b7], 0), ([Datum.int a8, Datum.int b8], 0)], [([Datum.int 1], 0)], [], [], [], [], [], [], [], [], [], [], [], [], [], [], [], [], [], [], [], [], [], [], [], []], schedule := { order := [21, 22, 23, 24, 25, 0, 1], members := [1, 0, 25, 24, 23, 22, 21] }, outbox := [] } : DF)) := by rfl
  have hs22 : DF.step ({ operators := [DataOp.distinct [], DataOp.distinct [], DataOp.source [], DataOp.project [ColExpr.datum (Datum.int a1), ColExpr.datum (Datum.int b1)], DataOp.source [], DataOp.project [ColExpr.datum (Datum.int a2), ColExpr.datum (Datum.int b2)], DataOp.source [], DataOp.project [ColExpr.datum (Datum.int a3), ColExpr.datum (Datum.int b3)], DataOp.source [], DataOp.project [ColExpr.datum (Datum.int a4), ColExpr.datum (Datum.int b4)], DataOp.source [], DataOp.project [ColExpr.datum (Datum.int a5), ColExpr.datum (Datum.int b5)], DataOp.source [], DataOp.project [ColExpr.datum (Datum.int a6), ColExpr.datum (Datum.int b6)], DataOp.source [], DataOp.project [ColExpr.datum (Datum.int a7), ColExpr.datum (Datum.int b7)], DataOp.source [], DataOp.project [ColExpr.datum (Datum.int a8), ColExpr.datum (Datum.int b8)], DataOp.source [], DataOp.project [ColExpr.datum (Datum.int 1)], DataOp.select [], DataOp.select [], DataOp.source [[]], DataOp.join [] [] [] [], DataOp.join [0] [] [0] [], DataOp.project [ColExpr.var 2]], outputs := [[(21, 0)], [(20, 0), (18446744073709551615, 0)], [(3, 0)], [(0, 0)], [(5, 0)], [(0, 0)], [(7, 0)], [(0, 0)], [(9, 0)], [(0, 0)], [(11, 0)], [(0, 0)], [(13, 0)], [(0, 0)], [(15, 0)], [(0, 0)], [(17, 0)], [(0, 0)], [(19, 0)], [(1, 0)], [(23, 1)], [(24, 1)], [(23, 0)], [(24, 0)], [(25, 0)], [(1, 0)]], inboxes := [[([Datum.int a1, Datum.int b1], 0), ([Datum.int a2, Datum.int b2], 0), ([Datum.int a3, Datum.int b3], 0), ([Datum.int a4, Datum.int b4], 0), ([Datum.int a5, Datum.int b5], 0), ([Datum.int a6, Datum.int b6], 0), ([Datum.int a7, Datum.int b7], 0), ([Datum.int a8, Datum.int b8], 0)], [([Datum.int 1], 0)], [], [], [], [], [], [], [], [], [], [], [], [], [], [], [], [], [], [], [], [], [], [], [], []], schedule := { order := [21, 22, 23, 24, 25, 0, 1], members := [1, 0, 25, 24, 23, 22, 21] }, outbox := [] } : DF) = .ok (some ({ operators := [DataOp.distinct [], DataOp.distinct [], DataOp.source [], DataOp.project [ColExpr.datum (Datum.int a1), ColExpr.datum (Datum.int b1)], DataOp.source [], DataOp.project [ColExpr.datum (Datum.int a2), ColExpr.datum (Datum.int b2)], DataOp.source [], DataOp.project [ColExpr.datum (Datum.int a3), ColExpr.datum (Datum.int b3)], DataOp.source [], DataOp.project [ColExpr.datum (Datum.int a4), ColExpr.datum (Datum.int b4)], DataOp.source [], DataOp.project [ColExpr.datum (Datum.int a5), ColExpr.datum (Datum.int b5)], DataOp.source [], DataOp.project [ColExpr.datum (Datum.int a6), ColExpr.datum (Datum.int b6)], DataOp.source [], DataOp.project [ColExpr.datum (Datum.int a7), ColExpr.datum (Datum.int b7)], DataOp.source [], DataOp.project [ColExpr.datum (Datum.int a8), ColExpr.datum (Datum.int b8)], DataOp.source [], DataOp.project [ColExpr.datum (Datum.int 1)], DataOp.select [], DataOp.select [], DataOp.source [[]], DataOp.join [] [] [] [], DataOp.join [0] [] [0] [], DataOp.project [ColExpr.var 2]], outputs := [[(21, 0)], [(20, 0), (18446744073709551615, 0)], [(3, 0)], [(0, 0)], [(5, 0)], [(0, 0)], [(7, 0)], [(0, 0)], [(9, 0)], [(0, 0)], [(11, 0)], [(0, 0)], [(13, 0)], [(0, 0)], [(15, 0)], [(0, 0)], [(17, 0)], [(0, 0)], [(19, 0)], [(1, 0)], [(23, 1)], [(24, 1)], [(23, 0)], [(24, 0)], [(25, 0)], [(1, 0)]], inboxes := [[([Datum.int a1, Datum.int b1], 0), ([Datum.int a2, Datum.int b2], 0), ([Datum.int a3, Datum.int b3], 0), ([Datum.int a4, Datum.int b4], 0), ([Datum.int a5, Datum.int b5], 0), ([Datum.int a6, Datum.int b6], 0), ([Datum.int a7, Datum.int b7], 0), ([Datum.int a8, Datum.int b8], 0)], [([Datum.int 1], 0)], [], [], [], [], [], [], [], [], [], [], [], [], [], [], [], [], [], [], [], [], [], [], [], []], schedule := { order := [22, 23, 24, 25, 0, 1], members := [1, 0, 25, 24, 23, 22] }, outbox := [] } : DF)) := by rfl
  have hs23 : DF.step ({ operators := [DataOp.distinct [], DataOp.distinct [], DataOp.source [], DataOp.project [ColExpr.datum (Datum.int a1), ColExpr.datum (Datum.int b1)], DataOp.source [], DataOp.project [ColExpr.datum (Datum.int a2), ColExpr.datum (Datum.int b2)], DataOp.source [], DataOp.project [ColExpr.datum (Datum.int a3), ColExpr.datum (Datum.int b3)], DataOp.source [], DataOp.project [ColExpr.datum (Datum.int a4), ColExpr.datum (Datum.int b4)], DataOp.source [], DataOp.project [ColExpr.datum (Datum.int a5), ColExpr.datum (Datum.int b5)], DataOp.source [], DataOp.project [ColExpr.datum (Datum.int a6), ColExpr.datum (Datum.int b6)], DataOp.source [], DataOp.project [ColExpr.datum (Datum.int a7), ColExpr.datum (Datum.int b7)], DataOp.source [], DataOp.project [ColExpr.datum (Datum.int a8), ColExpr.datum (Datum.int b8)], DataOp.source [], DataOp.project [ColExpr.datum (Datum.int 1)], DataOp.select [], DataOp.select [], DataOp.source [[]], DataOp.join [] [] [] [], DataOp.join [0] [] [0] [], DataOp.project [ColExpr.var 2]], outputs := [[(21, 0)], [(20, 0), (18446744073709551615, 0)], [(3, 0)], [(0, 0)], [(5, 0)], [(0, 0)], [(7, 0)], [(0, 0)], [(9, 0)], [(0, 0)], [(11, 0)], [(0, 0)], [(13, 0)], [(0, 0)], [(15, 0)], [(0, 0)], [(17, 0)], [(0, 0)], [(19, 0)], [(1, 0)], [(23, 1)], [(24, 1)], [(23, 0)], [(24, 0)], [(25, 0)], [(1, 0)]], inboxes := [[([Datum.int a1, Datum.int b1], 0), ([Datum.int a2, Datum.int b2], 0), ([Datum.int a3, Datum.int b3], 0), ([Datum.int a4, Datum.int b4], 0), ([Datum.int a5, Datum.int b5], 0), ([Datum.int a6, Datum.int b6], 0), ([Datum.int a7, Datum.int b7], 0), ([Datum.int a8, Datum.int b8], 0)], [([Datum.int 1], 0)], [], [], [], [], [], [], [], [], [], [], [], [], [], [], [], [], [], [], [], [], [], [], [], []], schedule := { order := [22, 23, 24, 25, 0, 1], members := [1, 0, 25, 24, 23, 22] }, outbox := [] } : DF) = .ok (some ({ operators := [DataOp.distinct [], DataOp.distinct [], DataOp.source [], DataOp.project [ColExpr.datum (Datum.int a1), ColExpr.datum (Datum.int b1)], DataOp.source [], DataOp.project [ColExpr.datum (Datum.int a2), ColExpr.datum (Datum.int b2)], DataOp.source [], DataOp.project [ColExpr.datum (Datum.int a3), ColExpr.datum (Datum.int b3)], DataOp.source [], DataOp.project [ColExpr.datum (Datum.int a4), ColExpr.datum (Datum.int b4)], DataOp.source [], DataOp.project [ColExpr.datum (Datum.int a5), ColExpr.datum (Datum.int b5)], DataOp.source [], DataOp.project [ColExpr.datum (Datum.int a6), ColExpr.datum (Datum.int b6)], DataOp.source [], DataOp.project [ColExpr.datum (Datum.int a7), ColExpr.datum (Datum.int b7)], DataOp.source [], DataOp.project [ColExpr.datum (Datum.int a8), ColExpr.datum (Datum.int b8)], DataOp.source [], DataOp.project [ColExpr.datum (Datum.int 1)], DataOp.select [], DataOp.select [], DataOp.source [], DataOp.join [] [] [] [], DataOp.join [0] [] [0] [], DataOp.project [ColExpr.var 2]], outputs := [[(21, 0)], [(20, 0), (18446744073709551615, 0)], [(3, 0)], [(0, 0)], [(5, 0)], [(0, 0)], [(7, 0)], [(0, 0)], [(9, 0)], [(0, 0)], [(11, 0)], [(0, 0)], [(13, 0)], [(0, 0)], [(15, 0)], [(0, 0)], [(17, 0)], [(0, 0)], [(19, 0)], [(1, 0)], [(23, 1)], [(24, 1)], [(23, 0)], [(24, 0)], [(25, 0)], [(1, 0)]], inboxes := [[([Datum.int a1, Datum.int b1], 0), ([Datum.int a2, Datum.int b2], 0), ([Datum.int a3, Datum.int b3], 0), ([Datum.int a4, Datum.int b4], 0), ([Datum.int a5, Datum.int b5], 0), ([Datum.int a6, Datum.int b6], 0), ([Datum.int a7, Datum.int b7], 0), ([Datum.int a8, Datum.int b8], 0)], [([Datum.int 1], 0)], [], [], [], [], [], [], [], [], [], [], [], [], [], [], [], [], [], [], [], [], [], [([], 0)], [], []], schedule := { order := [23, 24, 25, 0, 1], members := [1, 0, 25, 24, 23] }, outbox := [] } : DF)) := by rfl
  have hs24 : DF.step ({ operators := [DataOp.distinct [], DataOp.distinct [], DataOp.source [], DataOp.project [ColExpr.datum (Datum.int a1), ColExpr.datum (Datum.int b1)], DataOp.source [], DataOp.project [ColExpr.datum (Datum.int a2), ColExpr.datum (Datum.int b2)], DataOp.source [], DataOp.project [ColExpr.datum (Datum.int a3), ColExpr.datum (Datum.int b3)], DataOp.source [], DataOp.project [ColExpr.datum (Datum.int a4), ColExpr.datum (Datum.int b4)], DataOp.source [], DataOp.project [ColExpr.datum (Datum.int a5), ColExpr.datum (Datum.int b5)], DataOp.source [], DataOp.project [ColExpr.datum (Datum.int a6), ColExpr.datum (Datum.int b6)], DataOp.source [], DataOp.project [ColExpr.datum (Datum.int a7), ColExpr.datum (Datum.int b7)], DataOp.source [], DataOp.project [ColExpr.datum (Datum.int a8), ColExpr.datum (Datum.int b8)], DataOp.source [], DataOp.project [ColExpr.datum (Datum.int 1)], DataOp.select [], DataOp.select [], DataOp.source [], DataOp.join [] [] [] [], DataOp.join [0] [] [0] [], DataOp.project [ColExpr.var 2]], outputs := [[(21, 0)], [(20, 0), (18446744073709551615, 0)], [(3, 0)], [(0, 0)], [(5, 0)], [(0, 0)], [(7, 0)], [(0, 0)], [(9, 0)], [(0, 0)], [(11, 0)], [(0, 0)], [(13, 0)], [(0, 0)], [(15, 0)], [(0, 0)], [(17, 0)], [(0, 0)], [(19, 0)], [(1, 0)], [(23, 1)], [(24, 1)], [(23, 0)], [(24, 0)], [(25, 0)], [(1, 0)]], inboxes := [[([Datum.int a1, Datum.int b1], 0), ([Datum.int a2, Datum.int b2], 0), ([Datum.int a3, Datum.int b3], 0), ([Datum.int a4, Datum.int b4], 0), ([Datum.int a5, Datum.int b5], 0), ([Datum.int a6, Datum.int b6], 0), ([Datum.int a7, Datum.int b7], 0), ([Datum.int a8, Datum.int b8], 0)], [([Datum.int 1], 0)], [], [], [], [], [], [], [], [], [], [], [], [], [], [], [], [], [], [], [], [], [], [([], 0)], [], []], schedule := { order := [23, 24, 25, 0, 1], members := [1, 0, 25, 24, 23] }, outbox := [] } : DF) = .ok (some ({ operators := [DataOp.distinct [], DataOp.distinct [], DataOp.source [], DataOp.project [ColExpr.datum (Datum.int a1), ColExpr.datum (Datum.int b1)], DataOp.source [], DataOp.project [ColExpr.datum (Datum.int a2), ColExpr.datum (Datum.int b2)], DataOp.source [], DataOp.project [ColExpr.datum (Datum.int a3), ColExpr.datum (Datum.int b3)], DataOp.source [], DataOp.project [ColExpr.datum (Datum.int a4), ColExpr.datum (Datum.int b4)], DataOp.source [], DataOp.project [ColExpr.datum (Datum.int a5), ColExpr.datum (Datum.int b5)], DataOp.source [], DataOp.project [ColExpr.datum (Datum.int a6), ColExpr.datum (Datum.int b6)], DataOp.source [], DataOp.project [ColExpr.datum (Datum.int a7), ColExpr.datum (Datum.int b7)], DataOp.source [], DataOp.project [ColExpr.datum (Datum.int a8), ColExpr.datum (Datum.int b8)], DataOp.source [], DataOp.project [ColExpr.datum (Datum.int 1)], DataOp.select [], DataOp.select [], DataOp.source [], DataOp.join [] [([], [[]])] [] [], DataOp.join [0] [] [0] [], DataOp.project [ColExpr.var 2]], outputs := [[(21, 0)], [(20, 0), (18446744073709551615, 0)], [(3, 0)], [(0, 0)], [(5, 0)], [(0, 0)], [(7, 0)], [(0, 0)], [(9, 0)], [(0, 0)], [(11, 0)], [(0, 0)], [(13, 0)], [(0, 0)], [(15, 0)], [(0, 0)], [(17, 0)], [(0, 0)], [(19, 0)], [(1, 0)], [(23, 1)], [(24, 1)], [(23, 0)], [(24, 0)], [(25, 0)], [(1, 0)]], inboxes := [[([Datum.int a1, Datum.int b1], 0), ([Datum.int a2, Datum.int b2], 0), ([Datum.int a3, Datum.int b3], 0), ([Datum.int a4, Datum.int b4], 0), ([Datum.int a5, Datum.int b5], 0), ([Datum.int a6, Datum.int b6], 0), ([Datum.int a7, Datum.int b7], 0), ([Datum.int a8, Datum.int b8], 0)], [([Datum.int 1], 0)], [], [], [], [], [], [], [], [], [], [], [], [], [], [], [], [], [], [], [], [], [], [], [], []], schedule := { order := [24, 25, 0, 1], members := [1, 0, 25, 24] }, outbox := [] } : DF)) := by rfl
  have hs25 : DF.step ({ operators := [DataOp.distinct [], DataOp.distinct [], DataOp.source [], DataOp.project [ColExpr.datum (Datum.int a1), ColExpr.datum (Datum.int b1)], DataOp.source [], DataOp.project [ColExpr.datum (Datum.int a2), ColExpr.datum (Datum.int b2)], DataOp.source [], DataOp.project [ColExpr.datum (Datum.int a3), ColExpr.datum (Datum.int b3)], DataOp.source [], DataOp.project [ColExpr.datum (Datum.int a4), ColExpr.datum (Datum.int b4)], DataOp.source [], DataOp.project [ColExpr.datum (Datum.int a5), ColExpr.datum (Datum.int b5)], DataOp.source [], DataOp.project [ColExpr.datum (Datum.int a6), ColExpr.datum (Datum.int b6)], DataOp.source [], DataOp.project [ColExpr.datum (Datum.int a7), ColExpr.datum (Datum.int b7)], DataOp.source [], DataOp.project [ColExpr.datum (Datum.int a8), ColExpr.datum (Datum.int b8)], DataOp.source [], DataOp.project [ColExpr.datum (Datum.int 1)], DataOp.select [], DataOp.select [], DataOp.source [], DataOp.join [] [([], [[]])] [] [], DataOp.join [0] [] [0] [], DataOp.project [ColExpr.var 2]], outputs := [[(21, 0)], [(20, 0), (18446744073709551615, 0)], [(3, 0)], [(0, 0)], [(5, 0)], [(0, 0)], [(7, 0)], [(0, 0)], [(9, 0)], [(0, 0)], [(11, 0)], [(0, 0)], [(13, 0)], [(0, 0)], [(15, 0)], [(0, 0)], [(17, 0)], [(0, 0)], [(19, 0)], [(1, 0)], [(23, 1)], [(24, 1)], [(23, 0)], [(24, 0)], [(25, 0)], [(1, 0)]], inboxes := [[([Datum.int a1, Datum.int b1], 0), ([Datum.int a2, Datum.int b2], 0), ([Datum.int a3, Datum.int b3], 0), ([Datum.int a4, Datum.int b4], 0), ([Datum.int a5, Datum.int b5], 0), ([Datum.int a6, Datum.int b6], 0), ([Datum.int a7, Datum.int b7], 0), ([Datum.int a8, Datum.int b8], 0)], [([Datum.int 1], 0)], [], [], [], [], [], [], [], [], [], [], [], [], [], [], [], [], [], [], [], [], [], [], [], []], schedule := { order := [24, 25, 0, 1], members := [1, 0, 25, 24] }, outbox := [] } : DF) = .ok (some ({ operators := [DataOp.distinct [], DataOp.distinct [], DataOp.source [], DataOp.project [ColExpr.datum (Datum.int a1), ColExpr.datum (Datum.int b1)], DataOp.source [], DataOp.project [ColExpr.datum (Datum.int a2), ColExpr.datum (Datum.int b2)], DataOp.source [], DataOp.project [ColExpr.datum (Datum.int a3), ColExpr.datum (Datum.int b3)], DataOp.source [], DataOp.project [ColExpr.datum (Datum.int a4), ColExpr.datum (Datum.int b4)], DataOp.source [], DataOp.project [ColExpr.datum (Datum.int a5), ColExpr.datum (Datum.int b5)], DataOp.source [], DataOp.project [ColExpr.datum (Datum.int a6), ColExpr.datum (Datum.int b6)], DataOp.source [], DataOp.project [ColExpr.datum (Datum.int a7), ColExpr.datum (Datum.int b7)], DataOp.source [], DataOp.project [ColExpr.datum (Datum.int a8), ColExpr.datum (Datum.int b8)], DataOp.source [], DataOp.project [ColExpr.datum (Datum.int 1)], DataOp.select [], DataOp.select [], DataOp.source [], DataOp.join [] [([], [[]])] [] [], DataOp.join [0] [] [0] [], DataOp.project [ColExpr.var 2]], outputs := [[(21, 0)], [(20, 0), (18446744073709551615, 0)], [(3, 0)], [(0, 0)], [(5, 0)], [(0, 0)], [(7, 0)], [(0, 0)], [(9, 0)], [(0, 0)], [(11, 0)], [(0, 0)], [(13, 0)], [(0, 0)], [(15, 0)], [(0, 0)], [(17, 0)], [(0, 0)], [(19, 0)], [(1, 0)], [(23, 1)], [(24, 1)], [(23, 0)], [(24, 0)], [(25, 0)], [(1, 0)]], inboxes := [[([Datum.int a1, Datum.int b1], 0), ([Datum.int a2, Datum.int b2], 0), ([Datum.int a3, Datum.int b3], 0), ([Datum.int a4, Datum.int b4], 0), ([Datum.int a5, Datum.int b5], 0), ([Datum.int a6, Datum.int b6], 0), ([Datum.int a7, Datum.int b7], 0), ([Datum.int a8, Datum.int b8], 0)], [([Datum.int 1], 0)], [], [], [], [], [], [], [], [], [], [], [], [], [], [], [], [], [], [], [], [], [], [], [], []], schedule := { order := [25, 0, 1], members := [1, 0, 25] }, outbox := [] } : DF)) := by rfl
  have hs26 : DF.step ({ operators := [DataOp.distinct [], DataOp.distinct [], DataOp.source [], DataOp.project [ColExpr.datum (Datum.int a1), ColExpr.datum (Datum.int b1)], DataOp.source [], DataOp.project [ColExpr.datum (Datum.int a2), ColExpr.datum (Datum.int b2)], DataOp.source [], DataOp.project [ColExpr.datum (Datum.int a3), ColExpr.datum (Datum.int b3)], DataOp.source [], DataOp.project [ColExpr.datum (Datum.int a4), ColExpr.datum (Datum.int b4)], DataOp.source [], DataOp.project [ColExpr.datum (Datum.int a5), ColExpr.datum (Datum.int b5)], DataOp.source [], DataOp.project [ColExpr.datum (Datum.int a6), ColExpr.datum (Datum.int b6)], DataOp.source [], DataOp.project [ColExpr.datum (Datum.int a7), ColExpr.datum (Datum.int b7)], DataOp.source [], DataOp.project [ColExpr.datum (Datum.int a8), ColExpr.datum (Datum.int b8)], DataOp.source [], DataOp.project [ColExpr.datum (Datum.int 1)], DataOp.select [], DataOp.select [], DataOp.source [], DataOp.join [] [([], [[]])] [] [], DataOp.join [0] [] [0] [], DataOp.project [ColExpr.var 2]], outputs := [[(21, 0)], [(20, 0), (18446744073709551615, 0)], [(3, 0)], [(0, 0)], [(5, 0)], [(0, 0)], [(7, 0)], [(0, 0)], [(9, 0)], [(0, 0)], [(11, 0)], [(0, 0)], [(13, 0)], [(0, 0)], [(15, 0)], [(0, 0)], [(17, 0)], [(0, 0)], [(19, 0)], [(1, 0)], [(23, 1)], [(24, 1)], [(23, 0)], [(24, 0)], [(25, 0)], [(1, 0)]], inboxes := [[([Datum.int a1, Datum.int b1], 0), ([Datum.int a2, Datum.int b2], 0), ([Datum.int a3, Datum.int b3], 0), ([Datum.int a4, Datum.int b4], 0), ([Datum.int a5, Datum.int b5], 0), ([Datum.int a6, Datum.int b6], 0), ([Datum.int a7, Datum.int b7], 0), ([Datum.int a8, Datum.int b8], 0)], [([Datum.int 1], 0)], [], [], [], [], [], [], [], [], [], [], [], [], [], [], [], [], [], [], [], [], [], [], [], []], schedule := { order := [25, 0, 1], members := [1, 0, 25] }, outbox := [] } : DF) = .ok (some (C1State a1 b1 a2 b2 a3 b3 a4 b4 a5 b5 a6 b6 a7 b7 a8 b8 [] [] [] [] [] [([Datum.int a1, Datum.int b1], 0), ([Datum.int a2, Datum.int b2], 0), ([Datum.int a3, Datum.int b3], 0), ([Datum.int a4, Datum.int b4], 0), ([Datum.int a5, Datum.int b5], 0), ([Datum.int a6, Datum.int b6], 0), ([Datum.int a7, Datum.int b7], 0), ([Datum.int a8, Datum.int b8], 0)] [([Datum.int 1], 0)] [] [] [] [] [] ⟨[0, 1], [1, 0]⟩ [])) := by rfl
  refine (runFuel_succ_of_step 99 hs1).trans ?_
  refine (runFuel_succ_of_step 98 hs2).trans ?_
  refine (runFuel_succ_of_step 97 hs3).trans ?_
  refine (runFuel_succ_of_step 96 hs4).trans ?_
  refine (runFuel_succ_of_step 95 hs5).trans ?_
  refine (runFuel_succ_of_step 94 hs6).trans ?_
  refine (runFuel_succ_of_step 93 hs7).trans ?_
  refine (runFuel_succ_of_step 92 hs8).trans ?_
  refine (runFuel_succ_of_step 91 hs9).trans ?_
  refine (runFuel_succ_of_step 90 hs10).trans ?_
  refine (runFuel_succ_of_step 89 hs11).trans ?_
  refine (runFuel_succ_of_step 88 hs12).trans ?_
  refine (runFuel_succ_of_step 87 hs13).trans ?_
  refine (runFuel_succ_of_step 86 hs14).trans ?_
  refine (runFuel_succ_of_step 85 hs15).trans ?_
  refine (runFuel_succ_of_step 84 hs16).trans ?_
  refine (runFuel_succ_of_step 83 hs17).trans ?_
  refine (runFuel_succ_of_step 82 hs18).trans ?_
  refine (runFuel_succ_of_step 81 hs19).trans ?_
  refine (runFuel_succ_of_step 80 hs20).trans ?_
  refine (runFuel_succ_of_step 79 hs21).trans ?_
  refine (runFuel_succ_of_step 78 hs22).trans ?_
  refine (runFuel_succ_of_step 77 hs23).trans ?_
  refine (runFuel_succ_of_step 76 hs24).trans ?_
  refine (runFuel_succ_of_step 75 hs25).trans ?_
  exact runFuel_succ_of_step 74 hs26

set_option maxHeartbeats 1600000 in
/-- Claim C1: for the `Program` built in `main` - the eight edge facts (with
the duplicate `(1,2)`) in any order, the seed fact `reachable(1)`, and the
rule `reachable(A) :- reachable(B), edge(B, A)` - compiling with
`Program::render("reachable")` and running the dataflow to quiescence yields
exactly the rows `{[1],[2],[3],[4],[5]}`, each exactly once, with `6` and
`7` absent, independent of the order of the input edge facts. -/
theorem main_program_reachability (l : List (Int × Int))
    (hperm : l.Perm mainEdges) :
    ∃ (df : DF) (ob : List Row),
      render (mainProgram l) "reachable" = some df ∧
        runFuel 100 df = .ok ob ∧
        ob.Perm [[Datum.int 1], [Datum.int 2], [Datum.int 3], [Datum.int 4],
          [Datum.int 5]] := by
  have hlen : l.length = 8 := by rw [hperm.length_eq]; rfl
  obtain ⟨p1, l1, rfl⟩ : ∃ p t, l = p :: t := by
    rcases l with _ | ⟨p, t⟩
    · simp at hlen
    · exact ⟨p, t, rfl⟩
  obtain ⟨p2, l2, rfl⟩ : ∃ p t, l1 = p :: t := by
    rcases l1 with _ | ⟨p, t⟩
    · simp at hlen
    · exact ⟨p, t, rfl⟩
  obtain ⟨p3, l3, rfl⟩ : ∃ p t, l2 = p :: t := by
    rcases l2 with _ | ⟨p, t⟩
    · simp at hlen
    · exact ⟨p, t, rfl⟩
  obtain ⟨p4, l4, rfl⟩ : ∃ p t, l3 = p :: t := by
    rcases l3 with _ | ⟨p, t⟩
    · simp at hlen
    · exact ⟨p, t, rfl⟩
  obtain ⟨p5, l5, rfl⟩ : ∃ p t, l4 = p :: t := by
    rcases l4 with _ | ⟨p, t⟩
    · simp at hlen
    · exact ⟨p, t, rfl⟩
  obtain ⟨p6, l6, rfl⟩ : ∃ p t, l5 = p :: t := by
    rcases l5 with _ | ⟨p, t⟩
    · simp at hlen
    · exact ⟨p, t, rfl⟩
  obtain ⟨p7, l7, rfl⟩ : ∃ p t, l6 = p :: t := by
    rcases l6 with _ | ⟨p, t⟩
    · simp at hlen
    · exact ⟨p, t, rfl⟩
  obtain ⟨p8, l8, rfl⟩ : ∃ p t, l7 = p :: t := by
    rcases l7 with _ | ⟨p, t⟩
    · simp at hlen
    · exact ⟨p, t, rfl⟩
  obtain rfl : l8 = [] := by
    rcases l8 with _ | ⟨p, t⟩
    · rfl
    · simp at hlen
  obtain ⟨a1, b1⟩ := p1
  obtain ⟨a2, b2⟩ := p2
  obtain ⟨a3, b3⟩ := p3
  obtain ⟨a4, b4⟩ := p4
  obtain ⟨a5, b5⟩ := p5
  obtain ⟨a6, b6⟩ := p6
  obtain ⟨a7, b7⟩ := p7
  obtain ⟨a8, b8⟩ := p8
  have hpr := hperm.map (fun ab : Int × Int => [Datum.int ab.1, Datum.int ab.2])
  have hmain : mainEdges.map (fun ab : Int × Int =>
      [Datum.int ab.1, Datum.int ab.2])
      = [[Datum.int 1, Datum.int 2], [Datum.int 2, Datum.int 3],
         [Datum.int 1, Datum.int 3], [Datum.int 1, Datum.int 4],
         [Datum.int 1, Datum.int 2], [Datum.int 2, Datum.int 4],
         [Datum.int 4, Datum.int 5], [Datum.int 6, Datum.int 7]] := by decide
  have hE0main : ∀ x : Row, x ∈ (runDistinct ([] : List Row) ([([Datum.int a1, Datum.int b1], 0), ([Datum.int a2, Datum.int b2], 0), ([Datum.int a3, Datum.int b3], 0), ([Datum.int a4, Datum.int b4], 0), ([Datum.int a5, Datum.int b5], 0), ([Datum.int a6, Datum.int b6], 0), ([Datum.int a7, Datum.int b7], 0), ([Datum.int a8, Datum.int b8], 0)] : List (Row × Nat)).reverse).2 ↔ x ∈
      ([[Datum.int 1, Datum.int 2], [Datum.int 2, Datum.int 3],
        [Datum.int 1, Datum.int 3], [Datum.int 1, Datum.int 4],
        [Datum.int 1, Datum.int 2], [Datum.int 2, Datum.int 4],
        [Datum.int 4, Datum.int 5], [Datum.int 6, Datum.int 7]] : List Row) := by
    intro x
    rw [(runDistinct_emissions_mem _ _ x).1]
    constructor
    · rintro ⟨hx, -⟩
      rw [List.map_reverse, List.mem_reverse] at hx
      have h2 : x ∈ mainEdges.map (fun ab : Int × Int =>
          [Datum.int ab.1, Datum.int ab.2]) := (hpr.mem_iff).mp hx
      rw [hmain] at h2
      exact h2
    · intro hx
      refine ⟨?_, by simp⟩
      rw [List.map_reverse, List.mem_reverse]
      exact (hpr.mem_iff).mpr (by rw [hmain]; exact hx)
  obtain ⟨ob, hrun', hperm'⟩ := c1_run_from_A a1 b1 a2 b2 a3 b3 a4 b4 a5 b5
    a6 b6 a7 b7 a8 b8 (runDistinct ([] : List Row) ([([Datum.int a1, Datum.int b1], 0), ([Datum.int a2, Datum.int b2], 0), ([Datum.int a3, Datum.int b3], 0), ([Datum.int a4, Datum.int b4], 0), ([Datum.int a5, Datum.int b5], 0), ([Datum.int a6, Datum.int b6], 0), ([Datum.int a7, Datum.int b7], 0), ([Datum.int a8, Datum.int b8], 0)] : List (Row × Nat)).reverse).1 (runDistinct ([] : List Row) ([([Datum.int a1, Datum.int b1], 0), ([Datum.int a2, Datum.int b2], 0), ([Datum.int a3, Datum.int b3], 0), ([Datum.int a4, Datum.int b4], 0), ([Datum.int a5, Datum.int b5], 0), ([Datum.int a6, Datum.int b6], 0), ([Datum.int a7, Datum.int b7], 0), ([Datum.int a8, Datum.int b8], 0)] : List (Row × Nat)).reverse).2 hE0main
  refine ⟨({ operators := [DataOp.distinct [], DataOp.distinct [], DataOp.source [[]], DataOp.project [ColExpr.datum (Datum.int a1), ColExpr.datum (Datum.int b1)], DataOp.source [[]], DataOp.project [ColExpr.datum (Datum.int a2), ColExpr.datum (Datum.int b2)], DataOp.source [[]], DataOp.project [ColExpr.datum (Datum.int a3), ColExpr.datum (Datum.int b3)], DataOp.source [[]], DataOp.project [ColExpr.datum (Datum.int a4), ColExpr.datum (Datum.int b4)], DataOp.source [[]], DataOp.project [ColExpr.datum (Datum.int a5), ColExpr.datum (Datum.int b5)], DataOp.source [[]], DataOp.project [ColExpr.datum (Datum.int a6), ColExpr.datum (Datum.int b6)], DataOp.source [[]], DataOp.project [ColExpr.datum (Datum.int a7), ColExpr.datum (Datum.int b7)], DataOp.source [[]], DataOp.project [ColExpr.datum (Datum.int a8), ColExpr.datum (Datum.int b8)], DataOp.source [[]], DataOp.project [ColExpr.datum (Datum.int 1)], DataOp.select [], DataOp.select [], DataOp.source [[]], DataOp.join [] [] [] [], DataOp.join [0] [] [0] [], DataOp.project [ColExpr.var 2]], outputs := [[(21, 0)], [(20, 0), (18446744073709551615, 0)], [(3, 0)], [(0, 0)], [(5, 0)], [(0, 0)], [(7, 0)], [(0, 0)], [(9, 0)], [(0, 0)], [(11, 0)], [(0, 0)], [(13, 0)], [(0, 0)], [(15, 0)], [(0, 0)], [(17, 0)], [(0, 0)], [(19, 0)], [(1, 0)], [(23, 1)], [(24, 1)], [(23, 0)], [(24, 0)], [(25, 0)], [(1, 0)]], inboxes := [[], [], [], [], [], [], [], [], [], [], [], [], [], [], [], [], [], [], [], [], [], [], [], [], [], []], schedule := { order := [0, 1, 2, 3, 4, 5, 6, 7, 8, 9, 10, 11, 12, 13, 14, 15, 16, 17, 18, 19, 20, 21, 22, 23, 24, 25], members := [25, 24, 23, 22, 21, 20, 19, 18, 17, 16, 15, 14, 13, 12, 11, 10, 9, 8, 7, 6, 5, 4, 3, 2, 1, 0] }, outbox := [] } : DF), ob, ?_, ?_, hperm'⟩
  · rw [c1_mainProgram_eq a1 b1 a2 b2 a3 b3 a4 b4 a5 b5 a6 b6 a7 b7 a8 b8]
    exact c1_render_eq a1 b1 a2 b2 a3 b3 a4 b4 a5 b5 a6 b6 a7 b7 a8 b8
  refine (c1_roundone a1 b1 a2 b2 a3 b3 a4 b4 a5 b5 a6 b6 a7 b7 a8 b8).trans ?_
  apply Eq.trans (c1_step_distinct0 73 ?hpop0 ?hne0)
  case hpop0 => rfl
  case hne0 =>
    apply List.ne_nil_of_mem
    refine ((runDistinct_emissions_mem _ _
      [Datum.int 1, Datum.int 2]).1).mpr ⟨?_, by decide⟩
    rw [List.map_reverse, List.mem_reverse]
    exact (hpr.mem_iff).mpr (by rw [hmain]; decide)
  simp only [List.nil_append]
  exact hrun'

theorem main_program_reachability_witness :
    ([(6, 7), (4, 5), (2, 4), (1, 2), (1, 4), (1, 3), (2, 3),
        (1, 2)] : List (Int × Int)).Perm mainEdges ∧
      ∃ (df : DF) (ob : List Row),
        render (mainProgram [(6, 7), (4, 5), (2, 4), (1, 2), (1, 4), (1, 3),
            (2, 3), (1, 2)]) "reachable" = some df ∧
          runFuel 100 df = .ok ob ∧
          ob.Perm [[Datum.int 1], [Datum.int 2], [Datum.int 3], [Datum.int 4],
            [Datum.int 5]] :=
  ⟨by decide, main_program_reachability
    [(6, 7), (4, 5), (2, 4), (1, 2), (1, 4), (1, 3), (2, 3), (1, 2)]
    (by decide)⟩

end Babyflow
